import Mathlib

/-!
Voxel graph editor: node-type registry and edit transactions

A shallow embedding of `generators/graph/voxel_graph_node_db.cpp` and
`editor/voxel_graph_editor.cpp`.

Conventions of the embedding:
* C++ `uint32_t`/`size_t`/`int` indices and ids are natural numbers (the sources never
  compute with them beyond comparison and increment);
* `float`/`real_t` payloads are exact rationals (the sources only store and copy them);
* `ERR_FAIL_*` (log and return) leaves the state as it is at that point and returns;
* `CRASH_*` (abort the process) and a dereference of a null pointer are `none`.
-/

namespace VoxelGraph

/-! ## Engine values -/

/-- The `Variant::Type` tags the sources dispatch on (`INT` stands for every other tag). -/
inductive VariantType where
  | NIL
  | INT
  | REAL
  | OBJECT
  deriving DecidableEq, Repr

/-- A `Variant` value. -/
inductive Variant where
  | NIL
  | INT (v : Int)
  | REAL (v : ℚ)
  | OBJECT (ref : Nat)
  deriving DecidableEq, Repr

/-- `Variant::get_type`. -/
def Variant.get_type : Variant → VariantType
  | .NIL => .NIL
  | .INT _ => .INT
  | .REAL _ => .REAL
  | .OBJECT _ => .OBJECT

instance : Inhabited Variant := ⟨Variant.NIL⟩

/-- A `HashMap<K, V>`: at most one entry per key. -/
abbrev HashMap (κ ν : Type) := List (κ × ν)

/-- `HashMap::set`: insert, overwriting the entry of an existing key. -/
def HashMap.set {κ ν : Type} [DecidableEq κ] (m : HashMap κ ν) (k : κ) (v : ν) : HashMap κ ν :=
  (k, v) :: m.filter (fun e => decide (e.1 ≠ k))

/-- `HashMap::getptr`: the value stored under the key, or a null pointer. -/
def HashMap.getptr {κ ν : Type} [DecidableEq κ] (m : HashMap κ ν) (k : κ) : Option ν :=
  (m.find? (fun e => decide (e.1 = k))).map Prod.snd

/-! ## `VoxelGraphNodeDB` (voxel_graph_node_db.cpp) -/

/-- Modelled from the spec: `VoxelGraphNodeDB::Port` (declared in voxel_graph_node_db.h,
which is not among the sources): a port has a name. -/
structure Port where
  name : String
  deriving DecidableEq, Repr

/-- Modelled from the spec: `VoxelGraphNodeDB::Param` (declared in voxel_graph_node_db.h,
which is not among the sources): name, value kind, class name of a resource
reference, default value, and the index that the constructor loop stores. -/
structure Param where
  name : String
  type : VariantType
  class_name : String
  default_value : Variant
  index : Nat
  deriving DecidableEq, Repr

/-- Modelled from the spec: the constructor `Param(name, type, default_value = Variant())`
of the missing header; the index is not yet assigned (all bits set). -/
def Param.typed (name : String) (type : VariantType) (default_value : Variant := Variant.NIL) :
    Param :=
  ⟨name, type, "", default_value, 4294967295⟩

/-- Modelled from the spec: the constructor `Param(name, class_name)` of the missing header,
a resource reference (`Variant::OBJECT`) without default value. -/
def Param.object (name : String) (class_name : String) : Param :=
  ⟨name, VariantType.OBJECT, class_name, Variant.NIL, 4294967295⟩

/-- `VoxelGraphNodeDB::NodeType`. -/
structure NodeType where
  name : String := ""
  inputs : List Port := []
  outputs : List Port := []
  params : List Param := []
  param_name_to_index : HashMap String Nat := []
  input_name_to_index : HashMap String Nat := []
  deriving DecidableEq, Repr

instance : Inhabited NodeType := ⟨{}⟩

/-- Modelled from the spec: the enumerators of `VoxelGeneratorGraph::NodeTypeID`
(declared in voxel_generator_graph.h, which is not among the sources), numbered
from zero in the order of the catalogue: constant, the three coordinate inputs, the scalar
output, arithmetic, unary operations, distances, clamp, mix, remap, curve, noises, image. -/
inductive NodeTypeID where
  | NODE_CONSTANT
  | NODE_INPUT_X
  | NODE_INPUT_Y
  | NODE_INPUT_Z
  | NODE_OUTPUT_SDF
  | NODE_ADD
  | NODE_SUBTRACT
  | NODE_MULTIPLY
  | NODE_SINE
  | NODE_FLOOR
  | NODE_ABS
  | NODE_SQRT
  | NODE_DISTANCE_2D
  | NODE_DISTANCE_3D
  | NODE_CLAMP
  | NODE_MIX
  | NODE_REMAP
  | NODE_CURVE
  | NODE_NOISE_2D
  | NODE_NOISE_3D
  | NODE_IMAGE_2D
  deriving DecidableEq, Repr

/-- The integer value of an enumerator. -/
def NodeTypeID.val : NodeTypeID → Nat
  | .NODE_CONSTANT => 0
  | .NODE_INPUT_X => 1
  | .NODE_INPUT_Y => 2
  | .NODE_INPUT_Z => 3
  | .NODE_OUTPUT_SDF => 4
  | .NODE_ADD => 5
  | .NODE_SUBTRACT => 6
  | .NODE_MULTIPLY => 7
  | .NODE_SINE => 8
  | .NODE_FLOOR => 9
  | .NODE_ABS => 10
  | .NODE_SQRT => 11
  | .NODE_DISTANCE_2D => 12
  | .NODE_DISTANCE_3D => 13
  | .NODE_CLAMP => 14
  | .NODE_MIX => 15
  | .NODE_REMAP => 16
  | .NODE_CURVE => 17
  | .NODE_NOISE_2D => 18
  | .NODE_NOISE_3D => 19
  | .NODE_IMAGE_2D => 20

/-- Modelled from the spec: `VoxelGeneratorGraph::NODE_TYPE_COUNT`, the enumerator that
closes `NodeTypeID` in the missing header. -/
def NODE_TYPE_COUNT : Nat := 21

/-- `NodeType &t = types[id]; ...`: one block of the constructor, editing entry `id`. -/
def declare (types : List NodeType) (id : NodeTypeID) (block : NodeType → NodeType) :
    List NodeType :=
  types.modify block id.val

/-- `t.inputs.push_back(Port(name))`. -/
def NodeType.push_input (t : NodeType) (name : String) : NodeType :=
  { t with inputs := t.inputs ++ [Port.mk name] }

/-- `t.outputs.push_back(Port(name))`. -/
def NodeType.push_output (t : NodeType) (name : String) : NodeType :=
  { t with outputs := t.outputs ++ [Port.mk name] }

/-- `t.params.push_back(p)`. -/
def NodeType.push_param (t : NodeType) (p : Param) : NodeType :=
  { t with params := t.params ++ [p] }

/-- `t.name = name`. -/
def NodeType.set_name (t : NodeType) (name : String) : NodeType :=
  { t with name := name }

/-- The first part of the constructor (lines 24-174): the declared catalogue. -/
def declared_types : List NodeType :=
  let types : List NodeType := List.replicate NODE_TYPE_COUNT {}
  let types := declare types .NODE_CONSTANT fun t =>
    ((t.set_name "Constant").push_output "value").push_param (Param.typed "value" .REAL)
  let types := declare types .NODE_INPUT_X fun t => (t.set_name "InputX").push_output "x"
  let types := declare types .NODE_INPUT_Y fun t => (t.set_name "InputY").push_output "y"
  let types := declare types .NODE_INPUT_Z fun t => (t.set_name "InputZ").push_output "z"
  let types := declare types .NODE_OUTPUT_SDF fun t => (t.set_name "OutputSDF").push_input "sdf"
  let types := declare types .NODE_ADD fun t =>
    (((t.set_name "Add").push_input "a").push_input "b").push_output "out"
  let types := declare types .NODE_SUBTRACT fun t =>
    (((t.set_name "Subtract").push_input "a").push_input "b").push_output "out"
  let types := declare types .NODE_MULTIPLY fun t =>
    (((t.set_name "Multiply").push_input "a").push_input "b").push_output "product"
  let types := declare types .NODE_SINE fun t =>
    ((t.set_name "Sine").push_input "x").push_output "out"
  let types := declare types .NODE_FLOOR fun t =>
    ((t.set_name "Floor").push_input "x").push_output "out"
  let types := declare types .NODE_ABS fun t =>
    ((t.set_name "Abs").push_input "x").push_output "out"
  let types := declare types .NODE_SQRT fun t =>
    ((t.set_name "Sqrt").push_input "x").push_output "out"
  let types := declare types .NODE_DISTANCE_2D fun t =>
    (((((t.set_name "Distance2D").push_input "x0").push_input "y0").push_input "x1").push_input
      "y1").push_output "out"
  let types := declare types .NODE_DISTANCE_3D fun t =>
    (((((((t.set_name "Distance3D").push_input "x0").push_input "y0").push_input "z0").push_input
      "x1").push_input "y1").push_input "z1").push_output "out"
  let types := declare types .NODE_CLAMP fun t =>
    ((((t.set_name "Clamp").push_input "x").push_output "out").push_param
      (Param.typed "min" .REAL (.REAL (-1)))).push_param (Param.typed "max" .REAL (.REAL 1))
  let types := declare types .NODE_MIX fun t =>
    ((((t.set_name "Mix").push_input "a").push_input "b").push_input "ratio").push_output "out"
  let types := declare types .NODE_REMAP fun t =>
    ((((((t.set_name "Remap").push_input "x").push_output "out").push_param
      (Param.typed "min0" .REAL (.REAL (-1)))).push_param
      (Param.typed "max0" .REAL (.REAL 1))).push_param
      (Param.typed "min1" .REAL (.REAL (-1)))).push_param (Param.typed "max1" .REAL (.REAL 1))
  let types := declare types .NODE_CURVE fun t =>
    (((t.set_name "Curve").push_input "x").push_output "out").push_param
      (Param.object "curve" "Curve")
  let types := declare types .NODE_NOISE_2D fun t =>
    ((((t.set_name "Noise2D").push_input "x").push_input "y").push_output "out").push_param
      (Param.object "noise" "OpenSimplexNoise")
  let types := declare types .NODE_NOISE_3D fun t =>
    (((((t.set_name "Noise3D").push_input "x").push_input "y").push_input "z").push_output
      "out").push_param (Param.object "noise" "OpenSimplexNoise")
  let types := declare types .NODE_IMAGE_2D fun t =>
    ((((t.set_name "Image").push_input "x").push_input "y").push_output "out").push_param
      (Param.object "image" "Image")
  types

/-- The body of the parameter loop (lines 181-198) for one parameter: store the index, then
normalise the default by value kind; any kind other than REAL and OBJECT aborts. -/
def derive_param (param_index : Nat) (p : Param) : Option Param :=
  let p := { p with index := param_index }
  match p.type with
  | .REAL =>
    if p.default_value.get_type = .NIL then some { p with default_value := .REAL 0 } else some p
  | .OBJECT => some p
  | _ => none

/-- The parameter loop (lines 180-199) from index `param_index` on: the rewritten parameters
and the name lookup extended by `param_name_to_index.set(p.name, param_index)`. -/
def derive_params : List Param → Nat → HashMap String Nat →
    Option (List Param × HashMap String Nat)
  | [], _, m => some ([], m)
  | p :: ps, param_index, m =>
    match derive_param param_index p with
    | none => none
    | some q =>
      match derive_params ps (param_index + 1) (m.set p.name param_index) with
      | none => none
      | some (qs, m2) => some (q :: qs, m2)

/-- The input loop (lines 201-204) from index `input_index` on. -/
def derive_inputs : List Port → Nat → HashMap String Nat → HashMap String Nat
  | [], _, m => m
  | p :: ps, input_index, m => derive_inputs ps (input_index + 1) (m.set p.name input_index)

/-- The body of the outer loop (lines 177-204) for one node type. -/
def derive_type (t : NodeType) : Option NodeType :=
  match derive_params t.params 0 t.param_name_to_index with
  | none => none
  | some (params, pmap) =>
    some { t with
      params := params
      param_name_to_index := pmap
      input_name_to_index := derive_inputs t.inputs 0 t.input_name_to_index }

/-- The outer loop (lines 176-205) from type id `i` on: rewritten types and the lookup
`_type_name_to_id`. -/
def derive_types : List NodeType → Nat → HashMap String Nat →
    Option (List NodeType × HashMap String Nat)
  | [], _, m => some ([], m)
  | t :: ts, i, m =>
    match derive_type t with
    | none => none
    | some u =>
      match derive_types ts (i + 1) (m.set t.name i) with
      | none => none
      | some (us, m2) => some (u :: us, m2)

/-- The registry object: `_types` and `_type_name_to_id`. -/
structure VoxelGraphNodeDB where
  _types : List NodeType
  _type_name_to_id : HashMap String Nat
  deriving DecidableEq, Repr

/-- The second part of the constructor (lines 176-205) run over any table of types. -/
def VoxelGraphNodeDB.derive (types : List NodeType) : Option VoxelGraphNodeDB :=
  match derive_types types 0 [] with
  | none => none
  | some (ts, m) => some ⟨ts, m⟩

/-- `VoxelGraphNodeDB::VoxelGraphNodeDB()`; `none` when a `CRASH_NOW` is reached. -/
def VoxelGraphNodeDB.create : Option VoxelGraphNodeDB :=
  VoxelGraphNodeDB.derive declared_types

/-- `VoxelGraphNodeDB::get_type_count` (the size of `_types`). -/
def VoxelGraphNodeDB.get_type_count (db : VoxelGraphNodeDB) : Nat :=
  db._types.length

/-- `VoxelGraphNodeDB::get_type`: `_types[id]`, which aborts when `id` is out of range. -/
def VoxelGraphNodeDB.get_type (db : VoxelGraphNodeDB) (id : Nat) : Option NodeType :=
  db._types[id]?

/-- `VoxelGraphNodeDB::try_get_type_id_from_name`. -/
def VoxelGraphNodeDB.try_get_type_id_from_name (db : VoxelGraphNodeDB) (name : String) :
    Option Nat :=
  db._type_name_to_id.getptr name

/-- `VoxelGraphNodeDB::try_get_param_index_from_name`. -/
def VoxelGraphNodeDB.try_get_param_index_from_name (db : VoxelGraphNodeDB) (type_id : Nat)
    (name : String) : Option Nat :=
  match db._types[type_id]? with
  | none => none
  | some t => t.param_name_to_index.getptr name

/-- `VoxelGraphNodeDB::try_get_input_index_from_name`. -/
def VoxelGraphNodeDB.try_get_input_index_from_name (db : VoxelGraphNodeDB) (type_id : Nat)
    (name : String) : Option Nat :=
  match db._types[type_id]? with
  | none => none
  | some t => t.input_name_to_index.getptr name

/-- `VoxelGraphNodeDB::get_singleton` after `create_singleton`: the constructed registry. -/
def VoxelGraphNodeDB.get_singleton : VoxelGraphNodeDB :=
  VoxelGraphNodeDB.create.getD ⟨[], []⟩

/-! ## Engine: text, ranges, the graph view and the undo stack

These are the interfaces of the engine that the editor drives (section 6 of the
specification); they are not code of this repository. -/

/-- `itos`, the text of an integer `Variant`: its decimal digits (`String::num_int64`). -/
def itos (n : Nat) : String := Nat.repr n

/-- The implicit conversion of a node id to the `int` parameter of a bound method. -/
def to_int32 (n : Nat) : Int :=
  if n % 4294967296 < 2147483648 then ((n % 4294967296 : Nat) : Int)
  else ((n % 4294967296 : Nat) : Int) - 4294967296

/-- The implicit conversion of an `int` argument to `uint32_t`. -/
def to_uint32 (i : Int) : Nat := (i % 4294967296).toNat

/-- The number that a digit string denotes (used to read a view-node name back). -/
def decimal_value (cs : List Char) : Nat := cs.foldl (fun a c => a * 10 + (c.toNat - 48)) 0

/-- `Vector2`. -/
abbrev Vector2 := ℚ × ℚ

/-- `EDSCALE`, the display scale of the editor (an engine setting; 1 at 100%). -/
def EDSCALE : ℚ := 1

/-- `Variant::operator double`: the number a `Variant` converts to. -/
def Variant.to_real : Variant → ℚ
  | .REAL v => v
  | .INT v => v
  | _ => 0

/-- `Math::round`: to the nearest integer, halves away from zero. -/
def Math.round (x : ℚ) : ℚ :=
  if 0 ≤ x then ((Rat.floor (x + 1 / 2) : Int) : ℚ) else -((Rat.floor (-x + 1 / 2) : Int) : ℚ)

/-- The power `2^e` of two as a rational. -/
def pow2 (e : Int) : ℚ :=
  if 0 ≤ e then ((2 ^ e.toNat : Nat) : ℚ) else 1 / ((2 ^ (-e).toNat : Nat) : ℚ)

/-- Rounding to the nearest integer, ties to the even one (the default rounding of
IEEE 754). -/
def round_half_even (q : ℚ) : Int :=
  let f := Rat.floor q
  if q - f < 1 / 2 then f
  else if 1 / 2 < q - f then f + 1
  else if f % 2 = 0 then f
  else f + 1

/-- The conversion of a `double` to a `float` (IEEE 754 binary32, round to nearest, ties to
even), which the call of a bound method with a `float` parameter performs on its argument:
the exponent is that of the value, not below -126 (subnormal numbers), and the value is
rounded to a multiple of `2^(exponent - 23)`. A magnitude of `2^128 - 2^103` or more has no
`float` (the conversion overflows): `none`. -/
def to_float (x : ℚ) : Option ℚ :=
  let a := if x < 0 then -x else x
  if pow2 128 - pow2 103 ≤ a then none
  else if x = 0 then some 0
  else
    let e0 : Int := (Nat.log2 x.num.natAbs : Int) - (Nat.log2 x.den : Int)
    let e := if pow2 e0 ≤ a then e0 else e0 - 1
    let e := if e < -126 then -126 else e
    let ulp := pow2 (e - 23)
    some (((round_half_even (x / ulp) : Int) : ℚ) * ulp)

/-- The class of a value widget: the numeric spinner or the placeholder label. -/
inductive ControlClass where
  | SpinBox
  | Label
  deriving DecidableEq, Repr

/-- A value widget (`Control`) of a view node: its class, its visibility, the `Range`
settings and value of a spinner, the text of a label, and the arguments bound to the
connection of its `value_changed` signal. -/
structure Control where
  cls : ControlClass
  visible : Bool
  step : ℚ
  min : ℚ
  max : ℚ
  value : ℚ
  text : String
  value_changed : Option (Nat × Nat × Bool)
  deriving DecidableEq, Repr

/-- `Range::set_value`: round to the step, clamp, store; the result says whether
`value_changed` is emitted (it is when the stored value changes). -/
def Range.set_value (c : Control) (p_val : ℚ) : Control × Bool :=
  let v := if 0 < c.step then Math.round (p_val / c.step) * c.step else p_val
  let v := if v > c.max then c.max else v
  let v := if v < c.min then c.min else v
  if c.value = v then (c, false) else ({ c with value := v }, true)

/-- One row of a view node: the texts of its labels and the two flags of `set_slot`. -/
structure GraphNodeRow where
  labels : List String
  has_left : Bool
  has_right : Bool
  deriving DecidableEq, Repr

/-- `VoxelGraphEditorNode`: a `GraphNode` with the model id and the value widgets. -/
structure VoxelGraphEditorNode where
  name : String
  node_id : Nat
  offset : Vector2
  title : String
  selected : Bool
  rows : List GraphNodeRow
  input_controls : List Control
  param_controls : List Control
  deriving DecidableEq, Repr

/-- `GraphEdit::Connection`: a visual edge. -/
structure GraphEditConnection where
  from_node : String
  from_port : Nat
  to_node : String
  to_port : Nat
  deriving DecidableEq, Repr

/-- `GraphEdit`: the view nodes among its children and its visual edges. -/
structure GraphEdit where
  children : List VoxelGraphEditorNode
  connections : List GraphEditConnection
  deriving DecidableEq, Repr

/-- `Object::cast_to<VoxelGraphEditorNode>(get_node(name))`: the view node of that name, or
a null pointer. -/
def GraphEdit.get_node (ge : GraphEdit) (name : String) : Option VoxelGraphEditorNode :=
  ge.children.find? fun v => decide (v.name = name)

/-- `Node::has_node`. -/
def GraphEdit.has_node (ge : GraphEdit) (name : String) : Bool :=
  (ge.get_node name).isSome

/-- `Node::add_child`. -/
def GraphEdit.add_child (ge : GraphEdit) (v : VoxelGraphEditorNode) : GraphEdit :=
  { ge with children := ge.children ++ [v] }

/-- `memdelete(node_view)` for the child of that name. -/
def GraphEdit.delete_child (ge : GraphEdit) (name : String) : GraphEdit :=
  match ge.get_node name with
  | none => ge
  | some v => { ge with children := ge.children.erase v }

/-- `GraphEdit::is_node_connected`. -/
def GraphEdit.is_node_connected (ge : GraphEdit) (c : GraphEditConnection) : Bool :=
  decide (c ∈ ge.connections)

/-- `GraphEdit::connect_node`: nothing when the edge exists, else the edge is appended. -/
def GraphEdit.connect_node (ge : GraphEdit) (from_node : String) (from_port : Nat)
    (to_node : String) (to_port : Nat) : GraphEdit :=
  let c : GraphEditConnection := ⟨from_node, from_port, to_node, to_port⟩
  if ge.is_node_connected c then ge else { ge with connections := ge.connections ++ [c] }

/-- `GraphEdit::disconnect_node`: the first edge with these endpoints is erased. -/
def GraphEdit.disconnect_node (ge : GraphEdit) (from_node : String) (from_port : Nat)
    (to_node : String) (to_port : Nat) : GraphEdit :=
  { ge with connections := ge.connections.erase ⟨from_node, from_port, to_node, to_port⟩ }

/-- `GraphEdit::clear_connections`. -/
def GraphEdit.clear_connections (ge : GraphEdit) : GraphEdit :=
  { ge with connections := [] }

/-- A write through the `VoxelGraphEditorNode *` that `get_node(name)` returns: the first
child of that name is replaced. -/
def update_named (name : String) (f : VoxelGraphEditorNode → VoxelGraphEditorNode) :
    List VoxelGraphEditorNode → List VoxelGraphEditorNode
  | [] => []
  | v :: rest => if v.name = name then f v :: rest else v :: update_named name f rest

/-- A write through the pointer to the view node of that name. -/
def GraphEdit.update_node (ge : GraphEdit) (name : String)
    (f : VoxelGraphEditorNode → VoxelGraphEditorNode) : GraphEdit :=
  { ge with children := update_named name f ge.children }

/-- `node_view->input_controls[input_index]->set_visible(visible)`. -/
def VoxelGraphEditorNode.set_input_visible (v : VoxelGraphEditorNode) (input_index : Nat)
    (visible : Bool) : VoxelGraphEditorNode :=
  { v with input_controls :=
      v.input_controls.modify (fun c => { c with visible := visible }) input_index }

/-! ## `VoxelGeneratorGraph` (the graph model)

voxel_generator_graph.cpp and program_graph.cpp are not among the sources; the
model follows section 4.2 of the specification. An operation that "fails" or "rejects"
leaves the graph as it is; a "fatal" error is `none`. -/

/-- Modelled from the spec: `ProgramGraph::PortLocation`, an endpoint (node id, port index). -/
structure PortLocation where
  node_id : Nat
  port_index : Nat
  deriving DecidableEq, Repr

/-- Modelled from the spec: `ProgramGraph::Connection`, source output to destination input. -/
structure Connection where
  src : PortLocation
  dst : PortLocation
  deriving DecidableEq, Repr

/-- Modelled from the spec: a node of the model (`ProgramGraph::Node`): id, type id,
placement, per-input default values and per-parameter values. -/
structure Node where
  id : Nat
  type_id : Nat
  gui_position : Vector2
  default_inputs : List Variant
  params : List Variant
  deriving DecidableEq, Repr

/-- Modelled from the spec: `VoxelGeneratorGraph`, the nodes, the connections and the
counter of the id generator. -/
structure VoxelGeneratorGraph where
  nodes : List Node
  connections : List Connection
  next_id : Nat
  deriving DecidableEq, Repr

/-- Modelled from the spec: the node of that id, if it is live. -/
def VoxelGeneratorGraph.find_node (g : VoxelGeneratorGraph) (id : Nat) : Option Node :=
  g.nodes.find? fun n => decide (n.id = id)

/-- Modelled from the spec: `get_node_ids`. -/
def VoxelGeneratorGraph.get_node_ids (g : VoxelGeneratorGraph) : List Nat :=
  g.nodes.map Node.id

/-- Modelled from the spec: `getConnections`, a pure accessor. -/
def VoxelGeneratorGraph.get_connections (g : VoxelGeneratorGraph) : List Connection :=
  g.connections

/-- Modelled from the spec: `getNodeTypeId`; a missing node is fatal. -/
def VoxelGeneratorGraph.get_node_type_id (g : VoxelGeneratorGraph) (id : Nat) : Option Nat :=
  (g.find_node id).map Node.type_id

/-- Modelled from the spec: `getNodeGuiPosition`; a missing node is fatal. -/
def VoxelGeneratorGraph.get_node_gui_position (g : VoxelGeneratorGraph) (id : Nat) :
    Option Vector2 :=
  (g.find_node id).map Node.gui_position

/-- Modelled from the spec: `getNodeParam`; a missing node or an index out of range is
fatal. -/
def VoxelGeneratorGraph.get_node_param (g : VoxelGeneratorGraph) (id : Nat) (index : Nat) :
    Option Variant :=
  match g.find_node id with
  | none => none
  | some n => n.params[index]?

/-- Modelled from the spec: `getNodeDefaultInput`; a missing node or an index out of range
is fatal. -/
def VoxelGeneratorGraph.get_node_default_input (g : VoxelGeneratorGraph) (id : Nat)
    (index : Nat) : Option Variant :=
  match g.find_node id with
  | none => none
  | some n => n.default_inputs[index]?

/-- Modelled from the spec: the id generator ("monotonically generated per graph, never
reused"): the next id and the graph with the counter advanced. -/
def VoxelGeneratorGraph.generate_node_id (g : VoxelGeneratorGraph) :
    Nat × VoxelGeneratorGraph :=
  (g.next_id, { g with next_id := g.next_id + 1 })

/-- Modelled from the spec: `createNode(typeId, position, explicitId)`: "fails if typeId
invalid or explicitId already in use"; the new node has the default of each parameter as its
value (the scenario of section 8: a created Constant has value 0.0). The specification calls
the default inputs "scalar overrides" and names no initial value: the scalar 0 is taken, as
for a numeric parameter without declared default. -/
def VoxelGeneratorGraph.create_node (g : VoxelGeneratorGraph) (type_id : Nat)
    (position : Vector2) (id : Nat) : VoxelGeneratorGraph :=
  match VoxelGraphNodeDB.get_singleton.get_type type_id with
  | none => g
  | some ty =>
    if (g.find_node id).isSome then g
    else
      { g with nodes := g.nodes ++ [{
          id := id
          type_id := type_id
          gui_position := position
          default_inputs := List.replicate ty.inputs.length (Variant.REAL 0)
          params := ty.params.map Param.default_value }] }

/-- Modelled from the spec: `removeNode(nodeId)`: "fails if nodeId unknown"; "the model
itself does not cascade", the connections are left as they are. -/
def VoxelGeneratorGraph.remove_node (g : VoxelGeneratorGraph) (id : Nat) :
    VoxelGeneratorGraph :=
  { g with nodes := g.nodes.filter fun n => decide (n.id ≠ id) }

/-- Modelled from the spec: whether an input has an incoming connection. -/
def VoxelGeneratorGraph.is_input_connected (g : VoxelGeneratorGraph) (node_id : Nat)
    (port_index : Nat) : Bool :=
  g.connections.any fun c => decide (c.dst = ⟨node_id, port_index⟩)

/-- Modelled from the spec: `canConnect(src, srcPort, dst, dstPort)`, "mirroring
addConnection validation": both nodes exist, srcPort is a valid output index of the type
of the source, dstPort a valid input index of the type of the destination, and the
destination input has no existing connection. -/
def VoxelGeneratorGraph.can_connect (g : VoxelGeneratorGraph) (src_node_id src_port_index
    dst_node_id dst_port_index : Nat) : Bool :=
  match g.find_node src_node_id, g.find_node dst_node_id with
  | some sn, some dn =>
    match VoxelGraphNodeDB.get_singleton.get_type sn.type_id,
        VoxelGraphNodeDB.get_singleton.get_type dn.type_id with
    | some st, some dt =>
      decide (src_port_index < st.outputs.length) && decide (dst_port_index < dt.inputs.length)
        && !g.is_input_connected dst_node_id dst_port_index
    | _, _ => false
  | _, _ => false

/-- Modelled from the spec: `addConnection`: validates as `canConnect` does and "fails
otherwise"; the connection is appended. -/
def VoxelGeneratorGraph.add_connection (g : VoxelGeneratorGraph) (src_node_id src_port_index
    dst_node_id dst_port_index : Nat) : VoxelGeneratorGraph :=
  if g.can_connect src_node_id src_port_index dst_node_id dst_port_index then
    { g with connections :=
        g.connections ++ [⟨⟨src_node_id, src_port_index⟩, ⟨dst_node_id, dst_port_index⟩⟩] }
  else g

/-- Modelled from the spec: `removeConnection`: "fails if no matching connection exists". -/
def VoxelGeneratorGraph.remove_connection (g : VoxelGeneratorGraph) (src_node_id
    src_port_index dst_node_id dst_port_index : Nat) : VoxelGeneratorGraph :=
  { g with connections :=
      g.connections.erase ⟨⟨src_node_id, src_port_index⟩, ⟨dst_node_id, dst_port_index⟩⟩ }

/-- Replace the node of that id. -/
def VoxelGeneratorGraph.update_node (g : VoxelGeneratorGraph) (id : Nat) (f : Node → Node) :
    VoxelGeneratorGraph :=
  { g with nodes := g.nodes.map fun n => if n.id = id then f n else n }

/-- Modelled from the spec: `setNodeParam`: "type-checked against the schema of the type;
out-of-range index is a fatal programming error, wrong value kind is a user-facing
rejection" (a missing node or type is fatal too). -/
def VoxelGeneratorGraph.set_node_param (g : VoxelGeneratorGraph) (id : Nat) (index : Nat)
    (value : Variant) : Option VoxelGeneratorGraph :=
  match g.find_node id with
  | none => none
  | some n =>
    match VoxelGraphNodeDB.get_singleton.get_type n.type_id with
    | none => none
    | some ty =>
      match ty.params[index]? with
      | none => none
      | some p =>
        if index < n.params.length then
          if value.get_type = p.type then
            some (g.update_node id fun n => { n with params := n.params.set index value })
          else some g
        else none

/-- Modelled from the spec: `set_node_param_null`, the operation the editor registers to
restore a parameter that had no value: the parameter becomes nil (a missing node or an
index out of range is fatal). -/
def VoxelGeneratorGraph.set_node_param_null (g : VoxelGeneratorGraph) (id : Nat)
    (index : Nat) : Option VoxelGeneratorGraph :=
  match g.find_node id with
  | none => none
  | some n =>
    if index < n.params.length then
      some (g.update_node id fun n => { n with params := n.params.set index Variant.NIL })
    else none

/-- Modelled from the spec: `setNodeDefaultInput`: an index out of range is fatal, a value
that is not a scalar is rejected. -/
def VoxelGeneratorGraph.set_node_default_input (g : VoxelGeneratorGraph) (id : Nat)
    (index : Nat) (value : Variant) : Option VoxelGeneratorGraph :=
  match g.find_node id with
  | none => none
  | some n =>
    if index < n.default_inputs.length then
      if value.get_type = VariantType.REAL then
        some (g.update_node id fun n =>
          { n with default_inputs := n.default_inputs.set index value })
      else some g
    else none

/-- Modelled from the spec: `setNodeGuiPosition`; a missing node is fatal. -/
def VoxelGeneratorGraph.set_node_gui_position (g : VoxelGeneratorGraph) (id : Nat)
    (position : Vector2) : Option VoxelGeneratorGraph :=
  match g.find_node id with
  | none => none
  | some _ => some (g.update_node id fun n => { n with gui_position := position })

/-! ## `VoxelGraphEditor` (voxel_graph_editor.cpp) -/

/-- A registered call of an `UndoRedo` action: the bound method and its arguments. The
first seven are methods of the graph, the next two of the `GraphEdit`, the rest of the
editor. -/
inductive Step where
  | add_connection (src_node_id src_port_index dst_node_id dst_port_index : Nat)
  | remove_connection (src_node_id src_port_index dst_node_id dst_port_index : Nat)
  | create_node (type_id : Nat) (position : Vector2) (id : Nat)
  | remove_node (id : Nat)
  | set_node_param (node_id index : Nat) (value : Variant)
  | set_node_param_null (node_id index : Nat)
  | set_node_default_input (node_id index : Nat) (value : Variant)
  | connect_node (from_node : String) (from_port : Nat) (to_node : String) (to_port : Nat)
  | disconnect_node (from_node : String) (from_port : Nat) (to_node : String) (to_port : Nat)
  | set_input_control_visible (node_name : String) (input_index : Nat) (visible : Bool)
  | create_node_gui (node_id : Nat)
  | remove_node_gui (node_name : String)
  | update_node_param_gui (node_id param_index : Nat) (is_default_input : Bool)
  | set_node_position (node_id : Nat) (offset : Vector2)
  deriving DecidableEq, Repr

/-- An action of the undo stack: its name, its forward list and its inverse list. -/
structure Action where
  name : String
  do_ops : List Step
  undo_ops : List Step
  deriving DecidableEq, Repr

/-- `UndoRedo`: the committed actions, how many of them are currently applied, and the
action under construction between `create_action` and `commit_action`. -/
structure UndoRedo where
  actions : List Action
  current_action : Nat
  pending : Option Action
  deriving DecidableEq, Repr

/-- The state of the editor: the bound graph (a `Ref`, possibly null), the `GraphEdit`, the
undo stack and the flag that suppresses change notifications. -/
structure VoxelGraphEditor where
  _graph : Option VoxelGeneratorGraph
  _graph_edit : GraphEdit
  _undo_redo : UndoRedo
  _updating_param_gui : Bool
  _click_position : Vector2
  deriving DecidableEq, Repr

/-- `UndoRedo::create_action`: the redo history is discarded and an action is opened. -/
def UndoRedo.create_action (u : UndoRedo) (name : String) : UndoRedo :=
  { actions := u.actions.take u.current_action
    current_action := u.current_action
    pending := some ⟨name, [], []⟩ }

/-- `UndoRedo::add_do_method`. -/
def UndoRedo.add_do_method (u : UndoRedo) (step : Step) : UndoRedo :=
  { u with pending := u.pending.map fun a => { a with do_ops := a.do_ops ++ [step] } }

/-- `UndoRedo::add_undo_method`. -/
def UndoRedo.add_undo_method (u : UndoRedo) (step : Step) : UndoRedo :=
  { u with pending := u.pending.map fun a => { a with undo_ops := a.undo_ops ++ [step] } }

/-- `node_to_gui_name`: the format string is the single placeholder 0, which `String::format`
replaces with the text of the id. -/
def node_to_gui_name (node_id : Nat) : String := itos node_id

/-- `VoxelGraphEditor::clear`. -/
def VoxelGraphEditor.clear (s : VoxelGraphEditor) : VoxelGraphEditor :=
  { s with _graph_edit := { s._graph_edit.clear_connections with children := [] } }

/-- `VoxelGraphEditor::create_param_control`: for REAL a spinner that holds the value and
whose `value_changed` signal is then bound to `(node_id, param.index, is_input)`, for OBJECT
a placeholder label, an abort for any other kind. -/
def create_param_control (node_id : Nat) (value : Variant) (param : Param) (is_input : Bool) :
    Option Control :=
  match param.type with
  | .REAL =>
    let spinbox : Control := ⟨.SpinBox, true, 1, 0, 100, 0, "", none⟩
    let spinbox := { spinbox with step := 1 / 1000 }
    let spinbox := { spinbox with min := -10000 }
    let spinbox := { spinbox with max := 10000 }
    let spinbox := (Range.set_value spinbox value.to_real).1
    some { spinbox with value_changed := some (node_id, param.index, is_input) }
  | .OBJECT => some ⟨.Label, true, 0, 0, 0, 0, "<Resource>", none⟩
  | _ => none

/-- The row loop of `create_node_gui` (lines 167-222): `count` rows remain, `i` is the
row, `param_index` the next parameter. -/
def create_node_gui_rows (graph : VoxelGeneratorGraph) (node_type : NodeType) (node_id : Nat) :
    (count : Nat) → (i : Nat) → (param_index : Nat) → VoxelGraphEditorNode →
    Option VoxelGraphEditorNode
  | 0, _, _, node_view => some node_view
  | count + 1, i, param_index, node_view =>
    let has_left := decide (i < node_type.inputs.length)
    let has_right := decide (i < node_type.outputs.length)
    let left : Option (List String × VoxelGraphEditorNode) :=
      if has_left then
        match node_type.inputs[i]?, graph.get_node_default_input node_id i with
        | some port, some defval =>
          match create_param_control node_id defval
              { Param.typed "" defval.get_type Variant.NIL with index := i } true with
          | none => none
          | some control =>
            if i ≠ node_view.input_controls.length then none
            else some ([port.name],
              { node_view with input_controls := node_view.input_controls ++ [control] })
        | _, _ => none
      else some ([], node_view)
    match left with
    | none => none
    | some (labels, node_view) =>
      let labels :=
        if has_right then labels ++ [((node_type.outputs[i]?).map Port.name).getD ""]
        else labels
      let rest : Option (List String × Nat × VoxelGraphEditorNode) :=
        if !has_left && !has_right then
          match node_type.params[param_index]?, graph.get_node_param node_id param_index with
          | some param, some param_value =>
            match create_param_control node_id param_value param false with
            | none => none
            | some param_control =>
              if param_index ≠ node_view.param_controls.length then none
              else some (labels ++ [param.name], param_index + 1,
                { node_view with param_controls := node_view.param_controls ++ [param_control] })
          | _, _ => none
        else some (labels, param_index, node_view)
      match rest with
      | none => none
      | some (labels, param_index, node_view) =>
        create_node_gui_rows graph node_type node_id count (i + 1) param_index
          { node_view with rows := node_view.rows ++ [⟨labels, has_left, has_right⟩] }

/-- `VoxelGraphEditor::create_node_gui`. -/
def VoxelGraphEditor.create_node_gui (s : VoxelGraphEditor) (node_id : Nat) :
    Option VoxelGraphEditor :=
  match s._graph with
  | none => none
  | some graph =>
    match graph.get_node_type_id node_id with
    | none => none
    | some node_type_id =>
      match VoxelGraphNodeDB.get_singleton.get_type node_type_id with
      | none => none
      | some node_type =>
        let node_name := node_to_gui_name node_id
        if s._graph_edit.has_node node_name then some s
        else
          match graph.get_node_gui_position node_id with
          | none => none
          | some position =>
            let node_view : VoxelGraphEditorNode :=
              { name := node_name
                node_id := node_id
                offset := (position.1 * EDSCALE, position.2 * EDSCALE)
                title := node_type.name
                selected := false
                rows := []
                input_controls := []
                param_controls := [] }
            let row_count :=
              max node_type.inputs.length node_type.outputs.length + node_type.params.length
            match create_node_gui_rows graph node_type node_id row_count 0 0 node_view with
            | none => none
            | some node_view => some { s with _graph_edit := s._graph_edit.add_child node_view }

/-- `VoxelGraphEditor::_on_node_param_spinbox_value_changed`, with the commit of the action
it builds left to `commit`. The parameter is `float value` (line 227): the `double` that the
spinner emits is narrowed to a `float` by the call, and it is this `float` that the forward
list carries. -/
def VoxelGraphEditor._on_node_param_spinbox_value_changed_with
    (commit : VoxelGraphEditor → Option VoxelGraphEditor) (s : VoxelGraphEditor) (value : ℚ)
    (node_id param_index : Nat) (is_input : Bool) : Option VoxelGraphEditor :=
  match to_float value with
  | none => none
  | some value =>
    if s._updating_param_gui then some s
    else
      match s._graph with
      | none => none
      | some graph =>
        let u : Option UndoRedo :=
          if is_input then
            let u := s._undo_redo.create_action "Set Node Default Input"
            match graph.get_node_default_input node_id param_index with
            | none => none
            | some previous_value =>
              let u := u.add_do_method (.set_node_default_input node_id param_index (.REAL value))
              some (u.add_undo_method
                (.set_node_default_input node_id param_index previous_value))
          else
            let u := s._undo_redo.create_action "Set Node Param"
            match graph.get_node_param node_id param_index with
            | none => none
            | some previous_value =>
              let u := u.add_do_method (.set_node_param node_id param_index (.REAL value))
              if previous_value.get_type = .NIL then
                some (u.add_undo_method (.set_node_param_null node_id param_index))
              else some (u.add_undo_method (.set_node_param node_id param_index previous_value))
        match u with
        | none => none
        | some u =>
          let u := u.add_do_method (.update_node_param_gui node_id param_index is_input)
          let u := u.add_undo_method (.update_node_param_gui node_id param_index is_input)
          commit { s with _undo_redo := u }

/-- The `value_changed` signal of a widget, emitted from inside `update_node_param_gui`:
the bound handler runs; a commit nested in a refresh is outside the model (`none`), the
handler returns before it whenever the suppression flag is set. -/
def VoxelGraphEditor.emit_value_changed (s : VoxelGraphEditor) (c : Control) :
    Option VoxelGraphEditor :=
  match c.value_changed with
  | none => some s
  | some (node_id, param_index, is_input) =>
    VoxelGraphEditor._on_node_param_spinbox_value_changed_with (fun _ => none) s c.value
      node_id param_index is_input

/-- `VoxelGraphEditor::update_node_param_gui`. -/
def VoxelGraphEditor.update_node_param_gui (s : VoxelGraphEditor) (node_id param_index : Nat)
    (is_default_input : Bool) : Option VoxelGraphEditor :=
  let node_name := node_to_gui_name node_id
  let node_view := s._graph_edit.get_node node_name
  match s._graph with
  | none => none
  | some graph =>
    let found : Option (VariantType × Variant × Control) :=
      if is_default_input then
        match graph.get_node_default_input node_id param_index, node_view with
        | some value, some v =>
          (v.input_controls[param_index]?).map fun c => (VariantType.REAL, value, c)
        | _, _ => none
      else
        match graph.get_node_type_id node_id with
        | none => none
        | some node_type_id =>
          match VoxelGraphNodeDB.get_singleton.get_type node_type_id with
          | none => none
          | some node_type =>
            match node_type.params[param_index]? with
            | none => none
            | some param =>
              match graph.get_node_param node_id param_index, node_view with
              | some value, some v =>
                (v.param_controls[param_index]?).map fun c => (param.type, value, c)
              | _, _ => none
    match found with
    | none => none
    | some (value_type, value, param_control) =>
      let s := { s with _updating_param_gui := true }
      match value_type with
      | .REAL =>
        if param_control.cls ≠ .SpinBox then some s
        else
          let (spinbox, emitted) := Range.set_value param_control value.to_real
          let s := { s with _graph_edit := s._graph_edit.update_node node_name fun v =>
            if is_default_input then
              { v with input_controls := v.input_controls.set param_index spinbox }
            else { v with param_controls := v.param_controls.set param_index spinbox } }
          match (if emitted then s.emit_value_changed spinbox else some s) with
          | none => none
          | some s => some { s with _updating_param_gui := false }
      | .OBJECT => some { s with _updating_param_gui := false }
      | _ => none

/-- `remove_connections_from_and_to`: over a copy of the edge list, every edge from or to
the node is disconnected. -/
def remove_connections_from_and_to (graph_edit : GraphEdit) (node_name : String) : GraphEdit :=
  graph_edit.connections.foldl
    (fun ge con =>
      if con.from_node = node_name ∨ con.to_node = node_name then
        ge.disconnect_node con.from_node con.from_port con.to_node con.to_port
      else ge)
    graph_edit

/-- `VoxelGraphEditor::remove_node_gui`. -/
def VoxelGraphEditor.remove_node_gui (s : VoxelGraphEditor) (gui_node_name : String) :
    VoxelGraphEditor :=
  let graph_edit := remove_connections_from_and_to s._graph_edit gui_node_name
  match graph_edit.get_node gui_node_name with
  | none => { s with _graph_edit := graph_edit }
  | some _ => { s with _graph_edit := graph_edit.delete_child gui_node_name }

/-- The body of `set_input_control_visible` (lines 387-390), which reads and writes the
`GraphEdit` only: an unresolved node or an index out of range changes nothing. -/
def GraphEdit.set_input_control_visible (ge : GraphEdit) (node_name : String)
    (input_index : Nat) (visible : Bool) : GraphEdit :=
  match ge.get_node node_name with
  | none => ge
  | some node_view =>
    if input_index < node_view.input_controls.length then
      ge.update_node node_name fun v => v.set_input_visible input_index visible
    else ge

/-- `VoxelGraphEditor::set_input_control_visible`. -/
def VoxelGraphEditor.set_input_control_visible (s : VoxelGraphEditor) (node_name : String)
    (input_index : Nat) (visible : Bool) : VoxelGraphEditor :=
  { s with _graph_edit := s._graph_edit.set_input_control_visible node_name input_index visible }

/-- `VoxelGraphEditor::set_node_position`. -/
def VoxelGraphEditor.set_node_position (s : VoxelGraphEditor) (id : Nat) (offset : Vector2) :
    Option VoxelGraphEditor :=
  let node_name := node_to_gui_name id
  let s := { s with _graph_edit := s._graph_edit.update_node node_name fun v =>
    { v with offset := offset } }
  match s._graph with
  | none => none
  | some graph =>
    match graph.set_node_gui_position id (offset.1 / EDSCALE, offset.2 / EDSCALE) with
    | none => none
    | some graph => some { s with _graph := some graph }

/-- The call of one registered method. `UndoRedo` takes a nil argument for the end of the
argument list (the remark at lines 246-247), so the call of a setter whose value is nil
has too few arguments and fails: nothing changes. -/
def Step.run (step : Step) (s : VoxelGraphEditor) : Option VoxelGraphEditor :=
  match step with
  | .connect_node a p b q => some { s with _graph_edit := s._graph_edit.connect_node a p b q }
  | .disconnect_node a p b q =>
    some { s with _graph_edit := s._graph_edit.disconnect_node a p b q }
  | .set_input_control_visible n i v => some (s.set_input_control_visible n i v)
  | .create_node_gui id => s.create_node_gui id
  | .remove_node_gui n => some (s.remove_node_gui n)
  | .update_node_param_gui id i d => s.update_node_param_gui id i d
  | .set_node_position id o => s.set_node_position id o
  | .add_connection a p b q =>
    s._graph.map fun g => { s with _graph := some (g.add_connection a p b q) }
  | .remove_connection a p b q =>
    s._graph.map fun g => { s with _graph := some (g.remove_connection a p b q) }
  | .create_node t pos id =>
    s._graph.map fun g => { s with _graph := some (g.create_node t pos id) }
  | .remove_node id => s._graph.map fun g => { s with _graph := some (g.remove_node id) }
  | .set_node_param id i v =>
    match s._graph with
    | none => none
    | some g =>
      if v = Variant.NIL then some s
      else (g.set_node_param id i v).map fun g => { s with _graph := some g }
  | .set_node_param_null id i =>
    match s._graph with
    | none => none
    | some g => (g.set_node_param_null id i).map fun g => { s with _graph := some g }
  | .set_node_default_input id i v =>
    match s._graph with
    | none => none
    | some g =>
      if v = Variant.NIL then some s
      else (g.set_node_default_input id i v).map fun g => { s with _graph := some g }

/-- `UndoRedo::_process_operation_list`: the calls of a list run front to back. -/
def run_ops : List Step → VoxelGraphEditor → Option VoxelGraphEditor
  | [], s => some s
  | op :: ops, s =>
    match op.run s with
    | none => none
    | some s => run_ops ops s

/-- `UndoRedo::commit_action`: the action is registered and its forward list runs. -/
def VoxelGraphEditor.commit_action (s : VoxelGraphEditor) : Option VoxelGraphEditor :=
  match s._undo_redo.pending with
  | none => some s
  | some a =>
    run_ops a.do_ops { s with _undo_redo :=
      { actions := s._undo_redo.actions ++ [a]
        current_action := s._undo_redo.current_action + 1
        pending := none } }

/-- `UndoRedo::undo`: the inverse list of the last applied action runs, front to back. -/
def VoxelGraphEditor.undo (s : VoxelGraphEditor) : Option VoxelGraphEditor :=
  match s._undo_redo.current_action with
  | 0 => some s
  | k + 1 =>
    match s._undo_redo.actions[k]? with
    | none => some s
    | some a =>
      (run_ops a.undo_ops s).map fun s =>
        { s with _undo_redo := { s._undo_redo with current_action := k } }

/-- `UndoRedo::redo`: the forward list of the next action runs. -/
def VoxelGraphEditor.redo (s : VoxelGraphEditor) : Option VoxelGraphEditor :=
  match s._undo_redo.actions[s._undo_redo.current_action]? with
  | none => some s
  | some a =>
    run_ops a.do_ops
      { s with _undo_redo :=
          { s._undo_redo with current_action := s._undo_redo.current_action + 1 } }

/-- `VoxelGraphEditor::_on_node_param_spinbox_value_changed`. -/
def VoxelGraphEditor._on_node_param_spinbox_value_changed (s : VoxelGraphEditor) (value : ℚ)
    (node_id param_index : Nat) (is_input : Bool) : Option VoxelGraphEditor :=
  VoxelGraphEditor._on_node_param_spinbox_value_changed_with VoxelGraphEditor.commit_action s
    value node_id param_index is_input

/-- The connection loop of `build_gui_from_graph` (lines 100-112). -/
def build_gui_connections : List Connection → VoxelGraphEditor → VoxelGraphEditor
  | [], s => s
  | con :: rest, s =>
    let from_node_name := node_to_gui_name con.src.node_id
    let to_node_name := node_to_gui_name con.dst.node_id
    match s._graph_edit.get_node to_node_name with
    | none => s
    | some to_node_view =>
      let graph_edit := s._graph_edit.connect_node from_node_name con.src.port_index
        to_node_view.name con.dst.port_index
      let s := { s with _graph_edit := graph_edit }
      if con.dst.port_index ≥ to_node_view.input_controls.length then s
      else
        build_gui_connections rest
          { s with _graph_edit := s._graph_edit.update_node to_node_name fun v =>
              v.set_input_visible con.dst.port_index false }

/-- The node loop of `build_gui_from_graph` (lines 89-92). -/
def build_gui_nodes : List Nat → VoxelGraphEditor → Option VoxelGraphEditor
  | [], s => some s
  | node_id :: rest, s =>
    match s.create_node_gui node_id with
    | none => none
    | some s => build_gui_nodes rest s

/-- `VoxelGraphEditor::build_gui_from_graph`. -/
def VoxelGraphEditor.build_gui_from_graph (s : VoxelGraphEditor) : Option VoxelGraphEditor :=
  let s := s.clear
  match s._graph with
  | none => some s
  | some graph =>
    match build_gui_nodes graph.get_node_ids s with
    | none => none
    | some s => some (build_gui_connections graph.get_connections s)

/-- `VoxelGraphEditor::_on_graph_edit_connection_request`. -/
def VoxelGraphEditor._on_graph_edit_connection_request (s : VoxelGraphEditor)
    (from_node_name : String) (from_slot : Nat) (to_node_name : String) (to_slot : Nat) :
    Option VoxelGraphEditor :=
  match s._graph_edit.get_node from_node_name with
  | none => some s
  | some src_node_view =>
    match s._graph_edit.get_node to_node_name with
    | none => some s
    | some dst_node_view =>
      match s._graph with
      | none => none
      | some graph =>
        if graph.can_connect src_node_view.node_id from_slot dst_node_view.node_id to_slot then
          let u := s._undo_redo.create_action "Connect Nodes"
          let u := u.add_do_method
            (.add_connection src_node_view.node_id from_slot dst_node_view.node_id to_slot)
          let u := u.add_do_method (.connect_node from_node_name from_slot to_node_name to_slot)
          let u := u.add_do_method (.set_input_control_visible to_node_name to_slot false)
          let u := u.add_undo_method
            (.remove_connection src_node_view.node_id from_slot dst_node_view.node_id to_slot)
          let u := u.add_undo_method
            (.disconnect_node from_node_name from_slot to_node_name to_slot)
          let u := u.add_undo_method (.set_input_control_visible to_node_name to_slot true)
          VoxelGraphEditor.commit_action { s with _undo_redo := u }
        else some s

/-- `VoxelGraphEditor::_on_graph_edit_disconnection_request`. -/
def VoxelGraphEditor._on_graph_edit_disconnection_request (s : VoxelGraphEditor)
    (from_node_name : String) (from_slot : Nat) (to_node_name : String) (to_slot : Nat) :
    Option VoxelGraphEditor :=
  match s._graph_edit.get_node from_node_name with
  | none => some s
  | some src_node_view =>
    match s._graph_edit.get_node to_node_name with
    | none => some s
    | some dst_node_view =>
      let u := s._undo_redo.create_action "Disconnect Nodes"
      let u := u.add_do_method
        (.remove_connection src_node_view.node_id from_slot dst_node_view.node_id to_slot)
      let u := u.add_do_method (.disconnect_node from_node_name from_slot to_node_name to_slot)
      let u := u.add_do_method (.set_input_control_visible to_node_name to_slot true)
      let u := u.add_undo_method
        (.add_connection src_node_view.node_id from_slot dst_node_view.node_id to_slot)
      let u := u.add_undo_method (.connect_node from_node_name from_slot to_node_name to_slot)
      let u := u.add_undo_method (.set_input_control_visible to_node_name to_slot false)
      VoxelGraphEditor.commit_action { s with _undo_redo := u }

/-- The parameter loop of the delete handler (lines 423-426), from parameter `j` on. -/
def delete_params_undo (graph : VoxelGeneratorGraph) (node_id : Nat) :
    (count : Nat) → (j : Nat) → UndoRedo → Option UndoRedo
  | 0, _, u => some u
  | count + 1, j, u =>
    match graph.get_node_param node_id j with
    | none => none
    | some param_value =>
      delete_params_undo graph node_id count (j + 1)
        (u.add_undo_method (.set_node_param node_id j param_value))

/-- The connection loop of the delete handler (lines 431-439). -/
def delete_connections_undo (node_id : Nat) : List Connection → UndoRedo → UndoRedo
  | [], u => u
  | con :: rest, u =>
    if con.src.node_id = node_id ∨ con.dst.node_id = node_id then
      let u := u.add_undo_method (.add_connection con.src.node_id con.src.port_index
        con.dst.node_id con.dst.port_index)
      let src_node_name := node_to_gui_name con.src.node_id
      let dst_node_name := node_to_gui_name con.dst.node_id
      delete_connections_undo node_id rest
        (u.add_undo_method
          (.connect_node src_node_name con.src.port_index dst_node_name con.dst.port_index))
    else delete_connections_undo node_id rest u

/-- The loop over the selected view nodes of the delete handler (lines 411-440). -/
def delete_nodes_loop (graph : VoxelGeneratorGraph) (connections : List Connection) :
    List VoxelGraphEditorNode → UndoRedo → Option UndoRedo
  | [], u => some u
  | node_view :: rest, u =>
    let node_id := node_view.node_id
    match graph.get_node_type_id node_id with
    | none => none
    | some node_type_id =>
      let u := u.add_do_method (.remove_node node_id)
      let u := u.add_do_method (.remove_node_gui node_view.name)
      match graph.get_node_gui_position node_id with
      | none => none
      | some position =>
        let u := u.add_undo_method (.create_node node_type_id position node_id)
        match VoxelGraphNodeDB.get_singleton.get_type node_type_id with
        | none => none
        | some node_type =>
          match delete_params_undo graph node_id node_type.params.length 0 u with
          | none => none
          | some u =>
            let u := u.add_undo_method (.create_node_gui node_id)
            delete_nodes_loop graph connections rest
              (delete_connections_undo node_id connections u)

/-- `VoxelGraphEditor::_on_graph_edit_delete_nodes_request`. -/
def VoxelGraphEditor._on_graph_edit_delete_nodes_request (s : VoxelGraphEditor) :
    Option VoxelGraphEditor :=
  let to_erase := s._graph_edit.children.filter fun node_view => node_view.selected
  let u := s._undo_redo.create_action "Delete Nodes"
  match s._graph with
  | none => none
  | some graph =>
    let connections := graph.get_connections
    match delete_nodes_loop graph connections to_erase u with
    | none => none
    | some u => VoxelGraphEditor.commit_action { s with _undo_redo := u }

/-- `VoxelGraphEditor::_on_graph_node_dragged`. -/
def VoxelGraphEditor._on_graph_node_dragged (s : VoxelGraphEditor) (pos_from pos_to : Vector2)
    (id : Nat) : Option VoxelGraphEditor :=
  let u := s._undo_redo.create_action "Move nodes"
  let u := u.add_do_method (.set_node_position id pos_to)
  let u := u.add_undo_method (.set_node_position id pos_from)
  VoxelGraphEditor.commit_action { s with _undo_redo := u }

/-- `Math::stepify`: the nearest multiple of the step. -/
def Math.stepify (p_value p_step : ℚ) : ℚ :=
  if p_step ≠ 0 then ((Rat.floor (p_value / p_step + 1 / 2) : Int) : ℚ) * p_step else p_value

/-- `Vector2::snapped`. -/
def Vector2.snapped (v p_by : Vector2) : Vector2 :=
  (Math.stepify v.1 p_by.1, Math.stepify v.2 p_by.2)

/-- What `get_graph_offset_from_mouse` reads from the `GraphEdit`: `get_scroll_ofs`,
`is_using_snap`, `get_snap` and `get_zoom`. -/
structure GraphEditScroll where
  scroll_ofs : Vector2
  using_snap : Bool
  snap : Int
  zoom : ℚ
  deriving DecidableEq, Repr

/-- `get_graph_offset_from_mouse`. The engine computes on `Vector2`, a pair of `float`; the
sums and quotients are taken here without the rounding of each operation. -/
def get_graph_offset_from_mouse (graph_edit : GraphEditScroll) (local_mouse_pos : Vector2) :
    Vector2 :=
  let offset : Vector2 :=
    (graph_edit.scroll_ofs.1 + local_mouse_pos.1, graph_edit.scroll_ofs.2 + local_mouse_pos.2)
  let offset :=
    if graph_edit.using_snap then Vector2.snapped offset (graph_edit.snap, graph_edit.snap)
    else offset
  let offset : Vector2 := (offset.1 / EDSCALE, offset.2 / EDSCALE)
  (offset.1 / graph_edit.zoom, offset.2 / graph_edit.zoom)

/-- `_context_menu->get_item_metadata(idx)`: the constructor (lines 27-31) adds one item per
registered type and stores `i` as the metadata of item `i`; an index outside the menu gives
a nil `Variant`, which converts to 0. -/
def context_menu_item_metadata (idx : Nat) : Nat :=
  if idx < VoxelGraphNodeDB.get_singleton.get_type_count then idx else 0

/-- `VoxelGraphEditor::_on_context_menu_index_pressed`; `graph_edit` holds the scroll
readings of the `GraphEdit`. -/
def VoxelGraphEditor._on_context_menu_index_pressed (s : VoxelGraphEditor)
    (graph_edit : GraphEditScroll) (idx : Nat) : Option VoxelGraphEditor :=
  let pos := get_graph_offset_from_mouse graph_edit s._click_position
  let node_type_id := context_menu_item_metadata idx
  match s._graph with
  | none => none
  | some graph =>
    let node_id := graph.generate_node_id.1
    let graph := graph.generate_node_id.2
    let node_name := node_to_gui_name node_id
    let u := s._undo_redo.create_action "Create Node"
    let u := u.add_do_method (.create_node node_type_id pos node_id)
    let u := u.add_do_method (.create_node_gui node_id)
    let u := u.add_undo_method (.remove_node node_id)
    let u := u.add_undo_method (.remove_node_gui node_name)
    VoxelGraphEditor.commit_action { s with _graph := some graph, _undo_redo := u }

/-! ## Well-formed graphs, synchronized states and the scenario of section 8 -/

/-- The type of a live node of the graph. -/
def VoxelGeneratorGraph.node_type (g : VoxelGeneratorGraph) (id : Nat) : Option NodeType :=
  (g.find_node id).bind fun n => VoxelGraphNodeDB.get_singleton.get_type n.type_id

/-- The invariants of the graph model (section 3): node ids are unique, every connection
joins a valid output port of a live node to a valid input port of a live node, a
destination input has at most one incoming connection, and every node has one value per
parameter and one default value per input of its type. -/
def VoxelGeneratorGraph.WellFormed (g : VoxelGeneratorGraph) : Prop :=
  (g.nodes.map Node.id).Nodup ∧
  g.connections.Nodup ∧
  (∀ c ∈ g.connections,
    ((g.node_type c.src.node_id).map fun st => decide (c.src.port_index < st.outputs.length))
      = some true ∧
    ((g.node_type c.dst.node_id).map fun dt => decide (c.dst.port_index < dt.inputs.length))
      = some true) ∧
  (∀ c1 ∈ g.connections, ∀ c2 ∈ g.connections, c1.dst = c2.dst → c1 = c2) ∧
  (∀ n ∈ g.nodes, ((VoxelGraphNodeDB.get_singleton.get_type n.type_id).map fun ty =>
    decide (n.params.length = ty.params.length ∧ n.default_inputs.length = ty.inputs.length))
      = some true)

instance (g : VoxelGeneratorGraph) : Decidable g.WellFormed := by
  unfold VoxelGeneratorGraph.WellFormed
  infer_instance

/-- The visual edge of a model connection: the endpoints named by `node_to_gui_name`. -/
def edge_of (c : Connection) : GraphEditConnection :=
  ⟨node_to_gui_name c.src.node_id, c.src.port_index, node_to_gui_name c.dst.node_id,
    c.dst.port_index⟩

/-- The view mirrors the graph (what `build_gui_from_graph` establishes): the view nodes
have distinct names, each is named after its node id, stands for a live node and has one
input widget per input of the type; every live node has a view node; the visual edges are
exactly the edges of the model connections; and the default-value widget of an input is
hidden exactly when the input has an incoming connection. -/
def VoxelGraphEditor.Synchronized (s : VoxelGraphEditor) : Prop :=
  match s._graph with
  | none => False
  | some g =>
    g.WellFormed ∧
    (s._graph_edit.children.map VoxelGraphEditorNode.name).Nodup ∧
    (∀ v ∈ s._graph_edit.children, v.name = node_to_gui_name v.node_id ∧
      (g.node_type v.node_id).map (fun ty => ty.inputs.length) = some v.input_controls.length) ∧
    (∀ n ∈ g.nodes, ∃ v ∈ s._graph_edit.children, v.node_id = n.id) ∧
    s._graph_edit.connections.Nodup ∧
    (∀ e ∈ s._graph_edit.connections, ∃ c ∈ g.connections, e = edge_of c) ∧
    (∀ c ∈ g.connections, edge_of c ∈ s._graph_edit.connections) ∧
    (∀ v ∈ s._graph_edit.children, ∀ i, i < v.input_controls.length →
      (v.input_controls[i]?).map Control.visible = some (!g.is_input_connected v.node_id i))

instance (s : VoxelGraphEditor) : Decidable s.Synchronized := by
  unfold VoxelGraphEditor.Synchronized
  cases s._graph <;> simp only <;> infer_instance

/-- The graph of the scenario: Constant (id 1) at (0, 0), Add (id 2) at (100, 0), and the
connection from output 0 of node 1 to input 0 of node 2, built with the model operations. -/
def scenario_graph : VoxelGeneratorGraph :=
  let g : VoxelGeneratorGraph := ⟨[], [], 1⟩
  let g := g.create_node NodeTypeID.NODE_CONSTANT.val (0, 0) 1
  let g := g.create_node NodeTypeID.NODE_ADD.val (100, 0) 2
  { g.add_connection 1 0 2 0 with next_id := 3 }

/-- An editor bound to a graph, before its view is built. -/
def editor_of (g : VoxelGeneratorGraph) : VoxelGraphEditor :=
  { _graph := some g
    _graph_edit := ⟨[], []⟩
    _undo_redo := ⟨[], 0, none⟩
    _updating_param_gui := false
    _click_position := (0, 0) }

/-- The editor of the scenario after `build_gui_from_graph`. -/
def scenario_editor : VoxelGraphEditor :=
  ((editor_of scenario_graph).build_gui_from_graph).getD (editor_of scenario_graph)

/-- The transaction of a connect gesture as the table of section 4.4 gives it: forward
[model add connection, view edge add, hide the destination widget], inverse the three
opposite steps on the same endpoints. -/
def connect_action (src_id src_port dst_id dst_port : Nat) (from_name to_name : String) :
    Action :=
  { name := "Connect Nodes"
    do_ops := [.add_connection src_id src_port dst_id dst_port,
      .connect_node from_name src_port to_name dst_port,
      .set_input_control_visible to_name dst_port false]
    undo_ops := [.remove_connection src_id src_port dst_id dst_port,
      .disconnect_node from_name src_port to_name dst_port,
      .set_input_control_visible to_name dst_port true] }

/-- The transaction of a disconnect gesture as the table of section 4.4 gives it. -/
def disconnect_action (src_id src_port dst_id dst_port : Nat) (from_name to_name : String) :
    Action :=
  { name := "Disconnect Nodes"
    do_ops := [.remove_connection src_id src_port dst_id dst_port,
      .disconnect_node from_name src_port to_name dst_port,
      .set_input_control_visible to_name dst_port true]
    undo_ops := [.add_connection src_id src_port dst_id dst_port,
      .connect_node from_name src_port to_name dst_port,
      .set_input_control_visible to_name dst_port false] }

/-- `GraphNode::set_selected(true)` on the view node of that name (a click of the user). -/
def VoxelGraphEditor.select (s : VoxelGraphEditor) (name : String) : VoxelGraphEditor :=
  { s with _graph_edit := s._graph_edit.update_node name fun v => { v with selected := true } }

/-- A forward list removes the connections first: whenever one of its steps is
`remove_node id`, the steps before it have run and have left no connection from or to `id`
in the model. -/
def removes_connections_first (s : VoxelGraphEditor) (ops : List Step) : Prop :=
  ∀ pre id post, ops = pre ++ Step.remove_node id :: post →
    ∃ s1 g, run_ops pre s = some s1 ∧ s1._graph = some g ∧
      ∀ c ∈ g.connections, c.src.node_id ≠ id ∧ c.dst.node_id ≠ id

/-- The scenario with the default value of input 1 (`b`) of node 2 edited to 5, the view
rebuilt, and node 2 selected. -/
def override_editor : VoxelGraphEditor :=
  let g := (scenario_graph.set_node_default_input 2 1 (Variant.REAL 5)).getD scenario_graph
  (((editor_of g).build_gui_from_graph).getD (editor_of g)).select "2"

/-- The scenario with an object stored as the default value of input 1 of node 2, and the
view rebuilt from it: the widget of that input is the placeholder label. -/
def object_input_editor : VoxelGraphEditor :=
  let g := scenario_graph.update_node 2 fun n =>
    { n with default_inputs := n.default_inputs.set 1 (Variant.OBJECT 7) }
  ((editor_of g).build_gui_from_graph).getD (editor_of g)

/-! ## Predicates used in the statements -/

/-- The declared tables whose names can be inverted: distinct type names, and per type
distinct parameter names, distinct input names and empty lookups before the loop. -/
def DistinctNames (types : List NodeType) : Prop :=
  (types.map NodeType.name).Nodup ∧
  ∀ t ∈ types, (t.params.map Param.name).Nodup ∧ (t.inputs.map Port.name).Nodup ∧
    t.param_name_to_index = [] ∧ t.input_name_to_index = []

instance (types : List NodeType) : Decidable (DistinctNames types) := by
  unfold DistinctNames
  infer_instance

/-- What the name lookups of a registry return, stated on the registry own tables. -/
def LookupsInvert (db : VoxelGraphNodeDB) : Prop :=
  (∀ t, t < db.get_type_count → ∃ ty, db.get_type t = some ty ∧
    db.try_get_type_id_from_name ty.name = some t ∧
    (∀ i (h : i < ty.params.length),
      db.try_get_param_index_from_name t (ty.params[i]).name = some i ∧
      (ty.params[i]).index = i) ∧
    (∀ j (h : j < ty.inputs.length),
      db.try_get_input_index_from_name t (ty.inputs[j]).name = some j) ∧
    (∀ name, name ∉ ty.params.map Param.name →
      db.try_get_param_index_from_name t name = none) ∧
    (∀ name, name ∉ ty.inputs.map Port.name →
      db.try_get_input_index_from_name t name = none)) ∧
  (∀ name, name ∉ db._types.map NodeType.name → db.try_get_type_id_from_name name = none)

/-- The declared defaults of the catalogue: a numeric parameter is declared with a numeric
default or with none, a resource reference with none. -/
def DeclaredDefaults (types : List NodeType) : Prop :=
  ∀ t ∈ types, ∀ d ∈ t.params,
    (d.type = .REAL → d.default_value = .NIL ∨ d.default_value.get_type = .REAL) ∧
    (d.type = .OBJECT → d.default_value = .NIL)

instance (types : List NodeType) : Decidable (DeclaredDefaults types) := by
  unfold DeclaredDefaults
  infer_instance

/-- The names and default values of the parameters of a node type of the registry. -/
def param_defaults (db : VoxelGraphNodeDB) (id : NodeTypeID) : Option (List (String × Variant)) :=
  (db.get_type id.val).map fun ty => ty.params.map fun p => (p.name, p.default_value)

/-- Two states of the undo stack with the same committed actions and the same forward list
under construction. -/
def same_forward (u u2 : UndoRedo) : Prop :=
  u2.actions = u.actions ∧ u2.current_action = u.current_action ∧
  u2.pending.map Action.do_ops = u.pending.map Action.do_ops ∧
  u2.pending.map Action.name = u.pending.map Action.name

/-- The node behind a view node is live, its type is registered and it has one value per
parameter of the type. -/
def node_ready (g : VoxelGeneratorGraph) (v : VoxelGraphEditorNode) : Prop :=
  ∃ n ty, g.find_node v.node_id = some n ∧
    VoxelGraphNodeDB.get_singleton.get_type n.type_id = some ty ∧
    n.params.length = ty.params.length

/-- The steps that re-add a model connection and its visual edge. -/
def reconnect_steps (con : Connection) : List Step :=
  [Step.add_connection con.src.node_id con.src.port_index con.dst.node_id con.dst.port_index,
    Step.connect_node (node_to_gui_name con.src.node_id) con.src.port_index
      (node_to_gui_name con.dst.node_id) con.dst.port_index]

/-- The group of inverse steps of one deleted node, as the claim on the delete gesture words
it: `create_node(type, position, id)`, one `set_node_param` per parameter,
`create_node_gui(id)`, then for each model connection from or to the node `add_connection`
followed by `connect_node`. -/
def delete_undo_group (g : VoxelGeneratorGraph) (v : VoxelGraphEditorNode) : List Step :=
  match g.find_node v.node_id with
  | none => []
  | some n =>
    Step.create_node n.type_id n.gui_position v.node_id ::
      ((n.params.enum.map fun kp => Step.set_node_param v.node_id kp.1 kp.2) ++
        Step.create_node_gui v.node_id ::
          (g.connections.filter fun con =>
            decide (con.src.node_id = v.node_id ∨ con.dst.node_id = v.node_id)).flatMap
              reconnect_steps)

/-- The inverse list under construction has grown by these steps. -/
def undo_extends (u u2 : UndoRedo) (steps : List Step) : Prop :=
  u2.pending.map Action.undo_ops = u.pending.map fun a => a.undo_ops ++ steps

/-- The connection has the node for its source or its destination. -/
def Connection.touches (c : Connection) (v : VoxelGraphEditorNode) : Bool :=
  decide (c.src.node_id = v.node_id ∨ c.dst.node_id = v.node_id)

/-- The `add_connection` step that re-adds a model connection. -/
def readd_step (c : Connection) : Step :=
  Step.add_connection c.src.node_id c.src.port_index c.dst.node_id c.dst.port_index

/-- The editor of the scenario with both view nodes selected. -/
def both_selected_editor : VoxelGraphEditor :=
  (scenario_editor.select "1").select "2"

/-- The state of a view node after the rows before row `i` of `create_node_gui` have been
laid out for the live node `n` of type `ty`: one row per index with the slot flags of the
index, one input widget per input port before `i`, built from the default value of that
port and bound to its index, and one parameter widget per row at or after
`max(inputs, outputs)`, built from the value of the parameter of that rank, in the row
labelled with the name of the parameter. -/
def rows_built (ty : NodeType) (id : Nat) (n : Node) (i : Nat) (v : VoxelGraphEditorNode) :
    Prop :=
  v.rows.length = i ∧
  (∀ j, j < i → (v.rows[j]?).map (fun r => (r.has_left, r.has_right))
    = some (decide (j < ty.inputs.length), decide (j < ty.outputs.length))) ∧
  v.input_controls.length = min i ty.inputs.length ∧
  (∀ j, j < min i ty.inputs.length → ∃ d, n.default_inputs[j]? = some d ∧
    v.input_controls[j]?
      = create_param_control id d { Param.typed "" d.get_type Variant.NIL with index := j }
          true) ∧
  v.param_controls.length = i - max ty.inputs.length ty.outputs.length ∧
  (∀ k, k < i - max ty.inputs.length ty.outputs.length → ∃ p pv,
    ty.params[k]? = some p ∧ n.params[k]? = some pv ∧
    v.param_controls[k]? = create_param_control id pv p false ∧
    (v.rows[max ty.inputs.length ty.outputs.length + k]?).map GraphNodeRow.labels
      = some [p.name])

/-- A graph with one Clamp node (id 1), built with `create_node`. -/
def clamp_graph : VoxelGeneratorGraph :=
  (⟨[], [], 1⟩ : VoxelGeneratorGraph).create_node NodeTypeID.NODE_CLAMP.val (0, 0) 1

/-- The Clamp node of `clamp_graph`. -/
def clamp_node : Node :=
  (clamp_graph.find_node 1).getD ⟨0, 0, (0, 0), [], []⟩

/-- The registered type Clamp: 1 input, 1 output, 2 parameters. -/
def clamp_type : NodeType :=
  (VoxelGraphNodeDB.get_singleton.get_type NodeTypeID.NODE_CLAMP.val).getD default

/-- The view built so far by `build_gui_from_graph`: one view node per node of `nodes`, in
order, each named after its node id and with one input widget per input of the type; the
visual edges are the edges of the connections of `cons`, in order; and the widget of an
input is hidden exactly when the input is the destination of a connection of `cons`. -/
def view_built (g : VoxelGeneratorGraph) (nodes : List Node) (cons : List Connection)
    (s : VoxelGraphEditor) : Prop :=
  s._graph_edit.children.map VoxelGraphEditorNode.node_id = nodes.map Node.id ∧
  (∀ v ∈ s._graph_edit.children, v.name = node_to_gui_name v.node_id ∧
    (g.node_type v.node_id).map (fun ty => ty.inputs.length) = some v.input_controls.length ∧
    ∀ i, i < v.input_controls.length → (v.input_controls[i]?).map Control.visible
      = some (!cons.any fun c => decide (c.dst = ⟨v.node_id, i⟩))) ∧
  s._graph_edit.connections = cons.map edge_of

/-- An editor that shows the view of the scenario and is then bound to `clamp_graph`: the
state in which `build_gui_from_graph` runs when the graph of the editor is replaced. -/
def stale_editor : VoxelGraphEditor :=
  { scenario_editor with _graph := some clamp_graph }

/-- The ids in use are below the counter of the id generator, so that a generated id is
fresh. -/
def VoxelGeneratorGraph.FreshCounter (g : VoxelGeneratorGraph) : Prop :=
  ∀ n ∈ g.nodes, n.id < g.next_id

instance (g : VoxelGeneratorGraph) : Decidable g.FreshCounter := by
  unfold VoxelGeneratorGraph.FreshCounter
  infer_instance

/-- The undo stack is consistent: the number of applied actions does not exceed the number
of committed actions. -/
def UndoRedo.Consistent (u : UndoRedo) : Prop :=
  u.current_action ≤ u.actions.length

instance (u : UndoRedo) : Decidable u.Consistent := by
  unfold UndoRedo.Consistent
  infer_instance

/-- Scroll readings of a `GraphEdit` that is scrolled by (40, 20), snaps to 20 and is not
zoomed. -/
def scenario_scroll : GraphEditScroll :=
  { scroll_ofs := (40, 20), using_snap := true, snap := 20, zoom := 1 }

/-- The value the model holds in a slot of a node: a default input or a parameter. -/
def VoxelGraphEditor.model_value (s : VoxelGraphEditor) (node_id index : Nat)
    (is_input : Bool) : Option Variant :=
  s._graph.bind fun g =>
    if is_input then g.get_node_default_input node_id index
    else g.get_node_param node_id index

/-- The widget of a slot of a node in the view. -/
def VoxelGraphEditor.widget (s : VoxelGraphEditor) (node_id index : Nat) (is_input : Bool) :
    Option Control :=
  (s._graph_edit.get_node (node_to_gui_name node_id)).bind fun w =>
    if is_input then w.input_controls[index]? else w.param_controls[index]?

/-- The step "model set value" of a slot. -/
def set_step (node_id index : Nat) (value : Variant) (is_input : Bool) : Step :=
  if is_input then Step.set_node_default_input node_id index value
  else Step.set_node_param node_id index value

/-- A value the spinner of `create_param_control` can hold: a multiple of its step 0.001
within its range [-10000, 10000]. -/
def spin_holds (x : ℚ) : Prop :=
  Math.round (x / (1 / 1000)) * (1 / 1000) = x ∧ -10000 ≤ x ∧ x ≤ 10000

instance (x : ℚ) : Decidable (spin_holds x) := by
  unfold spin_holds
  infer_instance

/-- A slot of a node is ready for an edit: the suppression flag is clear, the node is live
and has the slot (for a parameter, a numeric one of its type), and the widget of the slot
is a spinner with the settings of `create_param_control`. -/
def VoxelGraphEditor.EditReady (s : VoxelGraphEditor) (node_id index : Nat)
    (is_input : Bool) : Prop :=
  s._updating_param_gui = false ∧
  (s._graph.bind fun g => (g.find_node node_id).map fun n => decide (
    if is_input then index < n.default_inputs.length
    else index < n.params.length ∧
      ((VoxelGraphNodeDB.get_singleton.get_type n.type_id).bind fun ty =>
        ty.params[index]?).map Param.type = some VariantType.REAL)) = some true ∧
  ((s.widget node_id index is_input).map fun c => decide (c.cls = ControlClass.SpinBox ∧
    c.step = 1 / 1000 ∧ c.min = -10000 ∧ c.max = 10000)) = some true

instance (s : VoxelGraphEditor) (node_id index : Nat) (is_input : Bool) :
    Decidable (s.EditReady node_id index is_input) := by
  unfold VoxelGraphEditor.EditReady
  infer_instance

/-- The value that the spinner of `create_param_control` holds after `set_value(x)`: the
nearest multiple of its step 0.001, brought into its range [-10000, 10000]. -/
def spin_snap (x : ℚ) : ℚ :=
  (Range.set_value ⟨.SpinBox, true, 1 / 1000, -10000, 10000, 0, "", none⟩ x).1.value

/-- Whether the default-value widget of an input of the view node of that name is visible
(`none` when there is no such view node or widget). -/
def VoxelGraphEditor.input_widget_visible (s : VoxelGraphEditor) (node_name : String)
    (input_index : Nat) : Option Bool :=
  (s._graph_edit.get_node node_name).bind fun v =>
    (v.input_controls[input_index]?).map Control.visible

/-- The graph of the scenario before its connect gesture: Constant (id 1) and Add (id 2),
no connection. -/
def unconnected_graph : VoxelGeneratorGraph :=
  let g : VoxelGeneratorGraph := ⟨[], [], 1⟩
  let g := g.create_node NodeTypeID.NODE_CONSTANT.val (0, 0) 1
  { g.create_node NodeTypeID.NODE_ADD.val (100, 0) 2 with next_id := 3 }

/-- The editor of the scenario before its connect gesture, after `build_gui_from_graph`. -/
def unconnected_editor : VoxelGraphEditor :=
  ((editor_of unconnected_graph).build_gui_from_graph).getD (editor_of unconnected_graph)

/-- The editor of the scenario after the user has set the value of the Constant node 1 to
0.1 in its spinner. -/
def tenth_editor : VoxelGraphEditor :=
  (scenario_editor._on_node_param_spinbox_value_changed (1 / 10) 1 0 false).getD
    scenario_editor

/-! ## Properties of the registry -/

section HashMapLemmas
variable {κ ν : Type} [DecidableEq κ]

theorem HashMap.getptr_nil (k : κ) : HashMap.getptr ([] : HashMap κ ν) k = none := rfl

theorem HashMap.getptr_set (m : HashMap κ ν) (k k2 : κ) (v : ν) :
    (m.set k v).getptr k2 = if k2 = k then some v else m.getptr k2 := by
  unfold HashMap.set HashMap.getptr
  by_cases h : k2 = k
  · subst h
    simp
  · have hk : ¬ k = k2 := fun e => h e.symm
    have hp : (fun a : κ × ν => (!decide (a.1 = k) && decide (a.1 = k2))) =
        (fun e : κ × ν => decide (e.1 = k2)) := by
      funext a
      by_cases ha : a.1 = k2
      · have : ¬ a.1 = k := fun e2 => h (ha.symm.trans e2)
        simp [ha, this, h]
      · simp [ha]
    simp [List.find?_cons, hk, h, List.find?_filter, hp]

end HashMapLemmas

theorem derive_inputs_getptr_not_mem (ps : List Port) (start : Nat) (m : HashMap String Nat)
    (k : String) (hk : k ∉ ps.map Port.name) :
    (derive_inputs ps start m).getptr k = m.getptr k := by
  induction ps generalizing start m with
  | nil => rfl
  | cons p ps ih =>
    simp only [List.map_cons, List.mem_cons, not_or] at hk
    rw [derive_inputs, ih _ _ hk.2, HashMap.getptr_set, if_neg hk.1]

theorem derive_inputs_getptr_mem (ps : List Port) (start : Nat) (m : HashMap String Nat)
    (hnd : (ps.map Port.name).Nodup) (j : Nat) (hj : j < ps.length) :
    (derive_inputs ps start m).getptr (ps[j]).name = some (start + j) := by
  induction ps generalizing start m j with
  | nil => simp at hj
  | cons p ps ih =>
    simp only [List.map_cons, List.nodup_cons] at hnd
    rw [derive_inputs]
    cases j with
    | zero =>
      simp only [List.getElem_cons_zero]
      rw [derive_inputs_getptr_not_mem _ _ _ _ hnd.1, HashMap.getptr_set]
      simp
    | succ j =>
      have hj2 : j < ps.length := by simpa using hj
      have := ih (start + 1) (m.set p.name start) hnd.2 j hj2
      simpa [Nat.add_assoc, Nat.add_comm 1 j] using this

theorem derive_param_spec (i : Nat) (p q : Param) (h : derive_param i p = some q) :
    q.name = p.name ∧ q.index = i ∧ q.type = p.type ∧ q.class_name = p.class_name ∧
    (p.type = .REAL → p.default_value = .NIL → q.default_value = .REAL 0) ∧
    (p.type = .REAL → p.default_value ≠ .NIL → q.default_value = p.default_value) ∧
    (p.type = .OBJECT → q.default_value = p.default_value) := by
  obtain ⟨n, ty, cn, dv, ix⟩ := p
  cases ty <;> cases dv <;> simp [derive_param, Variant.get_type] at h <;> subst h <;> simp

theorem derive_params_length (ps : List Param) (start : Nat) (m : HashMap String Nat)
    (qs : List Param) (m2 : HashMap String Nat) (h : derive_params ps start m = some (qs, m2)) :
    qs.length = ps.length := by
  induction ps generalizing start m qs m2 with
  | nil => simp [derive_params] at h; simp [h.1]
  | cons p ps ih =>
    rw [derive_params] at h
    cases hq : derive_param start p with
    | none => simp [hq] at h
    | some q =>
      cases hr : derive_params ps (start + 1) (m.set p.name start) with
      | none => simp [hq, hr] at h
      | some r =>
        obtain ⟨rs, m3⟩ := r
        simp [hq, hr] at h
        rw [← h.1]
        simp [ih _ _ _ _ hr]

theorem derive_params_getElem (ps : List Param) (start : Nat) (m : HashMap String Nat)
    (qs : List Param) (m2 : HashMap String Nat) (h : derive_params ps start m = some (qs, m2))
    (i : Nat) (h1 : i < ps.length) (h2 : i < qs.length) :
    derive_param (start + i) ps[i] = some qs[i] := by
  induction ps generalizing start m qs m2 i with
  | nil => simp at h1
  | cons p ps ih =>
    rw [derive_params] at h
    cases hq : derive_param start p with
    | none => simp [hq] at h
    | some q =>
      cases hr : derive_params ps (start + 1) (m.set p.name start) with
      | none => simp [hq, hr] at h
      | some r =>
        obtain ⟨rs, m3⟩ := r
        simp [hq, hr] at h
        obtain ⟨hqs, -⟩ := h
        subst hqs
        cases i with
        | zero => simpa using hq
        | succ i =>
          have h1b : i < ps.length := by simpa using h1
          have h2b : i < rs.length := by simpa using h2
          have := ih _ _ _ _ hr i h1b h2b
          simpa [Nat.add_assoc, Nat.add_comm 1 i] using this

theorem derive_params_map (ps : List Param) (start : Nat) (m : HashMap String Nat)
    (qs : List Param) (m2 : HashMap String Nat) (h : derive_params ps start m = some (qs, m2)) :
    m2 = derive_inputs (ps.map fun p => Port.mk p.name) start m := by
  induction ps generalizing start m qs m2 with
  | nil => simp [derive_params] at h; simp [derive_inputs, h.2]
  | cons p ps ih =>
    rw [derive_params] at h
    cases hq : derive_param start p with
    | none => simp [hq] at h
    | some q =>
      cases hr : derive_params ps (start + 1) (m.set p.name start) with
      | none => simp [hq, hr] at h
      | some r =>
        obtain ⟨rs, m3⟩ := r
        simp [hq, hr] at h
        rw [← h.2, List.map_cons, derive_inputs]
        exact ih _ _ _ _ hr

theorem derive_type_spec (t u : NodeType) (h : derive_type t = some u) :
    u.name = t.name ∧ u.inputs = t.inputs ∧ u.outputs = t.outputs ∧
    derive_params t.params 0 t.param_name_to_index = some (u.params, u.param_name_to_index) ∧
    u.input_name_to_index = derive_inputs t.inputs 0 t.input_name_to_index := by
  unfold derive_type at h
  cases hr : derive_params t.params 0 t.param_name_to_index with
  | none => simp [hr] at h
  | some r =>
    obtain ⟨qs, m2⟩ := r
    simp [hr] at h
    subst h
    simp

theorem derive_types_length (ts : List NodeType) (start : Nat) (m : HashMap String Nat)
    (us : List NodeType) (m2 : HashMap String Nat)
    (h : derive_types ts start m = some (us, m2)) : us.length = ts.length := by
  induction ts generalizing start m us m2 with
  | nil => simp [derive_types] at h; simp [h.1]
  | cons t ts ih =>
    rw [derive_types] at h
    cases hq : derive_type t with
    | none => simp [hq] at h
    | some q =>
      cases hr : derive_types ts (start + 1) (m.set t.name start) with
      | none => simp [hq, hr] at h
      | some r =>
        obtain ⟨rs, m3⟩ := r
        simp [hq, hr] at h
        rw [← h.1]
        simp [ih _ _ _ _ hr]

theorem derive_types_getElem (ts : List NodeType) (start : Nat) (m : HashMap String Nat)
    (us : List NodeType) (m2 : HashMap String Nat)
    (h : derive_types ts start m = some (us, m2))
    (i : Nat) (h1 : i < ts.length) (h2 : i < us.length) :
    derive_type ts[i] = some us[i] := by
  induction ts generalizing start m us m2 i with
  | nil => simp at h1
  | cons t ts ih =>
    rw [derive_types] at h
    cases hq : derive_type t with
    | none => simp [hq] at h
    | some q =>
      cases hr : derive_types ts (start + 1) (m.set t.name start) with
      | none => simp [hq, hr] at h
      | some r =>
        obtain ⟨rs, m3⟩ := r
        simp [hq, hr] at h
        obtain ⟨hqs, -⟩ := h
        subst hqs
        cases i with
        | zero => simpa using hq
        | succ i =>
          have h1b : i < ts.length := by simpa using h1
          have h2b : i < rs.length := by simpa using h2
          simpa using ih _ _ _ _ hr i h1b h2b

theorem derive_types_map (ts : List NodeType) (start : Nat) (m : HashMap String Nat)
    (us : List NodeType) (m2 : HashMap String Nat)
    (h : derive_types ts start m = some (us, m2)) :
    m2 = derive_inputs (ts.map fun t => Port.mk t.name) start m := by
  induction ts generalizing start m us m2 with
  | nil => simp [derive_types] at h; simp [derive_inputs, h.2]
  | cons t ts ih =>
    rw [derive_types] at h
    cases hq : derive_type t with
    | none => simp [hq] at h
    | some q =>
      cases hr : derive_types ts (start + 1) (m.set t.name start) with
      | none => simp [hq, hr] at h
      | some r =>
        obtain ⟨rs, m3⟩ := r
        simp [hq, hr] at h
        rw [← h.2, List.map_cons, derive_inputs]
        exact ih _ _ _ _ hr

theorem map_port_name_mk {α : Type} (f : α → String) (l : List α) :
    (l.map fun a => Port.mk (f a)).map Port.name = l.map f := by
  simp [List.map_map, Function.comp_def]

theorem derive_lookups_invert (types : List NodeType) (db : VoxelGraphNodeDB)
    (h : VoxelGraphNodeDB.derive types = some db) (hd : DistinctNames types) :
    LookupsInvert db := by
  unfold VoxelGraphNodeDB.derive at h
  cases hr : derive_types types 0 [] with
  | none => simp [hr] at h
  | some r =>
    obtain ⟨us, m2⟩ := r
    simp [hr] at h
    subst h
    have hlen := derive_types_length _ _ _ _ _ hr
    have hmap := derive_types_map _ _ _ _ _ hr
    have hnames : us.map NodeType.name = types.map NodeType.name := by
      apply List.ext_getElem (by simp [hlen])
      intro n h1 h2
      simp only [List.getElem_map]
      have h1b : n < us.length := by simpa using h1
      have h2b : n < types.length := by simpa using h2
      exact (derive_type_spec _ _ (derive_types_getElem _ _ _ _ _ hr n h2b h1b)).1
    refine ⟨?_, ?_⟩
    · intro t ht
      simp only [VoxelGraphNodeDB.get_type_count] at ht
      have ht2 : t < types.length := hlen ▸ ht
      refine ⟨us[t], by simp [VoxelGraphNodeDB.get_type, ht], ?_⟩
      obtain ⟨hn, hin, -, hp, hi⟩ :=
        derive_type_spec _ _ (derive_types_getElem _ _ _ _ _ hr t ht2 ht)
      obtain ⟨hpn, hinn, hpm, him⟩ := hd.2 types[t] (List.getElem_mem ht2)
      have hpl := derive_params_length _ _ _ _ _ hp
      have hpmap := derive_params_map _ _ _ _ _ hp
      have hpnames : us[t].params.map Param.name = types[t].params.map Param.name := by
        apply List.ext_getElem (by simp [hpl])
        intro n h1 h2
        simp only [List.getElem_map]
        have h1b : n < us[t].params.length := by simpa using h1
        have h2b : n < types[t].params.length := by simpa using h2
        exact (derive_param_spec _ _ _ (derive_params_getElem _ _ _ _ _ hp n h2b h1b)).1
      refine ⟨?_, ?_, ?_, ?_, ?_⟩
      · simp only [VoxelGraphNodeDB.try_get_type_id_from_name]
        rw [hmap, hn]
        have := derive_inputs_getptr_mem (types.map fun t => Port.mk t.name) 0 []
          (by rw [map_port_name_mk]; exact hd.1) t (by simpa using ht2)
        simpa using this
      · intro i hi2
        have hi3 : i < types[t].params.length := hpl ▸ hi2
        have hpi := derive_param_spec _ _ _ (derive_params_getElem _ _ _ _ _ hp i hi3 hi2)
        refine ⟨?_, by simpa using hpi.2.1⟩
        simp only [VoxelGraphNodeDB.try_get_param_index_from_name, List.getElem?_eq_getElem ht]
        rw [hpmap, hpi.1]
        have := derive_inputs_getptr_mem (types[t].params.map fun p => Port.mk p.name) 0
          types[t].param_name_to_index (by rw [map_port_name_mk]; exact hpn) i
          (by simpa using hi3)
        simpa using this
      · intro j hj
        have hj2 : j < types[t].inputs.length := hin ▸ hj
        simp only [VoxelGraphNodeDB.try_get_input_index_from_name, List.getElem?_eq_getElem ht]
        rw [hi]
        have := derive_inputs_getptr_mem types[t].inputs 0 types[t].input_name_to_index hinn j hj2
        simpa [hin] using this
      · intro name hname
        simp only [VoxelGraphNodeDB.try_get_param_index_from_name, List.getElem?_eq_getElem ht]
        rw [hpmap, derive_inputs_getptr_not_mem _ _ _ _ (by
          rw [map_port_name_mk, ← hpnames]; exact hname), hpm]
        rfl
      · intro name hname
        simp only [VoxelGraphNodeDB.try_get_input_index_from_name, List.getElem?_eq_getElem ht]
        rw [hi, derive_inputs_getptr_not_mem _ _ _ _ (by rw [← hin]; exact hname), him]
        rfl
    · intro name hname
      simp only [VoxelGraphNodeDB.try_get_type_id_from_name]
      rw [hmap, derive_inputs_getptr_not_mem _ _ _ _ (by
        rw [map_port_name_mk, ← hnames]; exact hname)]
      rfl

theorem create_eq_get_singleton :
    VoxelGraphNodeDB.create = some VoxelGraphNodeDB.get_singleton := by
  decide

/-- C1. After construction the registry name lookups invert the catalogue: the name of type
`t` is found at `t`, the name of its parameter `i` at `i` (and that parameter stores index
`i`), the name of its input `j` at `j`, and a name outside a list is not found. -/
theorem registry_lookups_invert_catalogue :
    VoxelGraphNodeDB.create = some VoxelGraphNodeDB.get_singleton ∧
    VoxelGraphNodeDB.get_singleton.get_type_count = NODE_TYPE_COUNT ∧
    (∀ t, t < VoxelGraphNodeDB.get_singleton.get_type_count →
      ∃ ty, VoxelGraphNodeDB.get_singleton.get_type t = some ty ∧
        VoxelGraphNodeDB.get_singleton.try_get_type_id_from_name ty.name = some t ∧
        (∀ i (h : i < ty.params.length),
          VoxelGraphNodeDB.get_singleton.try_get_param_index_from_name t (ty.params[i]).name
            = some i ∧
          (ty.params[i]).index = i) ∧
        (∀ j (h : j < ty.inputs.length),
          VoxelGraphNodeDB.get_singleton.try_get_input_index_from_name t (ty.inputs[j]).name
            = some j) ∧
        (∀ name, name ∉ ty.params.map Param.name →
          VoxelGraphNodeDB.get_singleton.try_get_param_index_from_name t name = none) ∧
        (∀ name, name ∉ ty.inputs.map Port.name →
          VoxelGraphNodeDB.get_singleton.try_get_input_index_from_name t name = none)) ∧
    (∀ name, name ∉ VoxelGraphNodeDB.get_singleton._types.map NodeType.name →
      VoxelGraphNodeDB.get_singleton.try_get_type_id_from_name name = none) :=
  ⟨create_eq_get_singleton, by decide,
    derive_lookups_invert declared_types _ create_eq_get_singleton (by decide)⟩

theorem derive_defaults (types : List NodeType) (db : VoxelGraphNodeDB)
    (h : VoxelGraphNodeDB.derive types = some db) (hd : DeclaredDefaults types)
    (t : Nat) (ht : t < types.length) :
    ∃ ty, db.get_type t = some ty ∧ ty.params.length = (types[t]).params.length ∧
      ∀ i (h1 : i < ty.params.length) (h2 : i < (types[t]).params.length),
        (ty.params[i]).name = ((types[t]).params[i]).name ∧
        (ty.params[i]).type = ((types[t]).params[i]).type ∧
        ((ty.params[i]).type = .REAL →
          (ty.params[i]).default_value.get_type = .REAL ∧
          (((types[t]).params[i]).default_value = .NIL →
            (ty.params[i]).default_value = .REAL 0) ∧
          (((types[t]).params[i]).default_value ≠ .NIL →
            (ty.params[i]).default_value = ((types[t]).params[i]).default_value)) ∧
        ((ty.params[i]).type = .OBJECT → (ty.params[i]).default_value = .NIL) := by
  unfold VoxelGraphNodeDB.derive at h
  cases hr : derive_types types 0 [] with
  | none => simp [hr] at h
  | some r =>
    obtain ⟨us, m2⟩ := r
    simp [hr] at h
    subst h
    have hlen := derive_types_length _ _ _ _ _ hr
    have ht2 : t < us.length := hlen ▸ ht
    refine ⟨us[t], by simp [VoxelGraphNodeDB.get_type, ht2], ?_⟩
    obtain ⟨-, -, -, hp, -⟩ :=
      derive_type_spec _ _ (derive_types_getElem _ _ _ _ _ hr t ht ht2)
    have hpl := derive_params_length _ _ _ _ _ hp
    refine ⟨hpl, ?_⟩
    intro i h1 h2
    obtain ⟨hn, -, hty, -, h0, hk, ho⟩ :=
      derive_param_spec _ _ _ (derive_params_getElem _ _ _ _ _ hp i h2 h1)
    obtain ⟨hdr, hdo⟩ := hd types[t] (List.getElem_mem ht) _ (List.getElem_mem h2)
    refine ⟨hn, hty, ?_, ?_⟩
    · intro hreal
      rw [hty] at hreal
      refine ⟨?_, h0 hreal, hk hreal⟩
      by_cases hnil : ((types[t]).params[i]).default_value = .NIL
      · rw [h0 hreal hnil]
        rfl
      · rw [hk hreal hnil]
        exact (hdr hreal).resolve_left hnil
    · intro hobj
      rw [hty] at hobj
      rw [ho hobj]
      exact hdo hobj

/-- C2. After construction every numeric parameter has a numeric default: 0 when none was
declared (Constant `value`), the declared one otherwise (Clamp, Remap); a resource
reference has no default. -/
theorem registry_numeric_defaults :
    VoxelGraphNodeDB.create = some VoxelGraphNodeDB.get_singleton ∧
    (∀ t (ht : t < declared_types.length),
      ∃ ty, VoxelGraphNodeDB.get_singleton.get_type t = some ty ∧
        ty.params.length = (declared_types[t]).params.length ∧
        ∀ i (h1 : i < ty.params.length) (h2 : i < (declared_types[t]).params.length),
          (ty.params[i]).name = ((declared_types[t]).params[i]).name ∧
          (ty.params[i]).type = ((declared_types[t]).params[i]).type ∧
          ((ty.params[i]).type = .REAL →
            (ty.params[i]).default_value.get_type = .REAL ∧
            (((declared_types[t]).params[i]).default_value = .NIL →
              (ty.params[i]).default_value = .REAL 0) ∧
            (((declared_types[t]).params[i]).default_value ≠ .NIL →
              (ty.params[i]).default_value = ((declared_types[t]).params[i]).default_value)) ∧
          ((ty.params[i]).type = .OBJECT → (ty.params[i]).default_value = .NIL)) ∧
    param_defaults VoxelGraphNodeDB.get_singleton .NODE_CONSTANT = some [("value", .REAL 0)] ∧
    param_defaults VoxelGraphNodeDB.get_singleton .NODE_CLAMP =
      some [("min", .REAL (-1)), ("max", .REAL 1)] ∧
    param_defaults VoxelGraphNodeDB.get_singleton .NODE_REMAP =
      some [("min0", .REAL (-1)), ("max0", .REAL 1), ("min1", .REAL (-1)), ("max1", .REAL 1)] ∧
    param_defaults VoxelGraphNodeDB.get_singleton .NODE_CURVE = some [("curve", .NIL)] :=
  ⟨create_eq_get_singleton,
    fun t ht => derive_defaults declared_types _ create_eq_get_singleton (by decide) t ht,
    by decide, by decide, by decide, by decide⟩

/-! ## The names of view nodes -/

theorem digitChar_value (k : Nat) (hk : k < 10) : (Nat.digitChar k).toNat - 48 = k := by
  interval_cases k <;> decide

theorem toDigitsCore_append (fuel n : Nat) (acc : List Char) :
    Nat.toDigitsCore 10 fuel n acc = Nat.toDigitsCore 10 fuel n [] ++ acc := by
  induction fuel generalizing n acc with
  | zero => simp [Nat.toDigitsCore]
  | succ fuel ih =>
    simp only [Nat.toDigitsCore]
    split
    · simp
    · rw [ih (n / 10) (_ :: acc), ih (n / 10) [_]]
      simp

theorem decimal_value_toDigitsCore (fuel n : Nat) (h : n < fuel) :
    decimal_value (Nat.toDigitsCore 10 fuel n []) = n := by
  induction fuel generalizing n with
  | zero => omega
  | succ fuel ih =>
    simp only [Nat.toDigitsCore]
    split
    · simp only [decimal_value, List.foldl_cons, List.foldl_nil]
      rw [digitChar_value _ (Nat.mod_lt _ (by decide))]
      omega
    · rw [toDigitsCore_append]
      have hlt : n / 10 < fuel := by omega
      have := ih (n / 10) hlt
      simp only [decimal_value, List.foldl_append, List.foldl_cons, List.foldl_nil] at this ⊢
      rw [this, digitChar_value _ (Nat.mod_lt _ (by decide))]
      omega

theorem decimal_value_itos (n : Nat) : decimal_value (itos n).data = n := by
  simp only [itos, Nat.repr, Nat.toDigits, List.asString]
  exact decimal_value_toDigitsCore (n + 1) n (Nat.lt_succ_self n)

theorem node_to_gui_name_inj {a b : Nat} (h : node_to_gui_name a = node_to_gui_name b) :
    a = b := by
  have := congrArg (fun s : String => decimal_value s.data) h
  simpa [node_to_gui_name, decimal_value_itos] using this

theorem to_uint32_to_int32 (n : Nat) (h : n < 4294967296) : to_uint32 (to_int32 n) = n := by
  unfold to_uint32 to_int32
  split <;> omega

/-- C3. `node_to_gui_name` is injective on node ids (on all naturals, so on the 32-bit
ones), it is a function of the id alone, the id is read back from the name, and an id that
reaches a call site through an `int` parameter gives the same name. -/
theorem node_to_gui_name_injective :
    (∀ a b : Nat, node_to_gui_name a = node_to_gui_name b → a = b) ∧
    (∀ a : Nat, decimal_value (node_to_gui_name a).data = a) ∧
    (∀ a : Nat, a < 4294967296 →
      node_to_gui_name (to_uint32 (to_int32 a)) = node_to_gui_name a) :=
  ⟨fun _ _ h => node_to_gui_name_inj h, decimal_value_itos,
    fun a h => by rw [to_uint32_to_int32 a h]⟩

/-! ## Rejected connection requests -/

theorem is_input_connected_can_connect (g : VoxelGeneratorGraph) (a p d q : Nat)
    (h : g.is_input_connected d q = true) : g.can_connect a p d q = false := by
  unfold VoxelGeneratorGraph.can_connect
  split
  · split
    · simp [h]
    · rfl
  · rfl

/-- C4. A connection request whose source or destination view node cannot be resolved, or
that `can_connect` refuses (in particular because the destination input is already
connected), returns the editor as it was: no action on the undo stack, the graph and the
view unchanged. -/
theorem connection_request_rejected_is_noop (s : VoxelGraphEditor) (from_node_name : String)
    (from_slot : Nat) (to_node_name : String) (to_slot : Nat)
    (h : s._graph_edit.get_node from_node_name = none ∨
      s._graph_edit.get_node to_node_name = none ∨
      ∃ g sv dv, s._graph = some g ∧ s._graph_edit.get_node from_node_name = some sv ∧
        s._graph_edit.get_node to_node_name = some dv ∧
        (g.can_connect sv.node_id from_slot dv.node_id to_slot = false ∨
          g.is_input_connected dv.node_id to_slot = true)) :
    s._on_graph_edit_connection_request from_node_name from_slot to_node_name to_slot
      = some s := by
  unfold VoxelGraphEditor._on_graph_edit_connection_request
  rcases h with h | h | ⟨g, sv, dv, hg, hs, hd, hc⟩
  · simp [h]
  · cases hf : s._graph_edit.get_node from_node_name <;> simp [h]
  · have hc2 : g.can_connect sv.node_id from_slot dv.node_id to_slot = false := by
      rcases hc with hc | hc
      · exact hc
      · exact is_input_connected_can_connect _ _ _ _ _ hc
    simp [hg, hs, hd, hc2]

/-- C4, at the editor of the scenario: a second connection into input 0 of node 2, which is
connected already, is refused, and the prior connection is still the only one. -/
theorem connection_request_rejected_is_noop_witness :
    (scenario_editor._graph_edit.get_node "1" = none ∨
      scenario_editor._graph_edit.get_node "2" = none ∨
      ∃ g sv dv, scenario_editor._graph = some g ∧
        scenario_editor._graph_edit.get_node "1" = some sv ∧
        scenario_editor._graph_edit.get_node "2" = some dv ∧
        (g.can_connect sv.node_id 0 dv.node_id 0 = false ∨
          g.is_input_connected dv.node_id 0 = true)) ∧
    scenario_editor._on_graph_edit_connection_request "1" 0 "2" 0 = some scenario_editor ∧
    scenario_editor._graph.map VoxelGeneratorGraph.get_connections
      = some [⟨⟨1, 0⟩, ⟨2, 0⟩⟩] :=
  have h : scenario_editor._graph_edit.get_node "1" = none ∨
      scenario_editor._graph_edit.get_node "2" = none ∨
      ∃ g sv dv, scenario_editor._graph = some g ∧
        scenario_editor._graph_edit.get_node "1" = some sv ∧
        scenario_editor._graph_edit.get_node "2" = some dv ∧
        (g.can_connect sv.node_id 0 dv.node_id 0 = false ∨
          g.is_input_connected dv.node_id 0 = true) :=
    Or.inr (Or.inr ⟨scenario_graph, (scenario_editor._graph_edit.children.get ⟨0, by decide!⟩),
      (scenario_editor._graph_edit.children.get ⟨1, by decide!⟩),
      by decide!, by decide!, by decide!, Or.inr (by decide!)⟩)
  ⟨h, connection_request_rejected_is_noop scenario_editor "1" 0 "2" 0 h, by decide!⟩

/-! ## Lemmas on the view -/

theorem find_update_named (name : String) (f : VoxelGraphEditorNode → VoxelGraphEditorNode)
    (hf : ∀ v, (f v).name = v.name) (l : List VoxelGraphEditorNode) :
    (update_named name f l).find? (fun v => decide (v.name = name))
      = (l.find? fun v => decide (v.name = name)).map f := by
  induction l with
  | nil => rfl
  | cons v l ih =>
    by_cases h : v.name = name
    · simp [update_named, h, hf]
    · simp [update_named, h, ih]

theorem update_named_comp (name : String) (f k : VoxelGraphEditorNode → VoxelGraphEditorNode)
    (hf : ∀ v, (f v).name = v.name) (l : List VoxelGraphEditorNode) :
    update_named name k (update_named name f l) = update_named name (fun v => k (f v)) l := by
  induction l with
  | nil => rfl
  | cons v l ih =>
    by_cases h : v.name = name
    · simp [update_named, h, hf]
    · simp [update_named, h, ih]

theorem update_named_fixed (name : String) (f : VoxelGraphEditorNode → VoxelGraphEditorNode)
    (l : List VoxelGraphEditorNode)
    (hf : ∀ v, l.find? (fun v => decide (v.name = name)) = some v → f v = v) :
    update_named name f l = l := by
  induction l with
  | nil => rfl
  | cons v l ih =>
    by_cases h : v.name = name
    · simp [update_named, h, hf v (by simp [h])]
    · simp only [update_named, h, if_false]
      rw [ih (fun w hw => hf w (by simp [h, hw]))]

theorem modify_visible_twice (l : List Control) (i : Nat) (b b2 : Bool)
    (h : ∀ c, l[i]? = some c → c.visible = b2) :
    (l.modify (fun c => { c with visible := b }) i).modify (fun c => { c with visible := b2 }) i
      = l := by
  induction l generalizing i with
  | nil => simp
  | cons c l ih =>
    cases i with
    | zero =>
      have := h c (by simp)
      simp [← this]
    | succ i =>
      simp only [List.modify_succ_cons]
      rw [ih i (fun c hc => h c (by simpa using hc))]

theorem set_input_visible_twice (v : VoxelGraphEditorNode) (i : Nat) (b b2 : Bool)
    (h : ∀ c, v.input_controls[i]? = some c → c.visible = b2) :
    (v.set_input_visible i b).set_input_visible i b2 = v := by
  unfold VoxelGraphEditorNode.set_input_visible
  simp [modify_visible_twice v.input_controls i b b2 h]

theorem set_input_control_visible_twice (ge : GraphEdit) (name : String) (i : Nat)
    (b b2 : Bool)
    (h : ∀ v c, ge.get_node name = some v → v.input_controls[i]? = some c → c.visible = b2) :
    (ge.set_input_control_visible name i b).set_input_control_visible name i b2 = ge := by
  unfold GraphEdit.set_input_control_visible
  cases hv : ge.get_node name with
  | none => simp [hv]
  | some v =>
    simp only
    by_cases hi : i < v.input_controls.length
    · simp only [hi, if_true]
      have hname : ∀ w : VoxelGraphEditorNode, (w.set_input_visible i b).name = w.name :=
        fun _ => rfl
      have hfind : (ge.update_node name fun v => v.set_input_visible i b).get_node
          name = some (v.set_input_visible i b) := by
        simp only [GraphEdit.get_node, GraphEdit.update_node] at hv ⊢
        rw [find_update_named name (fun v => v.set_input_visible i b) hname, hv]
        rfl
      have hlen : (v.set_input_visible i b).input_controls.length = v.input_controls.length := by
        simp [VoxelGraphEditorNode.set_input_visible]
      simp only [hfind]
      simp only [hlen, hi, if_true]
      simp only [GraphEdit.update_node]
      rw [update_named_comp name (fun v => v.set_input_visible i b) _ hname, update_named_fixed]
      intro w hw
      exact set_input_visible_twice w i b b2 (fun c hc => h w c hw hc)
    · simp [hi, hv]

theorem set_input_control_visible_connections (ge : GraphEdit) (name : String) (i : Nat)
    (b : Bool) : (ge.set_input_control_visible name i b).connections = ge.connections := by
  unfold GraphEdit.set_input_control_visible
  split
  · rfl
  · split <;> rfl

theorem set_input_control_visible_with_connections (ge : GraphEdit) (name : String) (i : Nat)
    (b : Bool) (cs : List GraphEditConnection) :
    ({ ge.set_input_control_visible name i b with connections := cs } : GraphEdit)
      = ({ ge with connections := cs } : GraphEdit).set_input_control_visible name i b := by
  unfold GraphEdit.set_input_control_visible GraphEdit.get_node
  simp only
  split
  · rfl
  · split <;> rfl

/-! ## Lemmas on the graph model -/

theorem can_connect_not_connected (g : VoxelGeneratorGraph) (a p d q : Nat)
    (h : g.can_connect a p d q = true) : g.is_input_connected d q = false := by
  cases hc : g.is_input_connected d q with
  | false => rfl
  | true => rw [is_input_connected_can_connect g a p d q hc] at h; cases h

theorem is_input_connected_of_mem (g : VoxelGeneratorGraph) (c : Connection)
    (hc : c ∈ g.connections) : g.is_input_connected c.dst.node_id c.dst.port_index = true := by
  unfold VoxelGeneratorGraph.is_input_connected
  rw [List.any_eq_true]
  exact ⟨c, hc, by simp⟩

theorem erase_append_singleton {α : Type} [DecidableEq α] (l : List α) (a : α) (h : a ∉ l) :
    (l ++ [a]).erase a = l := by
  rw [List.erase_append_right _ h]
  simp

theorem get_node_mem (ge : GraphEdit) (name : String) (v : VoxelGraphEditorNode)
    (h : ge.get_node name = some v) : v ∈ ge.children ∧ v.name = name := by
  unfold GraphEdit.get_node at h
  exact ⟨List.mem_of_find?_eq_some h, by simpa using List.find?_some h⟩

theorem add_remove_connection (g : VoxelGeneratorGraph) (a p d q : Nat)
    (hcan : g.can_connect a p d q = true) :
    (g.add_connection a p d q).remove_connection a p d q = g := by
  have hfree := can_connect_not_connected _ _ _ _ _ hcan
  have hc : (⟨⟨a, p⟩, ⟨d, q⟩⟩ : Connection) ∉ g.connections := by
    intro hmem
    have := is_input_connected_of_mem g _ hmem
    simp [hfree] at this
  simp [VoxelGeneratorGraph.add_connection, hcan, VoxelGeneratorGraph.remove_connection,
    erase_append_singleton _ _ hc]

theorem view_connect_disconnect (ge : GraphEdit) (a : String) (p : Nat) (b : String) (q : Nat)
    (he : (⟨a, p, b, q⟩ : GraphEditConnection) ∉ ge.connections)
    (hvis : ∀ v c, ge.get_node b = some v → v.input_controls[q]? = some c → c.visible = true) :
    (((ge.connect_node a p b q).set_input_control_visible b q false).disconnect_node a p b
      q).set_input_control_visible b q true = ge := by
  have hcon : ge.connect_node a p b q
      = { ge with connections := ge.connections ++ [⟨a, p, b, q⟩] } := by
    simp [GraphEdit.connect_node, GraphEdit.is_node_connected, he]
  rw [hcon]
  simp only [GraphEdit.disconnect_node, set_input_control_visible_connections,
    erase_append_singleton _ _ he]
  rw [set_input_control_visible_with_connections]
  exact set_input_control_visible_twice ge b q false true hvis

theorem synchronized_unfold (s : VoxelGraphEditor) (g : VoxelGeneratorGraph)
    (hg : s._graph = some g) (h : s.Synchronized) :
    g.WellFormed ∧
    (s._graph_edit.children.map VoxelGraphEditorNode.name).Nodup ∧
    (∀ v ∈ s._graph_edit.children, v.name = node_to_gui_name v.node_id ∧
      (g.node_type v.node_id).map (fun ty => ty.inputs.length) = some v.input_controls.length) ∧
    (∀ n ∈ g.nodes, ∃ v ∈ s._graph_edit.children, v.node_id = n.id) ∧
    s._graph_edit.connections.Nodup ∧
    (∀ e ∈ s._graph_edit.connections, ∃ c ∈ g.connections, e = edge_of c) ∧
    (∀ c ∈ g.connections, edge_of c ∈ s._graph_edit.connections) ∧
    (∀ v ∈ s._graph_edit.children, ∀ i, i < v.input_controls.length →
      (v.input_controls[i]?).map Control.visible
        = some (!g.is_input_connected v.node_id i)) := by
  unfold VoxelGraphEditor.Synchronized at h
  rw [hg] at h
  exact h

theorem connect_round_trip (s : VoxelGraphEditor) (g : VoxelGeneratorGraph)
    (sv dv : VoxelGraphEditorNode) (from_node_name : String) (from_slot : Nat)
    (to_node_name : String) (to_slot : Nat) (hsync : s.Synchronized) (hg : s._graph = some g)
    (hs : s._graph_edit.get_node from_node_name = some sv)
    (hd : s._graph_edit.get_node to_node_name = some dv)
    (hcan : g.can_connect sv.node_id from_slot dv.node_id to_slot = true) :
    ∃ s1 s2,
      s._on_graph_edit_connection_request from_node_name from_slot to_node_name to_slot
        = some s1 ∧
      s1._undo_redo.actions.getLast? = some (connect_action sv.node_id from_slot dv.node_id
        to_slot from_node_name to_node_name) ∧
      run_ops (connect_action sv.node_id from_slot dv.node_id to_slot from_node_name
        to_node_name).do_ops { s with _undo_redo := s1._undo_redo } = some s1 ∧
      s1._graph.map VoxelGeneratorGraph.get_connections
        = some (g.connections ++ [⟨⟨sv.node_id, from_slot⟩, ⟨dv.node_id, to_slot⟩⟩]) ∧
      s1._graph_edit.connections
        = s._graph_edit.connections ++ [⟨from_node_name, from_slot, to_node_name, to_slot⟩] ∧
      run_ops (connect_action sv.node_id from_slot dv.node_id to_slot from_node_name
        to_node_name).undo_ops s1 = some s2 ∧
      s2._graph = s._graph ∧ s2._graph_edit = s._graph_edit := by
  obtain ⟨hwf, hnames, hview, hnodes, hend, hedges, hconns, hvis⟩ :=
    synchronized_unfold s g hg hsync
  obtain ⟨hdm, hdn⟩ := get_node_mem _ _ _ hd
  have hfree := can_connect_not_connected _ _ _ _ _ hcan
  -- the connection is new in the model
  have hc : (⟨⟨sv.node_id, from_slot⟩, ⟨dv.node_id, to_slot⟩⟩ : Connection) ∉ g.connections := by
    intro hmem
    have := is_input_connected_of_mem g _ hmem
    simp [hfree] at this
  -- the edge is new in the view
  have he : (⟨from_node_name, from_slot, to_node_name, to_slot⟩ : GraphEditConnection)
      ∉ s._graph_edit.connections := by
    intro hmem
    obtain ⟨c, hcm, hce⟩ := hedges _ hmem
    simp only [edge_of, GraphEditConnection.mk.injEq] at hce
    have hid : c.dst.node_id = dv.node_id := by
      apply node_to_gui_name_inj
      rw [← hce.2.2.1, ← (hview dv hdm).1, hdn]
    have := is_input_connected_of_mem g c hcm
    rw [hid, ← hce.2.2.2, hfree] at this
    cases this
  have hadd : g.add_connection sv.node_id from_slot dv.node_id to_slot
      = { g with connections :=
          g.connections ++ [⟨⟨sv.node_id, from_slot⟩, ⟨dv.node_id, to_slot⟩⟩] } := by
    simp [VoxelGeneratorGraph.add_connection, hcan]
  have hcon : s._graph_edit.connect_node from_node_name from_slot to_node_name to_slot
      = { s._graph_edit with connections :=
          s._graph_edit.connections ++ [⟨from_node_name, from_slot, to_node_name, to_slot⟩] } := by
    simp [GraphEdit.connect_node, GraphEdit.is_node_connected, he]
  have hvis0 : ∀ v c, s._graph_edit.get_node to_node_name = some v →
      v.input_controls[to_slot]? = some c → c.visible = true := by
    intro v c hv hcc
    rw [hd] at hv
    cases hv
    have hlt : to_slot < dv.input_controls.length := by
      by_contra hge
      simp [List.getElem?_eq_none (Nat.le_of_not_lt hge)] at hcc
    have := hvis dv hdm to_slot hlt
    simpa [hcc, hfree] using this
  refine ⟨{ s with
      _graph := some (g.add_connection sv.node_id from_slot dv.node_id to_slot)
      _graph_edit := (s._graph_edit.connect_node from_node_name from_slot to_node_name
        to_slot).set_input_control_visible to_node_name to_slot false
      _undo_redo := ⟨s._undo_redo.actions.take s._undo_redo.current_action ++
        [connect_action sv.node_id from_slot dv.node_id to_slot from_node_name to_node_name],
        s._undo_redo.current_action + 1, none⟩ },
    { s with
      _undo_redo := ⟨s._undo_redo.actions.take s._undo_redo.current_action ++
        [connect_action sv.node_id from_slot dv.node_id to_slot from_node_name to_node_name],
        s._undo_redo.current_action + 1, none⟩ }, ?_, ?_, ?_, ?_, ?_, ?_, rfl, rfl⟩
  · simp [VoxelGraphEditor._on_graph_edit_connection_request, hs, hd, hg, hcan,
      VoxelGraphEditor.commit_action, UndoRedo.create_action, UndoRedo.add_do_method,
      UndoRedo.add_undo_method, run_ops, Step.run, connect_action,
      VoxelGraphEditor.set_input_control_visible]
  · simp
  · simp [run_ops, Step.run, connect_action, hg, VoxelGraphEditor.set_input_control_visible]
  · simp [hadd, VoxelGeneratorGraph.get_connections]
  · simp [set_input_control_visible_connections, hcon]
  · simp only [run_ops, Step.run, connect_action, Option.map_some',
      VoxelGraphEditor.set_input_control_visible]
    rw [add_remove_connection g _ _ _ _ hcan, view_connect_disconnect _ _ _ _ _ he hvis0, hg]

theorem can_connect_after_remove (g : VoxelGeneratorGraph) (hwf : g.WellFormed) (a p d q : Nat)
    (hc : (⟨⟨a, p⟩, ⟨d, q⟩⟩ : Connection) ∈ g.connections) :
    (g.remove_connection a p d q).can_connect a p d q = true := by
  obtain ⟨-, hnd, hports, huniq, -⟩ := hwf
  obtain ⟨hsrc, hdst⟩ := hports _ hc
  simp only [VoxelGeneratorGraph.node_type] at hsrc hdst
  have hfree : (g.remove_connection a p d q).is_input_connected d q = false := by
    cases hcon : (g.remove_connection a p d q).is_input_connected d q with
    | false => rfl
    | true =>
      exfalso
      simp only [VoxelGeneratorGraph.is_input_connected, VoxelGeneratorGraph.remove_connection,
        List.any_eq_true, decide_eq_true_eq] at hcon
      obtain ⟨c2, hc2, hdst2⟩ := hcon
      have hc2m := (hnd.mem_erase_iff.mp hc2)
      exact hc2m.1 (huniq c2 hc2m.2 _ hc (by simpa using hdst2))
  unfold VoxelGeneratorGraph.can_connect
  have hfs : (g.remove_connection a p d q).find_node a = g.find_node a := rfl
  have hfd : (g.remove_connection a p d q).find_node d = g.find_node d := rfl
  rw [hfs, hfd]
  cases hsn : g.find_node a with
  | none => simp [hsn] at hsrc
  | some sn =>
    cases hdn : g.find_node d with
    | none => simp [hdn] at hdst
    | some dn =>
      simp only [hsn, hdn, Option.some_bind] at hsrc hdst
      cases hst : VoxelGraphNodeDB.get_singleton.get_type sn.type_id with
      | none => simp [hst] at hsrc
      | some st =>
        cases hdt : VoxelGraphNodeDB.get_singleton.get_type dn.type_id with
        | none => simp [hdt] at hdst
        | some dt =>
          simp only [hst, hdt, Option.map_some', Option.some.injEq, decide_eq_true_eq] at hsrc hdst
          simp [hst, hdt, hsrc, hdst, hfree]

theorem GraphEdit.eq_of_fields (x y : GraphEdit) (h1 : x.children = y.children)
    (h2 : x.connections = y.connections) : x = y := by
  cases x
  cases y
  simp only at h1 h2
  rw [h1, h2]

theorem set_input_control_visible_children_congr (x y : GraphEdit) (name : String) (i : Nat)
    (b : Bool) (h : x.children = y.children) :
    (x.set_input_control_visible name i b).children
      = (y.set_input_control_visible name i b).children := by
  unfold GraphEdit.set_input_control_visible GraphEdit.get_node GraphEdit.update_node
  rw [h]
  split
  · exact h
  · split
    · rfl
    · exact h

theorem view_disconnect_connect (ge : GraphEdit) (a : String) (p : Nat) (b : String) (q : Nat)
    (hnd : ge.connections.Nodup)
    (hvis : ∀ v c, ge.get_node b = some v → v.input_controls[q]? = some c → c.visible = false) :
    (((ge.disconnect_node a p b q).set_input_control_visible b q true).connect_node a p b
      q).set_input_control_visible b q false
      = { ge with connections := ge.connections.erase ⟨a, p, b, q⟩ ++ [⟨a, p, b, q⟩] } := by
  have he : (⟨a, p, b, q⟩ : GraphEditConnection) ∉ ge.connections.erase ⟨a, p, b, q⟩ := by
    intro h
    exact (hnd.mem_erase_iff.mp h).1 rfl
  have hcon : ((ge.disconnect_node a p b q).set_input_control_visible b q true).connect_node
      a p b q = { (ge.disconnect_node a p b q).set_input_control_visible b q true with
        connections := ge.connections.erase ⟨a, p, b, q⟩ ++ [⟨a, p, b, q⟩] } := by
    simp [GraphEdit.connect_node, GraphEdit.is_node_connected,
      set_input_control_visible_connections, GraphEdit.disconnect_node, he]
  apply GraphEdit.eq_of_fields
  · rw [set_input_control_visible_children_congr _
      ((ge.set_input_control_visible b q true)) b q false, 
      set_input_control_visible_twice ge b q true false hvis]
    rw [hcon]
    exact set_input_control_visible_children_congr _ _ b q true rfl
  · rw [set_input_control_visible_connections, hcon]

theorem disconnect_round_trip (s : VoxelGraphEditor) (g : VoxelGeneratorGraph)
    (sv dv : VoxelGraphEditorNode) (from_node_name : String) (from_slot : Nat)
    (to_node_name : String) (to_slot : Nat) (hsync : s.Synchronized) (hg : s._graph = some g)
    (hs : s._graph_edit.get_node from_node_name = some sv)
    (hd : s._graph_edit.get_node to_node_name = some dv)
    (hedge : (⟨from_node_name, from_slot, to_node_name, to_slot⟩ : GraphEditConnection)
      ∈ s._graph_edit.connections) :
    ∃ s1 s2 g2,
      s._on_graph_edit_disconnection_request from_node_name from_slot to_node_name to_slot
        = some s1 ∧
      s1._undo_redo.actions.getLast? = some (disconnect_action sv.node_id from_slot dv.node_id
        to_slot from_node_name to_node_name) ∧
      run_ops (disconnect_action sv.node_id from_slot dv.node_id to_slot from_node_name
        to_node_name).do_ops { s with _undo_redo := s1._undo_redo } = some s1 ∧
      (⟨⟨sv.node_id, from_slot⟩, ⟨dv.node_id, to_slot⟩⟩ : Connection) ∈ g.connections ∧
      s1._graph.map VoxelGeneratorGraph.get_connections
        = some (g.connections.erase ⟨⟨sv.node_id, from_slot⟩, ⟨dv.node_id, to_slot⟩⟩) ∧
      s1._graph_edit.connections
        = s._graph_edit.connections.erase ⟨from_node_name, from_slot, to_node_name, to_slot⟩ ∧
      run_ops (disconnect_action sv.node_id from_slot dv.node_id to_slot from_node_name
        to_node_name).undo_ops s1 = some s2 ∧
      s2._graph = some g2 ∧ g2.nodes = g.nodes ∧ g2.next_id = g.next_id ∧
      g2.connections.Perm g.connections ∧
      s2._graph_edit.connections.Perm s._graph_edit.connections ∧
      s2._graph_edit.children = s._graph_edit.children := by
  obtain ⟨hwf, hnames, hview, hnodes, hend, hedges, hconns, hvis⟩ :=
    synchronized_unfold s g hg hsync
  obtain ⟨hdm, hdn⟩ := get_node_mem _ _ _ hd
  obtain ⟨hsm, hsn⟩ := get_node_mem _ _ _ hs
  -- the edge stands for a connection of the model
  have hc : (⟨⟨sv.node_id, from_slot⟩, ⟨dv.node_id, to_slot⟩⟩ : Connection) ∈ g.connections := by
    obtain ⟨c, hcm, hce⟩ := hedges _ hedge
    simp only [edge_of, GraphEditConnection.mk.injEq] at hce
    have hid : c.dst.node_id = dv.node_id := by
      apply node_to_gui_name_inj
      rw [← hce.2.2.1, ← (hview dv hdm).1, hdn]
    have his : c.src.node_id = sv.node_id := by
      apply node_to_gui_name_inj
      rw [← hce.1, ← (hview sv hsm).1, hsn]
    have : c = ⟨⟨sv.node_id, from_slot⟩, ⟨dv.node_id, to_slot⟩⟩ := by
      obtain ⟨⟨a, p⟩, ⟨d, q⟩⟩ := c
      simp only at hid his hce
      simp [hid, his, hce.2.1, hce.2.2.2]
    rw [← this]
    exact hcm
  have hcan := can_connect_after_remove g hwf _ _ _ _ hc
  have hvis0 : ∀ v c, s._graph_edit.get_node to_node_name = some v →
      v.input_controls[to_slot]? = some c → c.visible = false := by
    intro v c hv hcc
    rw [hd] at hv
    cases hv
    have hlt : to_slot < dv.input_controls.length := by
      by_contra hge
      simp [List.getElem?_eq_none (Nat.le_of_not_lt hge)] at hcc
    have := hvis dv hdm to_slot hlt
    simpa [hcc, is_input_connected_of_mem g _ hc] using this
  have hadd : (g.remove_connection sv.node_id from_slot dv.node_id to_slot).add_connection
      sv.node_id from_slot dv.node_id to_slot
      = ⟨g.nodes, g.connections.erase ⟨⟨sv.node_id, from_slot⟩, ⟨dv.node_id, to_slot⟩⟩ ++
        [⟨⟨sv.node_id, from_slot⟩, ⟨dv.node_id, to_slot⟩⟩], g.next_id⟩ := by
    simp only [VoxelGeneratorGraph.add_connection, hcan, if_true]
    rfl
  refine ⟨{ s with
      _graph := some (g.remove_connection sv.node_id from_slot dv.node_id to_slot)
      _graph_edit := (s._graph_edit.disconnect_node from_node_name from_slot to_node_name
        to_slot).set_input_control_visible to_node_name to_slot true
      _undo_redo := ⟨s._undo_redo.actions.take s._undo_redo.current_action ++
        [disconnect_action sv.node_id from_slot dv.node_id to_slot from_node_name to_node_name],
        s._undo_redo.current_action + 1, none⟩ },
    { s with
      _graph := some ((g.remove_connection sv.node_id from_slot dv.node_id
        to_slot).add_connection sv.node_id from_slot dv.node_id to_slot)
      _graph_edit := ⟨s._graph_edit.children,
        s._graph_edit.connections.erase ⟨from_node_name, from_slot, to_node_name, to_slot⟩ ++
          [⟨from_node_name, from_slot, to_node_name, to_slot⟩]⟩
      _undo_redo := ⟨s._undo_redo.actions.take s._undo_redo.current_action ++
        [disconnect_action sv.node_id from_slot dv.node_id to_slot from_node_name to_node_name],
        s._undo_redo.current_action + 1, none⟩ },
    _, ?_, ?_, ?_, hc, ?_, ?_, ?_, rfl, ?_, ?_, ?_, ?_, rfl⟩
  · simp [VoxelGraphEditor._on_graph_edit_disconnection_request, hs, hd, hg,
      VoxelGraphEditor.commit_action, UndoRedo.create_action, UndoRedo.add_do_method,
      UndoRedo.add_undo_method, run_ops, Step.run, disconnect_action,
      VoxelGraphEditor.set_input_control_visible]
  · simp
  · simp [run_ops, Step.run, disconnect_action, hg, VoxelGraphEditor.set_input_control_visible]
  · simp [VoxelGeneratorGraph.remove_connection, VoxelGeneratorGraph.get_connections]
  · simp [set_input_control_visible_connections, GraphEdit.disconnect_node]
  · simp only [run_ops, Step.run, disconnect_action, Option.map_some',
      VoxelGraphEditor.set_input_control_visible]
    rw [view_disconnect_connect _ _ _ _ _ hend hvis0]
  · rw [hadd]
  · rw [hadd]
  · rw [hadd]
    exact (List.perm_append_comm.trans (List.perm_cons_erase hc).symm)
  · exact (List.perm_append_comm.trans (List.perm_cons_erase hedge).symm)

/-! ## The forward list of the delete gesture -/

theorem remove_connections_fold (name : String) (l : List GraphEditConnection) (ge : GraphEdit) :
    (l.foldl (fun ge con =>
        if con.from_node = name ∨ con.to_node = name then
          ge.disconnect_node con.from_node con.from_port con.to_node con.to_port
        else ge) ge).children = ge.children ∧
    (l.foldl (fun ge con =>
        if con.from_node = name ∨ con.to_node = name then
          ge.disconnect_node con.from_node con.from_port con.to_node con.to_port
        else ge) ge).connections.Sublist ge.connections ∧
    ∀ e : GraphEditConnection, e.from_node = name ∨ e.to_node = name →
      (l.foldl (fun ge con =>
        if con.from_node = name ∨ con.to_node = name then
          ge.disconnect_node con.from_node con.from_port con.to_node con.to_port
        else ge) ge).connections.count e = ge.connections.count e - l.count e := by
  induction l generalizing ge with
  | nil => simp
  | cons con l ih =>
    simp only [List.foldl_cons]
    by_cases ht : con.from_node = name ∨ con.to_node = name
    · simp only [ht, if_true]
      obtain ⟨h1, h2, h3⟩ := ih (ge.disconnect_node con.from_node con.from_port con.to_node
        con.to_port)
      refine ⟨h1, h2.trans (List.erase_sublist _ _), ?_⟩
      intro e he
      rw [h3 e he]
      simp only [GraphEdit.disconnect_node, List.count_erase, List.count_cons]
      by_cases hec : e = con
      · subst hec
        simp
        omega
      · have hce : ¬ con = e := fun h => hec h.symm
        simp [hec, hce]
    · simp only [ht, if_false]
      obtain ⟨h1, h2, h3⟩ := ih ge
      refine ⟨h1, h2, ?_⟩
      intro e he
      rw [h3 e he]
      have hce : ¬ con = e := by
        intro h
        subst h
        exact ht he
      simp [List.count_cons, hce]

theorem remove_connections_from_and_to_spec (ge : GraphEdit) (name : String) :
    (remove_connections_from_and_to ge name).children = ge.children ∧
    (remove_connections_from_and_to ge name).connections.Sublist ge.connections ∧
    ∀ e ∈ (remove_connections_from_and_to ge name).connections,
      e.from_node ≠ name ∧ e.to_node ≠ name := by
  obtain ⟨h1, h2, h3⟩ := remove_connections_fold name ge.connections ge
  refine ⟨h1, h2, ?_⟩
  intro e he
  by_contra hcon
  have ht : e.from_node = name ∨ e.to_node = name := by
    by_cases h : e.from_node = name
    · exact Or.inl h
    · by_cases h2 : e.to_node = name
      · exact Or.inr h2
      · exact absurd ⟨h, h2⟩ hcon
  have := h3 e ht
  rw [Nat.sub_self] at this
  exact (List.count_eq_zero.mp this) he

theorem delete_child_connections (ge : GraphEdit) (name : String) :
    (ge.delete_child name).connections = ge.connections := by
  unfold GraphEdit.delete_child
  split <;> rfl

theorem remove_node_gui_fields (s : VoxelGraphEditor) (name : String) :
    (s.remove_node_gui name)._graph = s._graph ∧
    (s.remove_node_gui name)._undo_redo = s._undo_redo ∧
    (s.remove_node_gui name)._updating_param_gui = s._updating_param_gui ∧
    (s.remove_node_gui name)._graph_edit.connections
      = (remove_connections_from_and_to s._graph_edit name).connections := by
  simp only [VoxelGraphEditor.remove_node_gui]
  cases (remove_connections_from_and_to s._graph_edit name).get_node name <;>
    simp [delete_child_connections]

theorem remove_node_gui_spec (s : VoxelGraphEditor) (name : String) :
    (s.remove_node_gui name)._graph = s._graph ∧
    (s.remove_node_gui name)._undo_redo = s._undo_redo ∧
    (s.remove_node_gui name)._graph_edit.connections.Sublist s._graph_edit.connections ∧
    (∀ e ∈ (s.remove_node_gui name)._graph_edit.connections,
      e.from_node ≠ name ∧ e.to_node ≠ name) := by
  obtain ⟨h1, h2, h3⟩ := remove_connections_from_and_to_spec s._graph_edit name
  obtain ⟨f1, f2, -, f4⟩ := remove_node_gui_fields s name
  refine ⟨f1, f2, ?_, ?_⟩
  · rw [f4]
    exact h2
  · rw [f4]
    exact h3

theorem same_forward_refl (u : UndoRedo) : same_forward u u := ⟨rfl, rfl, rfl, rfl⟩

theorem same_forward_trans {u u2 u3 : UndoRedo} (h1 : same_forward u u2)
    (h2 : same_forward u2 u3) : same_forward u u3 :=
  ⟨h2.1.trans h1.1, h2.2.1.trans h1.2.1, h2.2.2.1.trans h1.2.2.1, h2.2.2.2.trans h1.2.2.2⟩

theorem same_forward_add_undo (u : UndoRedo) (step : Step) :
    same_forward u (u.add_undo_method step) := by
  obtain ⟨acts, cur, pend⟩ := u
  refine ⟨rfl, rfl, ?_, ?_⟩ <;> cases pend <;> rfl

theorem delete_params_undo_spec (g : VoxelGeneratorGraph) (id count j : Nat) (u : UndoRedo)
    (h : ∀ k, j ≤ k → k < j + count → ∃ v, g.get_node_param id k = some v) :
    ∃ u2, delete_params_undo g id count j u = some u2 ∧ same_forward u u2 := by
  induction count generalizing j u with
  | zero => exact ⟨u, rfl, same_forward_refl u⟩
  | succ count ih =>
    obtain ⟨v, hv⟩ := h j (Nat.le_refl j) (by omega)
    obtain ⟨u2, hu2, hs⟩ := ih (j + 1) (u.add_undo_method (.set_node_param id j v))
      (fun k hk1 hk2 => h k (by omega) (by omega))
    refine ⟨u2, ?_, same_forward_trans (same_forward_add_undo _ _) hs⟩
    simp only [delete_params_undo, hv]
    exact hu2

theorem delete_connections_undo_spec (id : Nat) (cs : List Connection) (u : UndoRedo) :
    same_forward u (delete_connections_undo id cs u) := by
  induction cs generalizing u with
  | nil => exact same_forward_refl u
  | cons c cs ih =>
    simp only [delete_connections_undo]
    split
    · exact same_forward_trans (same_forward_trans (same_forward_add_undo _ _)
        (same_forward_add_undo _ _)) (ih _)
    · exact ih u

theorem delete_nodes_loop_spec (g : VoxelGeneratorGraph) (cs : List Connection)
    (vs : List VoxelGraphEditorNode) (u : UndoRedo) (h : ∀ v ∈ vs, node_ready g v) :
    ∃ u2, delete_nodes_loop g cs vs u = some u2 ∧ u2.actions = u.actions ∧
      u2.current_action = u.current_action ∧
      u2.pending.map Action.name = u.pending.map Action.name ∧
      u2.pending.map Action.do_ops = u.pending.map fun a =>
        a.do_ops ++ vs.flatMap fun v => [Step.remove_node v.node_id, Step.remove_node_gui v.name]
      := by
  induction vs generalizing u with
  | nil =>
    refine ⟨u, rfl, rfl, rfl, rfl, ?_⟩
    obtain ⟨acts, cur, pend⟩ := u
    cases pend <;> simp
  | cons v vs ih =>
    obtain ⟨n, ty, hn, hty, hlen⟩ := h v (List.mem_cons_self _ _)
    have hp : ∀ k, 0 ≤ k → k < 0 + ty.params.length → ∃ w, g.get_node_param v.node_id k = some w := by
      intro k _ hk
      have hk2 : k < n.params.length := by omega
      exact ⟨n.params[k], by simp [VoxelGeneratorGraph.get_node_param, hn, hk2]⟩
    obtain ⟨u1, hu1, hs1⟩ := delete_params_undo_spec g v.node_id ty.params.length 0
      ((((u.add_do_method (.remove_node v.node_id)).add_do_method
        (.remove_node_gui v.name))).add_undo_method
          (.create_node n.type_id n.gui_position v.node_id)) hp
    have hs2 := delete_connections_undo_spec v.node_id cs (u1.add_undo_method
      (.create_node_gui v.node_id))
    have hs := same_forward_trans (same_forward_trans (same_forward_trans
      (same_forward_add_undo _ _) hs1) (same_forward_add_undo _ _)) hs2
    obtain ⟨u2, hu2, ha, hc, hnm, hd⟩ := ih (delete_connections_undo v.node_id cs
      (u1.add_undo_method (.create_node_gui v.node_id)))
      (fun w hw => h w (List.mem_cons_of_mem _ hw))
    refine ⟨u2, ?_, ?_, ?_, ?_, ?_⟩
    · simp only [delete_nodes_loop, VoxelGeneratorGraph.get_node_type_id,
        VoxelGeneratorGraph.get_node_gui_position, hn, Option.map_some', hty, hu1]
      exact hu2
    · rw [ha, hs.1]
      rfl
    · rw [hc, hs.2.1]
      rfl
    · rw [hnm, hs.2.2.2]
      obtain ⟨acts, cur, pend⟩ := u
      cases pend <;> rfl
    · rw [hd]
      have hmap : ∀ (o : Option Action) (l : List Step),
          o.map (fun a => a.do_ops ++ l) = (o.map Action.do_ops).map fun d => d ++ l := by
        intro o l
        cases o <;> rfl
      rw [hmap, hs.2.2.1]
      obtain ⟨acts, cur, pend⟩ := u
      cases pend <;> simp [UndoRedo.add_do_method, UndoRedo.add_undo_method]

theorem run_delete_forward (vs : List VoxelGraphEditorNode) (s : VoxelGraphEditor)
    (g : VoxelGeneratorGraph) (hg : s._graph = some g) :
    ∃ s1, run_ops (vs.flatMap fun v =>
        [Step.remove_node v.node_id, Step.remove_node_gui v.name]) s = some s1 ∧
      s1._undo_redo = s._undo_redo ∧
      s1._graph_edit.connections.Sublist s._graph_edit.connections ∧
      ∀ v ∈ vs, ∀ e ∈ s1._graph_edit.connections, e.from_node ≠ v.name ∧ e.to_node ≠ v.name := by
  induction vs generalizing s g with
  | nil => exact ⟨s, rfl, rfl, List.Sublist.refl _, by simp⟩
  | cons v vs ih =>
    obtain ⟨f1, f2, f3, f4⟩ := remove_node_gui_spec
      { s with _graph := some (g.remove_node v.node_id) } v.name
    obtain ⟨s1, hs1, hu, hsub, hno⟩ := ih
      (({ s with _graph := some (g.remove_node v.node_id) } :
        VoxelGraphEditor).remove_node_gui v.name) (g.remove_node v.node_id) f1
    refine ⟨s1, ?_, hu.trans f2, hsub.trans f3, ?_⟩
    · simp only [List.flatMap_cons, List.cons_append, List.nil_append, run_ops, Step.run, hg,
        Option.map_some']
      exact hs1
    · intro w hw e he
      rcases List.mem_cons.mp hw with rfl | hw
      · exact f4 e (hsub.subset he)
      · exact hno w hw e he

theorem synchronized_unfold2 (s : VoxelGraphEditor) (h : s.Synchronized) :
    ∃ g, s._graph = some g ∧ g.WellFormed ∧
      ∀ v ∈ s._graph_edit.children, v.name = node_to_gui_name v.node_id ∧
        (g.node_type v.node_id).map (fun ty => ty.inputs.length)
          = some v.input_controls.length := by
  unfold VoxelGraphEditor.Synchronized at h
  cases hg : s._graph with
  | none => simp [hg] at h
  | some g =>
    simp only [hg] at h
    exact ⟨g, rfl, h.1, h.2.2.1⟩

theorem node_ready_of_synchronized (s : VoxelGraphEditor) (g : VoxelGeneratorGraph)
    (hwf : g.WellFormed)
    (hview : ∀ v ∈ s._graph_edit.children, v.name = node_to_gui_name v.node_id ∧
      (g.node_type v.node_id).map (fun ty => ty.inputs.length) = some v.input_controls.length)
    (v : VoxelGraphEditorNode) (hv : v ∈ s._graph_edit.children) : node_ready g v := by
  have h := (hview v hv).2
  simp only [VoxelGeneratorGraph.node_type] at h
  cases hn : g.find_node v.node_id with
  | none => simp [hn] at h
  | some n =>
    cases hty : VoxelGraphNodeDB.get_singleton.get_type n.type_id with
    | none => simp [hn, hty] at h
    | some ty =>
      refine ⟨n, ty, hn, hty, ?_⟩
      have hmem : n ∈ g.nodes := List.mem_of_find?_eq_some hn
      have := hwf.2.2.2.2 n hmem
      simp only [hty, Option.map_some', Option.some.injEq, decide_eq_true_eq] at this
      exact this.1

/-- C7 (amended). On a synchronized state the delete gesture succeeds and registers, for
each selected view node in order, `remove_node(id)` then `remove_node_gui(name)` and
nothing else: no step of the forward list removes a model connection (that is left to
`remove_node`); once the list has run, no visual edge touches a deleted view node. -/
theorem delete_forward_list (s : VoxelGraphEditor) (hsync : s.Synchronized) :
    ∃ s1 a, s._on_graph_edit_delete_nodes_request = some s1 ∧
      s1._undo_redo.actions.getLast? = some a ∧ a.name = "Delete Nodes" ∧
      a.do_ops = (s._graph_edit.children.filter fun v => v.selected).flatMap
        (fun v => [Step.remove_node v.node_id, Step.remove_node_gui v.name]) ∧
      (∀ p q r t, Step.remove_connection p q r t ∉ a.do_ops) ∧
      (∀ v ∈ s._graph_edit.children, v.selected = true →
        ∀ e ∈ s1._graph_edit.connections, e.from_node ≠ v.name ∧ e.to_node ≠ v.name) := by
  obtain ⟨g, hg, hwf, hview⟩ := synchronized_unfold2 s hsync
  obtain ⟨u2, hu2, ha, hc, hnm, hd⟩ := delete_nodes_loop_spec g g.get_connections
    (s._graph_edit.children.filter fun v => v.selected)
    (s._undo_redo.create_action "Delete Nodes")
    (fun v hv => node_ready_of_synchronized s g hwf hview v (List.mem_of_mem_filter hv))
  cases hp : u2.pending with
  | none => simp [hp, UndoRedo.create_action] at hd
  | some a =>
    simp only [hp, UndoRedo.create_action, Option.map_some', Option.some.injEq,
      List.nil_append] at hd hnm
    obtain ⟨s1, hs1, hu, hsub, hno⟩ := run_delete_forward
      (s._graph_edit.children.filter fun v => v.selected)
      { s with
        _graph := some g
        _undo_redo :=
          { actions := u2.actions ++ [a]
            current_action := u2.current_action + 1
            pending := none } } g rfl
    refine ⟨s1, a, ?_, ?_, hnm, hd, ?_, ?_⟩
    · simp only [VoxelGraphEditor._on_graph_edit_delete_nodes_request, hg, hu2,
        VoxelGraphEditor.commit_action, hp, hd]
      exact hs1
    · rw [hu]
      simp
    · intro p q r t hmem
      rw [hd] at hmem
      simp at hmem
    · intro v hv hsel e he
      exact hno v (List.mem_filter.mpr ⟨hv, hsel⟩) e he

/-- C7 (amended), at the editor of the scenario with node 1 selected. -/
theorem delete_forward_list_witness :
    (scenario_editor.select "1").Synchronized ∧
    ∃ s1 a, (scenario_editor.select "1")._on_graph_edit_delete_nodes_request = some s1 ∧
      s1._undo_redo.actions.getLast? = some a ∧ a.name = "Delete Nodes" ∧
      a.do_ops = ((scenario_editor.select "1")._graph_edit.children.filter
        fun v => v.selected).flatMap
        (fun v => [Step.remove_node v.node_id, Step.remove_node_gui v.name]) ∧
      (∀ p q r t, Step.remove_connection p q r t ∉ a.do_ops) ∧
      (∀ v ∈ (scenario_editor.select "1")._graph_edit.children, v.selected = true →
        ∀ e ∈ s1._graph_edit.connections, e.from_node ≠ v.name ∧ e.to_node ≠ v.name) :=
  ⟨by decide!, delete_forward_list (scenario_editor.select "1") (by decide!)⟩

/-- C7 as stated fails: with node 1 of the scenario selected the forward list of the
delete gesture is `remove_node(1)`, `remove_node_gui("1")`, and `remove_node(1)` runs
first, while the connection from node 1 to node 2 is still in the model. -/
theorem delete_forward_keeps_model_connection :
    ((scenario_editor.select "1")._on_graph_edit_delete_nodes_request.map fun s1 =>
      s1._undo_redo.actions.map Action.do_ops)
      = some [[Step.remove_node 1, Step.remove_node_gui "1"]] ∧
    (⟨⟨1, 0⟩, ⟨2, 0⟩⟩ : Connection) ∈ scenario_graph.connections ∧
    ¬ removes_connections_first (scenario_editor.select "1")
      [Step.remove_node 1, Step.remove_node_gui "1"] := by
  refine ⟨by decide!, by decide!, ?_⟩
  intro h
  obtain ⟨s1, g, hrun, hg, hall⟩ := h [] 1 [Step.remove_node_gui "1"] rfl
  simp only [run_ops, Option.some.injEq] at hrun
  subst hrun
  have hg2 : (scenario_editor.select "1")._graph = some scenario_graph := by decide!
  rw [hg2] at hg
  cases hg
  exact (hall ⟨⟨1, 0⟩, ⟨2, 0⟩⟩ (by decide!)).1 rfl

/-! ## Evaluations at the inputs where the code departs from the specification -/

/-- C6, evaluated: the default value 5 of input 1 of node 2 is not restored by deleting
node 2 and undoing; the inverse list has no step for default inputs, and `create_node`
gives the input its initial value. The scenario of the claim itself (delete node 1, undo)
does give back the single connection and the parameter value 0. -/
theorem delete_undo_loses_default_input :
    override_editor.Synchronized ∧
    override_editor._graph.bind (fun g => g.get_node_default_input 2 1)
      = some (Variant.REAL 5) ∧
    (override_editor._on_graph_edit_delete_nodes_request.map fun s1 =>
      s1._undo_redo.actions.map Action.undo_ops)
      = some [[Step.create_node 5 (100, 0) 2, Step.create_node_gui 2,
        Step.add_connection 1 0 2 0, Step.connect_node "1" 0 "2" 0]] ∧
    ((override_editor._on_graph_edit_delete_nodes_request.bind fun s1 => s1.undo).map fun s2 =>
      s2._graph.bind fun g => g.get_node_default_input 2 1)
      = some (some (Variant.REAL 0)) ∧
    (((scenario_editor.select "1")._on_graph_edit_delete_nodes_request.bind fun s1 =>
      s1.undo).map fun s2 =>
        (s2._graph.map VoxelGeneratorGraph.get_connections,
          s2._graph.bind fun g => g.get_node_param 1 0))
      = some (some [⟨⟨1, 0⟩, ⟨2, 0⟩⟩], some (Variant.REAL 0)) := by
  decide!

/-- C8, evaluated: after deleting node 2 of the scenario and undoing, input 0 of node 2 has
its incoming connection again and its default-value widget is visible. -/
theorem delete_undo_leaves_widget_visible :
    (scenario_editor.select "2").Synchronized ∧
    (((scenario_editor.select "2")._on_graph_edit_delete_nodes_request.bind fun s1 =>
      s1.undo).map fun s2 =>
        (s2._graph.map fun g => g.is_input_connected 2 0,
          (s2._graph_edit.get_node "2").bind fun v =>
            (v.input_controls[0]?).map Control.visible))
      = some (some true, some true) ∧
    (((scenario_editor.select "2")._on_graph_edit_delete_nodes_request.bind fun s1 =>
      s1.undo).map fun s2 => decide s2.Synchronized) = some false := by
  decide!

/-- C9, evaluated: refreshing the default-input widget 1 of node 2, which is a placeholder
label, returns with the suppression flag set, and the next edit of the user (input 0 of
node 2 set to 5) is dropped: the handler returns the state as it is. -/
theorem update_node_param_gui_leaves_flag_set :
    object_input_editor._updating_param_gui = false ∧
    (object_input_editor.update_node_param_gui 2 1 true).map
      (fun s => s._updating_param_gui) = some true ∧
    ((object_input_editor.update_node_param_gui 2 1 true).bind fun s =>
      s._on_node_param_spinbox_value_changed 5 2 0 true)
      = object_input_editor.update_node_param_gui 2 1 true := by
  decide!

/-! ## The inverse list of the delete gesture -/

theorem undo_extends_refl (u : UndoRedo) : undo_extends u u [] := by
  obtain ⟨acts, cur, pend⟩ := u
  cases pend <;> simp [undo_extends]

theorem undo_extends_trans {u u2 u3 : UndoRedo} {l1 l2 : List Step}
    (h1 : undo_extends u u2 l1) (h2 : undo_extends u2 u3 l2) :
    undo_extends u u3 (l1 ++ l2) := by
  unfold undo_extends at *
  rw [h2]
  obtain ⟨acts, cur, pend⟩ := u
  obtain ⟨acts2, cur2, pend2⟩ := u2
  cases pend <;> cases pend2 <;> simp_all

theorem undo_extends_add_undo (u : UndoRedo) (step : Step) :
    undo_extends u (u.add_undo_method step) [step] := by
  obtain ⟨acts, cur, pend⟩ := u
  cases pend <;> simp [undo_extends, UndoRedo.add_undo_method]

theorem undo_extends_add_do (u : UndoRedo) (step : Step) :
    undo_extends u (u.add_do_method step) [] := by
  obtain ⟨acts, cur, pend⟩ := u
  cases pend <;> simp [undo_extends, UndoRedo.add_do_method]

theorem delete_params_undo_ops (g : VoxelGeneratorGraph) (id : Nat) (n : Node)
    (hn : g.find_node id = some n) (count j : Nat) (u : UndoRedo)
    (h : j + count ≤ n.params.length) :
    ∃ u2, delete_params_undo g id count j u = some u2 ∧
      undo_extends u u2 (((n.params.enum.drop j).take count).map fun kp =>
        Step.set_node_param id kp.1 kp.2) := by
  induction count generalizing j u with
  | zero => exact ⟨u, rfl, by simpa using undo_extends_refl u⟩
  | succ count ih =>
    have hj : j < n.params.length := by omega
    obtain ⟨u2, hu2, hs⟩ := ih (j + 1) (u.add_undo_method (.set_node_param id j n.params[j]))
      (by omega)
    refine ⟨u2, ?_, ?_⟩
    · simp only [delete_params_undo, VoxelGeneratorGraph.get_node_param, hn,
        List.getElem?_eq_getElem hj]
      exact hu2
    · have hje : j < n.params.enum.length := by simpa using hj
      have hd : n.params.enum.drop j = (j, n.params[j]) :: n.params.enum.drop (j + 1) := by
        rw [List.drop_eq_getElem_cons hje]
        simp [List.enum]
      rw [hd, List.take_succ_cons, List.map_cons]
      exact undo_extends_trans (undo_extends_add_undo _ _) hs

theorem delete_connections_undo_ops (id : Nat) (cs : List Connection) (u : UndoRedo) :
    undo_extends u (delete_connections_undo id cs u)
      ((cs.filter fun con => decide (con.src.node_id = id ∨ con.dst.node_id = id)).flatMap
        reconnect_steps) := by
  induction cs generalizing u with
  | nil => simpa using undo_extends_refl u
  | cons c cs ih =>
    simp only [delete_connections_undo]
    by_cases ht : c.src.node_id = id ∨ c.dst.node_id = id
    · simp only [ht, if_true, List.filter_cons, decide_True, List.flatMap_cons]
      have := undo_extends_trans (undo_extends_trans (undo_extends_add_undo u
        (.add_connection c.src.node_id c.src.port_index c.dst.node_id c.dst.port_index))
        (undo_extends_add_undo _ (.connect_node (node_to_gui_name c.src.node_id)
          c.src.port_index (node_to_gui_name c.dst.node_id) c.dst.port_index))) (ih _)
      simpa [reconnect_steps] using this
    · simp only [ht, if_false, List.filter_cons, decide_False]
      exact ih u

theorem delete_nodes_loop_undo_ops (g : VoxelGeneratorGraph) (vs : List VoxelGraphEditorNode)
    (u : UndoRedo) (h : ∀ v ∈ vs, node_ready g v) :
    ∃ u2, delete_nodes_loop g g.connections vs u = some u2 ∧
      undo_extends u u2 (vs.flatMap (delete_undo_group g)) := by
  induction vs generalizing u with
  | nil => exact ⟨u, rfl, by simpa using undo_extends_refl u⟩
  | cons v vs ih =>
    obtain ⟨n, ty, hn, hty, hlen⟩ := h v (List.mem_cons_self _ _)
    obtain ⟨u1, hu1, hs1⟩ := delete_params_undo_ops g v.node_id n hn ty.params.length 0
      ((((u.add_do_method (.remove_node v.node_id)).add_do_method
        (.remove_node_gui v.name))).add_undo_method
          (.create_node n.type_id n.gui_position v.node_id)) (by omega)
    obtain ⟨u2, hu2, hs2⟩ := ih (delete_connections_undo v.node_id g.connections
      (u1.add_undo_method (.create_node_gui v.node_id)))
      (fun w hw => h w (List.mem_cons_of_mem _ hw))
    refine ⟨u2, ?_, ?_⟩
    · simp only [delete_nodes_loop, VoxelGeneratorGraph.get_node_type_id,
        VoxelGeneratorGraph.get_node_gui_position, hn, Option.map_some', hty, hu1]
      exact hu2
    · have hchain := undo_extends_trans (undo_extends_trans (undo_extends_trans
        (undo_extends_trans (undo_extends_trans (undo_extends_trans
          (undo_extends_add_do u (.remove_node v.node_id))
          (undo_extends_add_do _ (.remove_node_gui v.name)))
          (undo_extends_add_undo _ (.create_node n.type_id n.gui_position v.node_id)))
          hs1) (undo_extends_add_undo _ (.create_node_gui v.node_id)))
          (delete_connections_undo_ops v.node_id g.connections _)) hs2
      have htake : (n.params.enum.drop 0).take ty.params.length = n.params.enum := by
        rw [List.drop_zero, ← hlen]
        exact List.take_of_length_le (by simp)
      simp only [htake] at hchain
      simpa [List.flatMap_cons, delete_undo_group, hn] using hchain

theorem count_reconnect_steps (c : Connection) (l : List Connection) :
    (l.flatMap reconnect_steps).count (readd_step c) = l.count c := by
  induction l with
  | nil => rfl
  | cons d l ih =>
    rw [List.flatMap_cons, List.count_append, ih, List.count_cons]
    obtain ⟨⟨a, p⟩, ⟨b, q⟩⟩ := d
    obtain ⟨⟨a2, p2⟩, ⟨b2, q2⟩⟩ := c
    by_cases h : a = a2 ∧ p = p2 ∧ b = b2 ∧ q = q2
    · obtain ⟨rfl, rfl, rfl, rfl⟩ := h
      simp [reconnect_steps, readd_step, List.count_cons]
      omega
    · have h1 : ¬ ((⟨⟨a, p⟩, ⟨b, q⟩⟩ : Connection) = ⟨⟨a2, p2⟩, ⟨b2, q2⟩⟩) := by
        intro he
        injection he with h1 h2
        injection h1 with h3 h4
        injection h2 with h5 h6
        exact h ⟨h3, h4, h5, h6⟩
      have h2 : ¬ (Step.add_connection a p b q = Step.add_connection a2 p2 b2 q2) := by
        intro he
        injection he with h3 h4 h5 h6
        exact h ⟨h3, h4, h5, h6⟩
      simp [reconnect_steps, readd_step, List.count_cons, h1, h2]

theorem count_delete_undo_group (g : VoxelGeneratorGraph) (hnd : g.connections.Nodup)
    (c : Connection) (hc : c ∈ g.connections) (v : VoxelGraphEditorNode)
    (hv : node_ready g v) :
    (delete_undo_group g v).count (readd_step c) = if c.touches v then 1 else 0 := by
  obtain ⟨n, ty, hn, -, -⟩ := hv
  have h0 : (n.params.enum.map fun kp => Step.set_node_param v.node_id kp.1 kp.2).count
      (readd_step c) = 0 := by
    rw [List.count_eq_zero]
    simp [readd_step]
  simp only [delete_undo_group, hn, List.count_cons, List.count_append, h0,
    count_reconnect_steps]
  have h1 : ¬ (Step.create_node n.type_id n.gui_position v.node_id = readd_step c) := by
    simp [readd_step]
  have h2 : ¬ (Step.create_node_gui v.node_id = readd_step c) := by
    simp [readd_step]
  simp only [beq_iff_eq, h1, h2, if_false, Nat.zero_add, Nat.add_zero]
  by_cases ht : c.touches v = true
  · rw [List.count_eq_one_of_mem]
    · simp [ht]
    · exact hnd.filter _
    · exact List.mem_filter.mpr ⟨hc, by simpa [Connection.touches] using ht⟩
  · rw [List.count_eq_zero.mpr]
    · simp [ht]
    · intro hm
      exact ht (by simpa [Connection.touches] using (List.mem_filter.mp hm).2)

theorem count_delete_undo_groups (g : VoxelGeneratorGraph) (hnd : g.connections.Nodup)
    (c : Connection) (hc : c ∈ g.connections) (vs : List VoxelGraphEditorNode)
    (h : ∀ v ∈ vs, node_ready g v) :
    (vs.flatMap (delete_undo_group g)).count (readd_step c)
      = (vs.filter fun v => c.touches v).length := by
  induction vs with
  | nil => rfl
  | cons v vs ih =>
    rw [List.flatMap_cons, List.count_append, ih (fun w hw => h w (List.mem_cons_of_mem _ hw)),
      count_delete_undo_group g hnd c hc v (h v (List.mem_cons_self _ _)), List.filter_cons]
    by_cases ht : c.touches v = true
    · simp [ht]
      omega
    · simp [ht]

theorem filter_length_one {α : Type} [DecidableEq α] (l : List α) (p : α → Bool)
    (hl : l.Nodup) (v : α) (hv : v ∈ l) (hp : p v = true)
    (huniq : ∀ w ∈ l, p w = true → w = v) : (l.filter p).length = 1 := by
  have hnd : (l.filter p).Nodup := hl.filter _
  rw [← List.toFinset_card_of_nodup hnd]
  have hset : (l.filter p).toFinset = {v} := by
    ext w
    simp only [List.mem_toFinset, List.mem_filter, Finset.mem_singleton]
    constructor
    · rintro ⟨h1, h2⟩
      exact huniq w h1 h2
    · rintro rfl
      exact ⟨hv, hp⟩
  rw [hset]
  rfl

theorem filter_length_two {α : Type} [DecidableEq α] (l : List α) (p : α → Bool)
    (hl : l.Nodup) (va vb : α) (hne : va ≠ vb) (ha : va ∈ l) (hb : vb ∈ l)
    (hpa : p va = true) (hpb : p vb = true)
    (hall : ∀ w ∈ l, p w = true → w = va ∨ w = vb) : (l.filter p).length = 2 := by
  have hnd : (l.filter p).Nodup := hl.filter _
  rw [← List.toFinset_card_of_nodup hnd]
  have hset : (l.filter p).toFinset = {va, vb} := by
    ext w
    simp only [List.mem_toFinset, List.mem_filter, Finset.mem_insert, Finset.mem_singleton]
    constructor
    · rintro ⟨h1, h2⟩
      exact hall w h1 h2
    · rintro (rfl | rfl)
      · exact ⟨ha, hpa⟩
      · exact ⟨hb, hpb⟩
  rw [hset]
  exact Finset.card_pair hne

theorem view_node_id_inj (s : VoxelGraphEditor)
    (hnames : (s._graph_edit.children.map VoxelGraphEditorNode.name).Nodup)
    (hview : ∀ v ∈ s._graph_edit.children, v.name = node_to_gui_name v.node_id)
    (v w : VoxelGraphEditorNode) (hv : v ∈ s._graph_edit.children)
    (hw : w ∈ s._graph_edit.children) (h : v.node_id = w.node_id) : v = w := by
  apply List.inj_on_of_nodup_map hnames hv hw
  rw [hview v hv, hview w hw, h]

/-- C15. On a synchronized state the delete gesture succeeds and its inverse list is the
concatenation, over the selected view nodes in order, of the group
[`create_node(type, position, id)`; one `set_node_param` per parameter;
`create_node_gui(id)`; then `add_connection` and `connect_node` for each model connection
from or to the node]. So the `add_connection` step of a connection occurs once in the group
of each deleted node it touches: once in the list when it touches one deleted node, twice
when its two endpoints are two deleted nodes, and then an occurrence stands before the
`create_node` step of the endpoint deleted later. -/
theorem delete_inverse_list (s : VoxelGraphEditor) (hsync : s.Synchronized) :
    ∃ g s1 a, s._graph = some g ∧ s._on_graph_edit_delete_nodes_request = some s1 ∧
      s1._undo_redo.actions.getLast? = some a ∧
      a.undo_ops = (s._graph_edit.children.filter fun v => v.selected).flatMap
        (delete_undo_group g) ∧
      (∀ v ∈ s._graph_edit.children, v.selected = true →
        ∃ n, g.find_node v.node_id = some n) ∧
      (∀ c ∈ g.connections, ∀ v ∈ s._graph_edit.children, v.selected = true →
        (delete_undo_group g v).count (readd_step c) = if c.touches v then 1 else 0) ∧
      (∀ c ∈ g.connections, ∀ v ∈ s._graph_edit.children, v.selected = true →
        c.touches v = true →
        (∀ w ∈ s._graph_edit.children, w.selected = true → c.touches w = true → w = v) →
        a.undo_ops.count (readd_step c) = 1) ∧
      (∀ c ∈ g.connections, ∀ va ∈ s._graph_edit.children, ∀ vb ∈ s._graph_edit.children,
        va.selected = true → vb.selected = true → c.touches va = true →
        c.touches vb = true → va ≠ vb → a.undo_ops.count (readd_step c) = 2) ∧
      (∀ c ∈ g.connections, ∀ l1 va l2 vb l3,
        (s._graph_edit.children.filter fun v => v.selected) = l1 ++ va :: l2 ++ vb :: l3 →
        c.touches va = true → c.touches vb = true →
        ∃ pre mid post type_id position,
          a.undo_ops = pre ++ readd_step c :: mid ++
            Step.create_node type_id position vb.node_id :: post) := by
  obtain ⟨g, hg, hwf, hview⟩ := synchronized_unfold2 s hsync
  have hnames := (synchronized_unfold s g hg hsync).2.1
  have hready : ∀ v ∈ s._graph_edit.children.filter (fun v => v.selected), node_ready g v :=
    fun v hv => node_ready_of_synchronized s g hwf hview v (List.mem_of_mem_filter hv)
  have hsel : (s._graph_edit.children.filter fun v => v.selected).Nodup :=
    (List.Nodup.of_map _ hnames).filter _
  obtain ⟨u2, hu2, hext⟩ := delete_nodes_loop_undo_ops g
    (s._graph_edit.children.filter fun v => v.selected)
    (s._undo_redo.create_action "Delete Nodes") hready
  obtain ⟨u3, hu3, ha, hc, hnm, hd⟩ := delete_nodes_loop_spec g g.get_connections
    (s._graph_edit.children.filter fun v => v.selected)
    (s._undo_redo.create_action "Delete Nodes") hready
  have hu23 : u3 = u2 := by
    have := hu3.symm.trans hu2
    exact Option.some.inj this
  subst hu23
  cases hp : u3.pending with
  | none => simp [hp, UndoRedo.create_action] at hd
  | some a =>
    simp only [undo_extends, hp, UndoRedo.create_action, Option.map_some', Option.some.injEq,
      List.nil_append] at hext hd
    obtain ⟨s1, hs1, hu, -, -⟩ := run_delete_forward
      (s._graph_edit.children.filter fun v => v.selected)
      { s with
        _graph := some g
        _undo_redo :=
          { actions := u3.actions ++ [a]
            current_action := u3.current_action + 1
            pending := none } } g rfl
    have hcount : ∀ c ∈ g.connections, a.undo_ops.count (readd_step c)
        = ((s._graph_edit.children.filter fun v => v.selected).filter
          fun v => c.touches v).length := by
      intro c hcm
      rw [hext]
      exact count_delete_undo_groups g hwf.2.1 c hcm _ hready
    refine ⟨g, s1, a, hg, ?_, ?_, hext, ?_, ?_, ?_, ?_, ?_⟩
    · simp only [VoxelGraphEditor._on_graph_edit_delete_nodes_request, hg, hu3,
        VoxelGraphEditor.commit_action, hp, hd]
      exact hs1
    · rw [hu]
      simp
    · intro v hv hvs
      obtain ⟨n, -, hn, -, -⟩ := hready v (List.mem_filter.mpr ⟨hv, hvs⟩)
      exact ⟨n, hn⟩
    · intro c hcm v hv hvs
      exact count_delete_undo_group g hwf.2.1 c hcm v
        (hready v (List.mem_filter.mpr ⟨hv, hvs⟩))
    · intro c hcm v hv hvs ht huniq
      rw [hcount c hcm]
      apply filter_length_one _ _ hsel v (List.mem_filter.mpr ⟨hv, hvs⟩) ht
      intro w hw hwt
      have hw2 := List.mem_filter.mp hw
      exact huniq w hw2.1 hw2.2 hwt
    · intro c hcm va hva vb hvb hsa hsb hta htb hne
      rw [hcount c hcm]
      apply filter_length_two _ _ hsel va vb hne (List.mem_filter.mpr ⟨hva, hsa⟩)
        (List.mem_filter.mpr ⟨hvb, hsb⟩) hta htb
      intro w hw hwt
      have hw2 := (List.mem_filter.mp hw).1
      have hinj := view_node_id_inj s hnames (fun v hv => (hview v hv).1)
      simp only [Connection.touches, decide_eq_true_eq] at hta htb hwt
      by_contra hcon
      push_neg at hcon
      have h1 : w.node_id ≠ va.node_id := fun h => hcon.1 (hinj w va hw2 hva h)
      have h2 : w.node_id ≠ vb.node_id := fun h => hcon.2 (hinj w vb hw2 hvb h)
      have h3 : va.node_id ≠ vb.node_id := fun h => hne (hinj va vb hva hvb h)
      omega
    · intro c hcm l1 va l2 vb l3 hsplit hta htb
      have hvam : va ∈ s._graph_edit.children.filter (fun v => v.selected) := by
        rw [hsplit]
        simp
      have hvbm : vb ∈ s._graph_edit.children.filter (fun v => v.selected) := by
        rw [hsplit]
        simp
      have hca := count_delete_undo_group g hwf.2.1 c hcm va (hready va hvam)
      rw [hta] at hca
      have hmem : readd_step c ∈ delete_undo_group g va := by
        apply List.count_pos_iff.mp
        rw [hca]
        exact Nat.one_pos
      obtain ⟨x, y, hxy⟩ := List.append_of_mem hmem
      obtain ⟨n, -, hn, -, -⟩ := hready vb hvbm
      refine ⟨l1.flatMap (delete_undo_group g) ++ x, y ++ l2.flatMap (delete_undo_group g),
        (delete_undo_group g vb).tail ++ l3.flatMap (delete_undo_group g), n.type_id,
        n.gui_position, ?_⟩
      rw [hext, hsplit]
      simp only [List.flatMap_append, List.flatMap_cons, hxy, List.append_assoc,
        List.cons_append]
      simp only [delete_undo_group, hn, List.cons_append, List.tail_cons]

/-- C15, at the editor of the scenario with both nodes selected: the connection from node 1
to node 2 is re-added in the group of node 1 and in the group of node 2. -/
theorem delete_inverse_list_witness :
    both_selected_editor.Synchronized ∧
    ∃ g s1 a, both_selected_editor._graph = some g ∧
      both_selected_editor._on_graph_edit_delete_nodes_request = some s1 ∧
      s1._undo_redo.actions.getLast? = some a ∧
      a.undo_ops = (both_selected_editor._graph_edit.children.filter
        fun v => v.selected).flatMap (delete_undo_group g) ∧
      (∀ v ∈ both_selected_editor._graph_edit.children, v.selected = true →
        ∃ n, g.find_node v.node_id = some n) ∧
      (∀ c ∈ g.connections, ∀ v ∈ both_selected_editor._graph_edit.children,
        v.selected = true →
        (delete_undo_group g v).count (readd_step c) = if c.touches v then 1 else 0) ∧
      (∀ c ∈ g.connections, ∀ v ∈ both_selected_editor._graph_edit.children,
        v.selected = true → c.touches v = true →
        (∀ w ∈ both_selected_editor._graph_edit.children, w.selected = true →
          c.touches w = true → w = v) →
        a.undo_ops.count (readd_step c) = 1) ∧
      (∀ c ∈ g.connections, ∀ va ∈ both_selected_editor._graph_edit.children,
        ∀ vb ∈ both_selected_editor._graph_edit.children,
        va.selected = true → vb.selected = true → c.touches va = true →
        c.touches vb = true → va ≠ vb → a.undo_ops.count (readd_step c) = 2) ∧
      (∀ c ∈ g.connections, ∀ l1 va l2 vb l3,
        (both_selected_editor._graph_edit.children.filter fun v => v.selected)
          = l1 ++ va :: l2 ++ vb :: l3 →
        c.touches va = true → c.touches vb = true →
        ∃ pre mid post type_id position,
          a.undo_ops = pre ++ readd_step c :: mid ++
            Step.create_node type_id position vb.node_id :: post) :=
  ⟨by decide!, delete_inverse_list both_selected_editor (by decide!)⟩

/-! ## The rows of a view node -/

theorem create_param_control_some (id : Nat) (value : Variant) (p : Param) (b : Bool)
    (h : p.type = .REAL ∨ p.type = .OBJECT) : ∃ c, create_param_control id value p b = some c := by
  rcases h with h | h <;> simp [create_param_control, h]

theorem create_node_gui_rows_step (g : VoxelGeneratorGraph) (ty : NodeType) (id : Nat)
    (n : Node) (hn : g.find_node id = some n)
    (hdi : n.default_inputs.length = ty.inputs.length)
    (hpl : n.params.length = ty.params.length)
    (hdt : ∀ d ∈ n.default_inputs, d.get_type = .REAL ∨ d.get_type = .OBJECT)
    (hpt : ∀ p ∈ ty.params, p.type = .REAL ∨ p.type = .OBJECT)
    (i : Nat) (nv : VoxelGraphEditorNode)
    (hi : i < max ty.inputs.length ty.outputs.length + ty.params.length)
    (hinv : rows_built ty id n i nv) :
    ∃ nv2, (∀ count, create_node_gui_rows g ty id (count + 1) i
        (i - max ty.inputs.length ty.outputs.length) nv
        = create_node_gui_rows g ty id count (i + 1)
          (i + 1 - max ty.inputs.length ty.outputs.length) nv2) ∧
      rows_built ty id n (i + 1) nv2 ∧ nv2.name = nv.name ∧ nv2.node_id = nv.node_id ∧
      nv2.offset = nv.offset ∧ nv2.title = nv.title ∧ nv2.selected = nv.selected := by
  obtain ⟨hr, hflags, hil, hiw, hpcl, hpw⟩ := hinv
  by_cases hI : i < ty.inputs.length
  · -- a row with an input port
    have hd : i < n.default_inputs.length := by omega
    obtain ⟨c, hc⟩ := create_param_control_some id n.default_inputs[i]
      { Param.typed "" (n.default_inputs[i]).get_type Variant.NIL with index := i } true
      (hdt _ (List.getElem_mem _))
    have hlen : i = nv.input_controls.length := by omega
    refine ⟨{ nv with
      input_controls := nv.input_controls ++ [c]
      rows := nv.rows ++ [⟨if i < ty.outputs.length then
        [ty.inputs[i].name] ++ [((ty.outputs[i]?).map Port.name).getD ""]
        else [ty.inputs[i].name], true, decide (i < ty.outputs.length)⟩] }, ?_, ?_, rfl, rfl,
      rfl, rfl, rfl⟩
    · intro count
      rw [create_node_gui_rows]
      simp only [hI, decide_True, if_true, List.getElem?_eq_getElem hI,
        VoxelGeneratorGraph.get_node_default_input, hn, List.getElem?_eq_getElem hd, hc,
        ← hlen, ne_eq, not_true_eq_false, if_false, Bool.not_true, Bool.false_and]
      have hM : i + 1 - max ty.inputs.length ty.outputs.length
          = i - max ty.inputs.length ty.outputs.length := by omega
      rw [hM]
      by_cases hO : i < ty.outputs.length <;> simp [hO]
    · refine ⟨by simp [hr], ?_, by simp [hil]; omega, ?_, by simp [hpcl]; omega, ?_⟩
      · intro j hj
        by_cases hji : j < i
        · rw [List.getElem?_append_left (by omega)]
          exact hflags j hji
        · have : j = i := by omega
          subst this
          rw [List.getElem?_append_right (by omega)]
          simp [hr, hI]
      · intro j hj
        by_cases hji : j < i
        · obtain ⟨d, h1, h2⟩ := hiw j (by omega)
          refine ⟨d, h1, ?_⟩
          simp only
          rw [List.getElem?_append_left (by omega)]
          exact h2
        · have : j = i := by omega
          subst this
          refine ⟨n.default_inputs[j], List.getElem?_eq_getElem hd, ?_⟩
          simp only
          rw [List.getElem?_append_right (by omega), hc]
          simp [hlen]
      · intro k hk
        omega
  · by_cases hO : i < ty.outputs.length
    · -- a row with an output port only
      refine ⟨{ nv with
        rows := nv.rows ++ [⟨[((ty.outputs[i]?).map Port.name).getD ""], false, true⟩] },
        ?_, ?_, rfl, rfl, rfl, rfl, rfl⟩
      · intro count
        rw [create_node_gui_rows]
        have hM : i + 1 - max ty.inputs.length ty.outputs.length
            = i - max ty.inputs.length ty.outputs.length := by omega
        rw [hM]
        simp [hI, hO]
      · refine ⟨by simp [hr], ?_, by simp [hil]; omega, ?_, by simp [hpcl]; omega, ?_⟩
        · intro j hj
          by_cases hji : j < i
          · rw [List.getElem?_append_left (by omega)]
            exact hflags j hji
          · have : j = i := by omega
            subst this
            rw [List.getElem?_append_right (by omega)]
            simp [hr, hI, hO]
        · intro j hj
          exact hiw j (by omega)
        · intro k hk
          omega
    · -- a row with a parameter
      have hM : max ty.inputs.length ty.outputs.length ≤ i := by omega
      have hk : i - max ty.inputs.length ty.outputs.length < ty.params.length := by omega
      have hk2 : i - max ty.inputs.length ty.outputs.length < n.params.length := by omega
      obtain ⟨c, hc⟩ := create_param_control_some id
        n.params[i - max ty.inputs.length ty.outputs.length]
        ty.params[i - max ty.inputs.length ty.outputs.length] false
        (hpt _ (List.getElem_mem _))
      refine ⟨{ nv with
        param_controls := nv.param_controls ++ [c]
        rows := nv.rows ++
          [⟨[ty.params[i - max ty.inputs.length ty.outputs.length].name], false, false⟩] },
        ?_, ?_, rfl, rfl, rfl, rfl, rfl⟩
      · intro count
        rw [create_node_gui_rows]
        have hM2 : i + 1 - max ty.inputs.length ty.outputs.length
            = i - max ty.inputs.length ty.outputs.length + 1 := by omega
        rw [hM2]
        simp [hI, hO, List.getElem?_eq_getElem hk, VoxelGeneratorGraph.get_node_param, hn,
          List.getElem?_eq_getElem hk2, hc, hpcl]
      · refine ⟨by simp [hr], ?_, by simp [hil]; omega, ?_, by simp [hpcl]; omega, ?_⟩
        · intro j hj
          by_cases hji : j < i
          · rw [List.getElem?_append_left (by omega)]
            exact hflags j hji
          · have : j = i := by omega
            subst this
            rw [List.getElem?_append_right (by omega)]
            simp [hr, hI, hO]
        · intro j hj
          exact hiw j (by omega)
        · intro k hkk
          by_cases hki : k < i - max ty.inputs.length ty.outputs.length
          · obtain ⟨p, pv, h1, h2, h3, h4⟩ := hpw k hki
            refine ⟨p, pv, h1, h2, ?_, ?_⟩
            · simp only
              rw [List.getElem?_append_left (by omega)]
              exact h3
            · simp only
              rw [List.getElem?_append_left (by omega)]
              exact h4
          · have hke : k = i - max ty.inputs.length ty.outputs.length := by omega
            subst hke
            refine ⟨_, _, List.getElem?_eq_getElem hk, List.getElem?_eq_getElem hk2, ?_, ?_⟩
            · simp only
              rw [List.getElem?_append_right (by omega), hc]
              simp [hpcl]
            · simp only
              rw [List.getElem?_append_right (by omega)]
              have : max ty.inputs.length ty.outputs.length
                  + (i - max ty.inputs.length ty.outputs.length) - nv.rows.length = 0 := by
                omega
              simp [this]

theorem create_node_gui_rows_spec (g : VoxelGeneratorGraph) (ty : NodeType) (id : Nat)
    (n : Node) (hn : g.find_node id = some n)
    (hdi : n.default_inputs.length = ty.inputs.length)
    (hpl : n.params.length = ty.params.length)
    (hdt : ∀ d ∈ n.default_inputs, d.get_type = .REAL ∨ d.get_type = .OBJECT)
    (hpt : ∀ p ∈ ty.params, p.type = .REAL ∨ p.type = .OBJECT)
    (count i : Nat) (nv : VoxelGraphEditorNode)
    (hi : i + count = max ty.inputs.length ty.outputs.length + ty.params.length)
    (hinv : rows_built ty id n i nv) :
    ∃ v, create_node_gui_rows g ty id count i
        (i - max ty.inputs.length ty.outputs.length) nv = some v ∧
      rows_built ty id n (max ty.inputs.length ty.outputs.length + ty.params.length) v ∧
      v.name = nv.name ∧ v.node_id = nv.node_id ∧ v.offset = nv.offset ∧
      v.title = nv.title ∧ v.selected = nv.selected := by
  induction count generalizing i nv with
  | zero =>
    have : i = max ty.inputs.length ty.outputs.length + ty.params.length := by omega
    subst this
    exact ⟨nv, rfl, hinv, rfl, rfl, rfl, rfl, rfl⟩
  | succ count ih =>
    obtain ⟨nv2, hstep, hinv2, f1, f2, f3, f4, f5⟩ :=
      create_node_gui_rows_step g ty id n hn hdi hpl hdt hpt i nv (by omega) hinv
    obtain ⟨v, hv, hb, e1, e2, e3, e4, e5⟩ := ih (i + 1) nv2 (by omega) hinv2
    exact ⟨v, by rw [hstep count, hv], hb, e1.trans f1, e2.trans f2, e3.trans f3,
      e4.trans f4, e5.trans f5⟩

/-- Every parameter of a registered type is numeric or a resource reference, and stores its
rank in the parameter list of the type. -/
theorem registry_params (t : Nat) (ty : NodeType)
    (h : VoxelGraphNodeDB.get_singleton.get_type t = some ty) :
    (∀ p ∈ ty.params, p.type = .REAL ∨ p.type = .OBJECT) ∧
    ty.params.map Param.index = List.range ty.params.length := by
  have hall : ∀ ty ∈ VoxelGraphNodeDB.get_singleton._types,
      (∀ p ∈ ty.params, p.type = .REAL ∨ p.type = .OBJECT) ∧
      ty.params.map Param.index = List.range ty.params.length := by
    decide!
  exact hall ty (List.getElem?_mem h)

theorem create_node_gui_spec (s : VoxelGraphEditor) (g : VoxelGeneratorGraph) (id : Nat)
    (n : Node) (ty : NodeType) (hg : s._graph = some g) (hn : g.find_node id = some n)
    (hty : VoxelGraphNodeDB.get_singleton.get_type n.type_id = some ty)
    (hdi : n.default_inputs.length = ty.inputs.length)
    (hpl : n.params.length = ty.params.length)
    (hdt : ∀ d ∈ n.default_inputs, d.get_type = .REAL ∨ d.get_type = .OBJECT)
    (hnew : s._graph_edit.has_node (node_to_gui_name id) = false) :
    ∃ v, s.create_node_gui id = some { s with _graph_edit := s._graph_edit.add_child v } ∧
      rows_built ty id n (max ty.inputs.length ty.outputs.length + ty.params.length) v ∧
      v.name = node_to_gui_name id ∧ v.node_id = id ∧
      v.offset = (n.gui_position.1 * EDSCALE, n.gui_position.2 * EDSCALE) ∧
      v.title = ty.name ∧ v.selected = false := by
  obtain ⟨v, hv, hb, e1, e2, e3, e4, e5⟩ := create_node_gui_rows_spec g ty id n hn hdi hpl hdt
    (registry_params _ ty hty).1
    (max ty.inputs.length ty.outputs.length + ty.params.length) 0
    { name := node_to_gui_name id
      node_id := id
      offset := (n.gui_position.1 * EDSCALE, n.gui_position.2 * EDSCALE)
      title := ty.name
      selected := false
      rows := []
      input_controls := []
      param_controls := [] } (by omega) (by simp [rows_built])
  refine ⟨v, ?_, hb, e1, e2, e3, e4, e5⟩
  simp only [Nat.zero_sub] at hv
  simp only [VoxelGraphEditor.create_node_gui, hg, VoxelGeneratorGraph.get_node_type_id, hn,
    Option.map_some', hty, hnew, VoxelGeneratorGraph.get_node_gui_position, hv]
  simp

/-- C14. For a live node of a registered type with I inputs, O outputs and P parameters that
holds one default value per input (each a number or an object, the kinds a widget exists
for) and one value per parameter, and has no view node yet, `create_node_gui` completes (no
assertion of the loop fires) and adds a view node of exactly max(I, O) + P rows; row i has
an input slot iff i < I and an output slot iff i < O; there are exactly I input widgets,
widget i built from the default value of input i and bound to input index i, and exactly P
parameter widgets, widget k built from the value of parameter k, bound to parameter index
k and standing in row max(I, O) + k, which carries the name of the parameter. -/
theorem create_node_gui_layout (s : VoxelGraphEditor) (g : VoxelGeneratorGraph) (id : Nat)
    (n : Node) (ty : NodeType) (hg : s._graph = some g) (hn : g.find_node id = some n)
    (hty : VoxelGraphNodeDB.get_singleton.get_type n.type_id = some ty)
    (hdi : n.default_inputs.length = ty.inputs.length)
    (hpl : n.params.length = ty.params.length)
    (hdt : ∀ d ∈ n.default_inputs, d.get_type = .REAL ∨ d.get_type = .OBJECT)
    (hnew : s._graph_edit.has_node (node_to_gui_name id) = false) :
    ∃ v, s.create_node_gui id = some { s with _graph_edit := s._graph_edit.add_child v } ∧
      v.name = node_to_gui_name id ∧ v.node_id = id ∧
      v.rows.length = max ty.inputs.length ty.outputs.length + ty.params.length ∧
      (∀ i, i < max ty.inputs.length ty.outputs.length + ty.params.length →
        ∃ row, v.rows[i]? = some row ∧ (row.has_left = true ↔ i < ty.inputs.length) ∧
          (row.has_right = true ↔ i < ty.outputs.length)) ∧
      v.input_controls.length = ty.inputs.length ∧
      (∀ i, i < ty.inputs.length → ∃ d c, g.get_node_default_input id i = some d ∧
        v.input_controls[i]? = some c ∧
        create_param_control id d { Param.typed "" d.get_type Variant.NIL with index := i }
          true = some c ∧
        (c.cls = .SpinBox → c.value_changed = some (id, i, true))) ∧
      v.param_controls.length = ty.params.length ∧
      (∀ k, k < ty.params.length → ∃ p pv c, ty.params[k]? = some p ∧
        g.get_node_param id k = some pv ∧ v.param_controls[k]? = some c ∧
        create_param_control id pv p false = some c ∧
        (c.cls = .SpinBox → c.value_changed = some (id, k, false)) ∧
        (v.rows[max ty.inputs.length ty.outputs.length + k]?).map GraphNodeRow.labels
          = some [p.name]) := by
  obtain ⟨v, hv, ⟨hr, hflags, hil, hiw, hpcl, hpw⟩, e1, e2, -, -, -⟩ :=
    create_node_gui_spec s g id n ty hg hn hty hdi hpl hdt hnew
  have hbound : ∀ (value : Variant) (p : Param) (b : Bool) (c : Control),
      create_param_control id value p b = some c → c.cls = .SpinBox →
      c.value_changed = some (id, p.index, b) := by
    intro value p b c hc hcls
    unfold create_param_control at hc
    split at hc
    · simp only [Option.some.injEq] at hc
      rw [← hc]
    · simp only [Option.some.injEq] at hc
      rw [← hc] at hcls
      cases hcls
    · cases hc
  refine ⟨v, hv, e1, e2, hr, ?_, by rw [hil]; omega, ?_, by rw [hpcl]; omega, ?_⟩
  · intro i hi
    have h := hflags i hi
    cases hrow : v.rows[i]? with
    | none => simp [hrow] at h
    | some row =>
      simp only [hrow, Option.map_some', Option.some.injEq, Prod.mk.injEq] at h
      exact ⟨row, rfl, by rw [h.1]; simp, by rw [h.2]; simp⟩
  · intro i hi
    obtain ⟨d, h1, h2⟩ := hiw i (by omega)
    obtain ⟨c, hc⟩ := create_param_control_some id d
      { Param.typed "" d.get_type Variant.NIL with index := i } true
      (hdt d (List.getElem?_mem h1))
    refine ⟨d, c, by simp [VoxelGeneratorGraph.get_node_default_input, hn, h1],
      h2.trans hc, hc, hbound _ _ _ _ hc⟩
  · intro k hk
    obtain ⟨p, pv, h1, h2, h3, h4⟩ := hpw k (by omega)
    obtain ⟨c, hc⟩ := create_param_control_some id pv p false
      ((registry_params _ ty hty).1 p (List.getElem?_mem h1))
    have hidx : p.index = k := by
      have hm := congrArg (fun l => l[k]?) (registry_params _ ty hty).2
      simp only [List.getElem?_map, h1, Option.map_some', List.getElem?_range hk] at hm
      exact Option.some.inj hm
    refine ⟨p, pv, c, h1, by simp [VoxelGeneratorGraph.get_node_param, hn, h2],
      h3.trans hc, hc, ?_, h4⟩
    intro hcls
    rw [hbound _ _ _ _ hc hcls, hidx]

/-- C14, at a Clamp node (I = 1, O = 1, P = 2): the view node has 3 rows, 1 input widget and
2 parameter widgets. -/
theorem create_node_gui_layout_witness :
    clamp_graph.find_node 1 = some clamp_node ∧
    VoxelGraphNodeDB.get_singleton.get_type clamp_node.type_id = some clamp_type ∧
    (clamp_type.inputs.length, clamp_type.outputs.length, clamp_type.params.length)
      = (1, 1, 2) ∧
    ∃ v, (editor_of clamp_graph).create_node_gui 1
        = some { editor_of clamp_graph with
            _graph_edit := (editor_of clamp_graph)._graph_edit.add_child v } ∧
      v.rows.length = 3 ∧ v.input_controls.length = 1 ∧ v.param_controls.length = 2 := by
  obtain ⟨v, h1, -, -, h2, -, h3, -, h4, -⟩ := create_node_gui_layout (editor_of clamp_graph)
    clamp_graph 1 clamp_node clamp_type rfl (by decide!) (by decide!) (by decide!)
    (by decide!) (by decide!) (by decide!)
  exact ⟨by decide!, by decide!, by decide!, v, h1, h2.trans (by decide!),
    h3.trans (by decide!), h4.trans (by decide!)⟩

/-! ## The view that `build_gui_from_graph` builds -/

theorem find_id_of_mem (l : List Node) (h : (l.map Node.id).Nodup) (n : Node) (hn : n ∈ l) :
    l.find? (fun m => decide (m.id = n.id)) = some n := by
  induction l with
  | nil => cases hn
  | cons m l ih =>
    rw [List.map_cons, List.nodup_cons] at h
    rcases List.mem_cons.mp hn with rfl | hm
    · simp
    · have hne : m.id ≠ n.id := by
        intro he
        exact h.1 (he ▸ List.mem_map_of_mem Node.id hm)
      simp [List.find?_cons, hne, ih h.2 hm]

theorem find_node_of_mem (g : VoxelGeneratorGraph) (h : (g.nodes.map Node.id).Nodup)
    (n : Node) (hn : n ∈ g.nodes) : g.find_node n.id = some n :=
  find_id_of_mem g.nodes h n hn

theorem find_node_some (g : VoxelGeneratorGraph) (id : Nat) (n : Node)
    (h : g.find_node id = some n) : n ∈ g.nodes ∧ n.id = id := by
  unfold VoxelGeneratorGraph.find_node at h
  exact ⟨List.mem_of_find?_eq_some h, by simpa using List.find?_some h⟩

theorem Range.set_value_fields (c : Control) (x : ℚ) :
    (Range.set_value c x).1.cls = c.cls ∧ (Range.set_value c x).1.visible = c.visible ∧
    (Range.set_value c x).1.step = c.step ∧ (Range.set_value c x).1.min = c.min ∧
    (Range.set_value c x).1.max = c.max ∧ (Range.set_value c x).1.text = c.text ∧
    (Range.set_value c x).1.value_changed = c.value_changed := by
  have hv : ∃ v, Range.set_value c x
      = if c.value = v then (c, false) else ({ c with value := v }, true) := ⟨_, rfl⟩
  obtain ⟨v, hv⟩ := hv
  rw [hv]
  by_cases h : c.value = v <;> simp [h]

theorem create_param_control_visible (id : Nat) (value : Variant) (p : Param) (b : Bool)
    (c : Control) (h : create_param_control id value p b = some c) : c.visible = true := by
  unfold create_param_control at h
  split at h
  · simp only [Option.some.injEq] at h
    rw [← h]
    exact (Range.set_value_fields _ _).2.1
  · simp only [Option.some.injEq] at h
    rw [← h]
  · cases h

theorem update_named_eq_map (name : String) (f : VoxelGraphEditorNode → VoxelGraphEditorNode)
    (l : List VoxelGraphEditorNode) (h : (l.map VoxelGraphEditorNode.name).Nodup) :
    update_named name f l = l.map fun v => if v.name = name then f v else v := by
  induction l with
  | nil => rfl
  | cons v l ih =>
    rw [List.map_cons, List.nodup_cons] at h
    by_cases hv : v.name = name
    · simp only [update_named, hv, if_true, List.map_cons, List.cons.injEq, true_and]
      have hmap : (l.map fun v => if v.name = name then f v else v) = l.map id := by
        apply List.map_congr_left
        intro w hw
        have hne : w.name ≠ name := by
          intro he
          exact h.1 (hv ▸ he ▸ List.mem_map_of_mem VoxelGraphEditorNode.name hw)
        simp [hne]
      rw [hmap, List.map_id]
    · simp only [update_named, hv, if_false, List.map_cons, ih h.2]

theorem children_names_nodup (ge : GraphEdit) (ids : List Nat) (hids : ids.Nodup)
    (hmap : ge.children.map VoxelGraphEditorNode.node_id = ids)
    (hname : ∀ v ∈ ge.children, v.name = node_to_gui_name v.node_id) :
    (ge.children.map VoxelGraphEditorNode.name).Nodup := by
  have h : ge.children.map VoxelGraphEditorNode.name
      = (ge.children.map VoxelGraphEditorNode.node_id).map node_to_gui_name := by
    rw [List.map_map]
    exact List.map_congr_left fun v hv => hname v hv
  rw [h, hmap]
  exact hids.map (fun a b hab => node_to_gui_name_inj hab)

theorem build_gui_nodes_spec (g : VoxelGeneratorGraph) (hids : (g.nodes.map Node.id).Nodup)
    (hschema : ∀ n ∈ g.nodes, ∃ ty, VoxelGraphNodeDB.get_singleton.get_type n.type_id = some ty ∧
      n.params.length = ty.params.length ∧ n.default_inputs.length = ty.inputs.length ∧
      ∀ d ∈ n.default_inputs, d.get_type = .REAL ∨ d.get_type = .OBJECT)
    (rest done : List Node) (s : VoxelGraphEditor) (hg : s._graph = some g)
    (hsplit : g.nodes = done ++ rest) (hb : view_built g done [] s) :
    ∃ s2, build_gui_nodes (rest.map Node.id) s = some s2 ∧ s2._graph = some g ∧
      s2._undo_redo = s._undo_redo ∧ s2._updating_param_gui = s._updating_param_gui ∧
      s2._click_position = s._click_position ∧ view_built g g.nodes [] s2 := by
  induction rest generalizing done s with
  | nil =>
    rw [List.append_nil] at hsplit
    exact ⟨s, rfl, hg, rfl, rfl, rfl, hsplit ▸ hb⟩
  | cons n rest ih =>
    have hn : n ∈ g.nodes := by
      rw [hsplit]
      simp
    obtain ⟨ty, hty, hpl, hdi, hdt⟩ := hschema n hn
    have hfind := find_node_of_mem g hids n hn
    obtain ⟨hb1, hb2, hb3⟩ := hb
    have hnew : s._graph_edit.has_node (node_to_gui_name n.id) = false := by
      cases hget : s._graph_edit.get_node (node_to_gui_name n.id) with
      | none => simp [GraphEdit.has_node, hget]
      | some v =>
        exfalso
        obtain ⟨hv, hvn⟩ := get_node_mem _ _ _ hget
        have hid : v.node_id = n.id := node_to_gui_name_inj (((hb2 v hv).1).symm.trans hvn)
        have hmem : n.id ∈ done.map Node.id := by
          rw [← hb1, ← hid]
          exact List.mem_map_of_mem _ hv
        rw [hsplit, List.map_append, List.map_cons] at hids
        exact (List.nodup_append.mp hids).2.2 hmem (List.mem_cons_self _ _)
    obtain ⟨v, hv, hrows, e1, e2, -, -, -⟩ :=
      create_node_gui_spec s g n.id n ty hg hfind hty hdi hpl hdt hnew
    obtain ⟨s2, h1, h2, h3, h4, h5, h6⟩ := ih (done ++ [n])
      { s with _graph_edit := s._graph_edit.add_child v } hg (by rw [hsplit]; simp) (by
        refine ⟨?_, ?_, ?_⟩
        · simp [GraphEdit.add_child, hb1, e2]
        · intro w hw
          simp only [GraphEdit.add_child, List.mem_append, List.mem_singleton] at hw
          rcases hw with hw | rfl
          · exact hb2 w hw
          · obtain ⟨-, -, hil, hiw, -, -⟩ := hrows
            have hlen : w.input_controls.length = ty.inputs.length := by
              rw [hil]
              omega
            refine ⟨e1.trans (by rw [e2]), ?_, ?_⟩
            · simp [VoxelGeneratorGraph.node_type, e2, hfind, hty, hlen]
            · intro i hi
              obtain ⟨d, -, hc⟩ := hiw i (by omega)
              rw [hc]
              cases hcc : create_param_control n.id d
                  { Param.typed "" d.get_type Variant.NIL with index := i } true with
              | none =>
                rw [hcc] at hc
                rw [List.getElem?_eq_getElem hi] at hc
                cases hc
              | some c =>
                simp [create_param_control_visible _ _ _ _ _ hcc]
        · simpa [GraphEdit.add_child] using hb3)
    refine ⟨s2, ?_, h2, h3, h4, h5, h6⟩
    simp only [List.map_cons, build_gui_nodes, hv]
    exact h1

theorem edge_of_inj {c d : Connection} (h : edge_of c = edge_of d) : c = d := by
  obtain ⟨⟨a, p⟩, ⟨b, q⟩⟩ := c
  obtain ⟨⟨a2, p2⟩, ⟨b2, q2⟩⟩ := d
  simp only [edge_of, GraphEditConnection.mk.injEq] at h
  obtain ⟨h1, h2, h3, h4⟩ := h
  rw [node_to_gui_name_inj h1, h2, node_to_gui_name_inj h3, h4]

theorem build_gui_connections_spec (g : VoxelGeneratorGraph) (hwf : g.WellFormed)
    (rest done : List Connection) (s : VoxelGraphEditor)
    (hsplit : g.connections = done ++ rest) (hb : view_built g g.nodes done s) :
    view_built g g.nodes g.connections (build_gui_connections rest s) ∧
    (build_gui_connections rest s)._graph = s._graph ∧
    (build_gui_connections rest s)._undo_redo = s._undo_redo ∧
    (build_gui_connections rest s)._updating_param_gui = s._updating_param_gui ∧
    (build_gui_connections rest s)._click_position = s._click_position := by
  induction rest generalizing done s with
  | nil =>
    rw [List.append_nil] at hsplit
    exact ⟨hsplit ▸ hb, rfl, rfl, rfl, rfl⟩
  | cons con rest ih =>
    have hcm : con ∈ g.connections := by
      rw [hsplit]
      simp
    obtain ⟨hb1, hb2, hb3⟩ := hb
    -- the destination node is live and its port is an input of its type
    have hport := (hwf.2.2.1 con hcm).2
    simp only [VoxelGeneratorGraph.node_type] at hport
    cases hfind : g.find_node con.dst.node_id with
    | none => simp [hfind] at hport
    | some dn =>
    cases hty : VoxelGraphNodeDB.get_singleton.get_type dn.type_id with
    | none => simp [hfind, hty] at hport
    | some dt =>
    simp only [hfind, hty, Option.some_bind, Option.map_some', Option.some.injEq,
      decide_eq_true_eq] at hport
    obtain ⟨hdn, hdnid⟩ := find_node_some g _ _ hfind
    have hex : ∃ v ∈ s._graph_edit.children, v.node_id = con.dst.node_id := by
      have : dn.id ∈ s._graph_edit.children.map VoxelGraphEditorNode.node_id := by
        rw [hb1]
        exact List.mem_map_of_mem _ hdn
      obtain ⟨v, hv, hvid⟩ := List.mem_map.mp this
      exact ⟨v, hv, hvid.trans hdnid⟩
    obtain ⟨v0, hv0, hv0id⟩ := hex
    cases hget : s._graph_edit.get_node (node_to_gui_name con.dst.node_id) with
    | none =>
      exfalso
      unfold GraphEdit.get_node at hget
      have := List.find?_eq_none.mp hget v0 hv0
      simp [(hb2 v0 hv0).1, hv0id] at this
    | some tv =>
    obtain ⟨htv, htvn⟩ := get_node_mem _ _ _ hget
    have htvid : tv.node_id = con.dst.node_id :=
      node_to_gui_name_inj (((hb2 tv htv).1).symm.trans htvn)
    have hlen : tv.input_controls.length = dt.inputs.length := by
      have := (hb2 tv htv).2.1
      simp only [VoxelGeneratorGraph.node_type, htvid, hfind, hty, Option.some_bind,
        Option.map_some', Option.some.injEq] at this
      exact this.symm
    have hnd : con ∉ done := by
      have := hwf.2.1
      rw [hsplit] at this
      exact fun hmem => (List.nodup_append.mp this).2.2 hmem (List.mem_cons_self _ _)
    have hedge : (⟨node_to_gui_name con.src.node_id, con.src.port_index, tv.name,
        con.dst.port_index⟩ : GraphEditConnection) = edge_of con := by
      rw [htvn]
      rfl
    have hnc : s._graph_edit.is_node_connected (edge_of con) = false := by
      simp only [GraphEdit.is_node_connected, hb3, decide_eq_false_iff_not, List.mem_map,
        not_exists, not_and]
      intro d hd he
      exact hnd (edge_of_inj he ▸ hd)
    have hnames := children_names_nodup s._graph_edit _ hwf.1 hb1 fun v hv => (hb2 v hv).1
    have hstep : build_gui_connections (con :: rest) s = build_gui_connections rest
        { s with _graph_edit :=
            { children := s._graph_edit.children.map fun v =>
                if v.name = node_to_gui_name con.dst.node_id then
                  v.set_input_visible con.dst.port_index false else v
              connections := (done ++ [con]).map edge_of } } := by
      simp only [build_gui_connections, hget, hedge, GraphEdit.connect_node, hnc,
        Bool.false_eq_true, if_false, ge_iff_le, hlen, Nat.not_le.mpr hport,
        GraphEdit.update_node, update_named_eq_map _ _ _ hnames, hb3, List.map_append,
        List.map_cons, List.map_nil]
    rw [hstep]
    apply ih (done ++ [con])
    · rw [hsplit]
      simp
    · refine ⟨?_, ?_, rfl⟩
      · simp only [List.map_map]
        rw [← hb1]
        apply List.map_congr_left
        intro v hv
        simp only [Function.comp]
        split <;> rfl
      · intro w hw
        simp only [List.mem_map] at hw
        obtain ⟨v, hv, rfl⟩ := hw
        obtain ⟨h1, h2, h3⟩ := hb2 v hv
        by_cases hvn : v.name = node_to_gui_name con.dst.node_id
        · have hvid : v.node_id = con.dst.node_id := node_to_gui_name_inj (h1.symm.trans hvn)
          simp only [hvn, if_true]
          refine ⟨h1, by simpa [VoxelGraphEditorNode.set_input_visible] using h2, ?_⟩
          intro i hi
          simp only [VoxelGraphEditorNode.set_input_visible, List.length_modify] at hi ⊢
          by_cases hip : i = con.dst.port_index
          · subst hip
            rw [List.getElem?_modify_eq, List.getElem?_eq_getElem hi]
            have : con.dst = ⟨v.node_id, con.dst.port_index⟩ := by rw [hvid]
            simp [List.any_append, ← this]
          · rw [List.getElem?_modify_ne _ _ (fun h => hip h.symm), h3 i hi]
            have : ¬ (con.dst = ⟨v.node_id, i⟩) := by
              intro he
              exact hip (by rw [he])
            simp [List.any_append, this]
        · simp only [hvn, if_false]
          refine ⟨h1, h2, ?_⟩
          intro i hi
          rw [h3 i hi]
          have : ¬ (con.dst = ⟨v.node_id, i⟩) := by
            intro he
            apply hvn
            rw [h1, show v.node_id = con.dst.node_id by rw [he]]
          simp [List.any_append, this]

theorem synchronized_of_view_built (s : VoxelGraphEditor) (g : VoxelGeneratorGraph)
    (hg : s._graph = some g) (hwf : g.WellFormed)
    (hb : view_built g g.nodes g.connections s) : s.Synchronized := by
  obtain ⟨hb1, hb2, hb3⟩ := hb
  unfold VoxelGraphEditor.Synchronized
  rw [hg]
  refine ⟨hwf, children_names_nodup s._graph_edit _ hwf.1 hb1 fun v hv => (hb2 v hv).1,
    fun v hv => ⟨(hb2 v hv).1, (hb2 v hv).2.1⟩, ?_, ?_, ?_, ?_, fun v hv => (hb2 v hv).2.2⟩
  · intro n hn
    have : n.id ∈ s._graph_edit.children.map VoxelGraphEditorNode.node_id := by
      rw [hb1]
      exact List.mem_map_of_mem _ hn
    obtain ⟨v, hv, hvid⟩ := List.mem_map.mp this
    exact ⟨v, hv, hvid⟩
  · rw [hb3]
    exact hwf.2.1.map fun a b hab => edge_of_inj hab
  · intro e he
    rw [hb3] at he
    obtain ⟨c, hc, rfl⟩ := List.mem_map.mp he
    exact ⟨c, hc, rfl⟩
  · intro c hc
    rw [hb3]
    exact List.mem_map_of_mem _ hc

/-- C13. When the graph of the editor is valid (the invariants of the model hold: unique
node ids, every connection once, between valid ports of live nodes, at most one per
destination input, one value per parameter and per input of the type; and every default
input is a number or an object), `build_gui_from_graph` completes and the view it leaves
is determined by the graph alone: the view nodes are, in the order of the model nodes, one
per node, named `node_to_gui_name(id)`; the visual edges are, in the order of the model
connections, one per connection with the same ports; and the widget of an input is hidden
exactly when the input is the destination of a model connection. The state is then
synchronized. With a null graph the view is left empty. -/
theorem build_gui_from_graph_mirrors (s : VoxelGraphEditor)
    (hvalid : ∀ g, s._graph = some g → g.WellFormed ∧
      ∀ n ∈ g.nodes, ∀ d ∈ n.default_inputs, d.get_type = .REAL ∨ d.get_type = .OBJECT) :
    ∃ s2, s.build_gui_from_graph = some s2 ∧ s2._graph = s._graph ∧
      s2._undo_redo = s._undo_redo ∧
      (s._graph = none → s2._graph_edit = ⟨[], []⟩) ∧
      (∀ g, s._graph = some g →
        s2._graph_edit.children.map VoxelGraphEditorNode.name
          = g.nodes.map (fun n => node_to_gui_name n.id) ∧
        s2._graph_edit.children.map VoxelGraphEditorNode.node_id = g.nodes.map Node.id ∧
        s2._graph_edit.connections = g.connections.map edge_of ∧
        (∀ v ∈ s2._graph_edit.children,
          (g.node_type v.node_id).map (fun ty => ty.inputs.length)
            = some v.input_controls.length ∧
          ∀ i, i < v.input_controls.length → (v.input_controls[i]?).map Control.visible
            = some (!g.is_input_connected v.node_id i)) ∧
        s2.Synchronized) := by
  cases hg : s._graph with
  | none =>
    refine ⟨s.clear, ?_, ?_, rfl, fun _ => rfl, ?_⟩
    · simp [VoxelGraphEditor.build_gui_from_graph, VoxelGraphEditor.clear, hg]
    · simp [VoxelGraphEditor.clear, hg]
    · intro g hg2
      cases hg2
  | some g =>
    obtain ⟨hwf, htyped⟩ := hvalid g hg
    have hschema : ∀ n ∈ g.nodes, ∃ ty,
        VoxelGraphNodeDB.get_singleton.get_type n.type_id = some ty ∧
        n.params.length = ty.params.length ∧ n.default_inputs.length = ty.inputs.length ∧
        ∀ d ∈ n.default_inputs, d.get_type = .REAL ∨ d.get_type = .OBJECT := by
      intro n hn
      have h := hwf.2.2.2.2 n hn
      cases hty : VoxelGraphNodeDB.get_singleton.get_type n.type_id with
      | none => simp [hty] at h
      | some ty =>
        simp only [hty, Option.map_some', Option.some.injEq, decide_eq_true_eq] at h
        exact ⟨ty, rfl, h.1, h.2, htyped n hn⟩
    obtain ⟨s1, h1, hg1, hu1, -, -, hb1⟩ := build_gui_nodes_spec g hwf.1 hschema g.nodes []
      s.clear (by simpa [VoxelGraphEditor.clear] using hg) rfl (by
        refine ⟨rfl, ?_, rfl⟩
        intro v hv
        cases hv)
    obtain ⟨hb2, hg2, hu2, -, -⟩ := build_gui_connections_spec g hwf g.connections [] s1 rfl hb1
    refine ⟨build_gui_connections g.connections s1, ?_, hg2.trans hg1, hu2.trans hu1, ?_, ?_⟩
    · simp only [VoxelGraphEditor.build_gui_from_graph]
      have hgc : s.clear._graph = some g := by simpa [VoxelGraphEditor.clear] using hg
      simp only [hgc, VoxelGeneratorGraph.get_node_ids, h1,
        VoxelGeneratorGraph.get_connections]
    · intro hnone
      cases hnone
    · intro g2 hg2e
      cases hg2e
      refine ⟨?_, hb2.1, hb2.2.2, fun v hv => ⟨(hb2.2.1 v hv).2.1, (hb2.2.1 v hv).2.2⟩,
        synchronized_of_view_built _ g (hg2.trans hg1) hwf hb2⟩
      have hn : g.nodes.map (fun n => node_to_gui_name n.id)
          = (g.nodes.map Node.id).map node_to_gui_name := by
        rw [List.map_map]
        rfl
      rw [hn, ← hb2.1, List.map_map]
      exact List.map_congr_left fun v hv => (hb2.2.1 v hv).1

/-- C13, at an editor that still shows the two nodes and the edge of the scenario and is
bound to a graph with the single node 1: the rebuilt view is the view of that graph. -/
theorem build_gui_from_graph_mirrors_witness :
    (∀ g, stale_editor._graph = some g → g.WellFormed ∧
      ∀ n ∈ g.nodes, ∀ d ∈ n.default_inputs, d.get_type = .REAL ∨ d.get_type = .OBJECT) ∧
    stale_editor._graph_edit.children.length = 2 ∧
    stale_editor._graph_edit.connections.length = 1 ∧
    ∃ s2, stale_editor.build_gui_from_graph = some s2 ∧ s2._graph = stale_editor._graph ∧
      s2._undo_redo = stale_editor._undo_redo ∧
      (stale_editor._graph = none → s2._graph_edit = ⟨[], []⟩) ∧
      (∀ g, stale_editor._graph = some g →
        s2._graph_edit.children.map VoxelGraphEditorNode.name
          = g.nodes.map (fun n => node_to_gui_name n.id) ∧
        s2._graph_edit.children.map VoxelGraphEditorNode.node_id = g.nodes.map Node.id ∧
        s2._graph_edit.connections = g.connections.map edge_of ∧
        (∀ v ∈ s2._graph_edit.children,
          (g.node_type v.node_id).map (fun ty => ty.inputs.length)
            = some v.input_controls.length ∧
          ∀ i, i < v.input_controls.length → (v.input_controls[i]?).map Control.visible
            = some (!g.is_input_connected v.node_id i)) ∧
        s2.Synchronized) := by
  have hvalid : ∀ g, stale_editor._graph = some g → g.WellFormed ∧
      ∀ n ∈ g.nodes, ∀ d ∈ n.default_inputs, d.get_type = .REAL ∨ d.get_type = .OBJECT := by
    intro g hg
    have hg2 : stale_editor._graph = some clamp_graph := rfl
    rw [hg2] at hg
    cases hg
    decide!
  exact ⟨hvalid, by decide!, by decide!, build_gui_from_graph_mirrors stale_editor hvalid⟩

/-! ## The create-node gesture -/

theorem live_of_node_type {α : Type} (g : VoxelGeneratorGraph) (id : Nat) (f : NodeType → α)
    (x : α) (h : (g.node_type id).map f = some x) : ∃ m ∈ g.nodes, m.id = id := by
  simp only [VoxelGeneratorGraph.node_type] at h
  cases hfind : g.find_node id with
  | none => simp [hfind] at h
  | some m => exact ⟨m, (find_node_some g id m hfind).1, (find_node_some g id m hfind).2⟩

theorem remove_connections_none (ge : GraphEdit) (name : String)
    (h : ∀ e ∈ ge.connections, e.from_node ≠ name ∧ e.to_node ≠ name) :
    remove_connections_from_and_to ge name = ge := by
  unfold remove_connections_from_and_to
  have hfold : ∀ (l : List GraphEditConnection) (acc : GraphEdit),
      (∀ e ∈ l, e.from_node ≠ name ∧ e.to_node ≠ name) →
      l.foldl (fun ge con =>
        if con.from_node = name ∨ con.to_node = name then
          ge.disconnect_node con.from_node con.from_port con.to_node con.to_port
        else ge) acc = acc := by
    intro l
    induction l with
    | nil => intro acc _; rfl
    | cons e l ih =>
      intro acc hl
      have he := hl e (List.mem_cons_self _ _)
      simp only [List.foldl_cons, he.1, he.2, or_self, if_false]
      exact ih acc fun e2 he2 => hl e2 (List.mem_cons_of_mem _ he2)
  exact hfold ge.connections ge h

theorem remove_node_gui_appended (s : VoxelGraphEditor) (v : VoxelGraphEditorNode)
    (ge : GraphEdit) (hge : s._graph_edit = ge.add_child v)
    (hnames : ∀ w ∈ ge.children, w.name ≠ v.name)
    (hedges : ∀ e ∈ ge.connections, e.from_node ≠ v.name ∧ e.to_node ≠ v.name) :
    s.remove_node_gui v.name = { s with _graph_edit := ge } := by
  have hrem : remove_connections_from_and_to s._graph_edit v.name = s._graph_edit := by
    apply remove_connections_none
    rw [hge]
    exact hedges
  have hget : s._graph_edit.get_node v.name = some v := by
    rw [hge]
    simp only [GraphEdit.get_node, GraphEdit.add_child, List.find?_append]
    have hnone : ge.children.find? (fun w => decide (w.name = v.name)) = none := by
      rw [List.find?_eq_none]
      intro w hw
      simpa using hnames w hw
    simp [hnone]
  have hv : v ∉ ge.children := fun hmem => hnames v hmem rfl
  simp only [VoxelGraphEditor.remove_node_gui, hrem, hget, GraphEdit.delete_child]
  rw [hge]
  simp only [GraphEdit.add_child, erase_append_singleton _ _ hv]

/-- C12. On a synchronized state whose id counter is above the ids in use, the create-node
gesture on menu item `idx` registers one transaction in which the generated id `n` (the
counter, which no node and no view node uses) serves the four steps: forward
[`create_node(idx, pos, n)`; `create_node_gui(n)`], inverse [`remove_node(n)`;
`remove_node_gui(node_to_gui_name(n))`], with `pos` the graph offset of the click. The
forward list adds one model node and one view node; the inverse list, run after it, gives
back the prior model nodes and connections and the prior view nodes and edges exactly, and
no visual edge has the removed view node for an endpoint. -/
theorem create_node_round_trip (s : VoxelGraphEditor) (g : VoxelGeneratorGraph)
    (graph_edit : GraphEditScroll) (idx : Nat) (hsync : s.Synchronized)
    (hg : s._graph = some g) (hfresh : g.FreshCounter) (hstack : s._undo_redo.Consistent)
    (hidx : idx < VoxelGraphNodeDB.get_singleton.get_type_count) :
    ∃ s1 a v s2,
      s._on_context_menu_index_pressed graph_edit idx = some s1 ∧
      s1._undo_redo.actions.getLast? = some a ∧
      a.do_ops = [Step.create_node idx
          (get_graph_offset_from_mouse graph_edit s._click_position) g.next_id,
        Step.create_node_gui g.next_id] ∧
      a.undo_ops = [Step.remove_node g.next_id,
        Step.remove_node_gui (node_to_gui_name g.next_id)] ∧
      (∀ n ∈ g.nodes, n.id ≠ g.next_id) ∧
      (∀ w ∈ s._graph_edit.children, w.name ≠ node_to_gui_name g.next_id) ∧
      (∃ g1 n, s1._graph = some g1 ∧ g1.nodes = g.nodes ++ [n] ∧ n.id = g.next_id ∧
        n.type_id = idx ∧
        n.gui_position = get_graph_offset_from_mouse graph_edit s._click_position) ∧
      s1._graph_edit.children = s._graph_edit.children ++ [v] ∧
      v.name = node_to_gui_name g.next_id ∧ v.node_id = g.next_id ∧
      s1.undo = some s2 ∧
      (∃ g2, s2._graph = some g2 ∧ g2.nodes = g.nodes ∧ g2.connections = g.connections) ∧
      s2._graph_edit = s._graph_edit ∧
      (∀ e ∈ s2._graph_edit.connections, e.from_node ≠ node_to_gui_name g.next_id ∧
        e.to_node ≠ node_to_gui_name g.next_id) := by
  obtain ⟨hwf, -, hview, -, -, hedges, -, -⟩ := synchronized_unfold s g hg hsync
  have hfr : ∀ n ∈ g.nodes, n.id ≠ g.next_id := fun n hn => Nat.ne_of_lt (hfresh n hn)
  have hfind : g.find_node g.next_id = none := by
    unfold VoxelGeneratorGraph.find_node
    rw [List.find?_eq_none]
    intro m hm
    simpa using hfr m hm
  have hnames : ∀ w ∈ s._graph_edit.children, w.name ≠ node_to_gui_name g.next_id := by
    intro w hw hname
    obtain ⟨m, hm, hmid⟩ := live_of_node_type g w.node_id _ _ (hview w hw).2
    have := node_to_gui_name_inj (((hview w hw).1).symm.trans hname)
    exact hfr m hm (hmid.trans this)
  have hno : ∀ e ∈ s._graph_edit.connections, e.from_node ≠ node_to_gui_name g.next_id ∧
      e.to_node ≠ node_to_gui_name g.next_id := by
    intro e he
    obtain ⟨c, hc, rfl⟩ := hedges e he
    obtain ⟨h1, h2⟩ := hwf.2.2.1 c hc
    obtain ⟨m1, hm1, hid1⟩ := live_of_node_type g _ _ _ h1
    obtain ⟨m2, hm2, hid2⟩ := live_of_node_type g _ _ _ h2
    constructor
    · intro he1
      exact hfr m1 hm1 (hid1.trans (node_to_gui_name_inj he1))
    · intro he2
      exact hfr m2 hm2 (hid2.trans (node_to_gui_name_inj he2))
  have hty : ∃ ty, VoxelGraphNodeDB.get_singleton.get_type idx = some ty :=
    ⟨_, List.getElem?_eq_getElem hidx⟩
  obtain ⟨ty, hty⟩ := hty
  let pos := get_graph_offset_from_mouse graph_edit s._click_position
  let newnode : Node :=
    { id := g.next_id
      type_id := idx
      gui_position := pos
      default_inputs := List.replicate ty.inputs.length (Variant.REAL 0)
      params := ty.params.map Param.default_value }
  let g3 : VoxelGeneratorGraph :=
    { nodes := g.nodes ++ [newnode], connections := g.connections, next_id := g.next_id + 1 }
  let a : Action := ⟨"Create Node", [Step.create_node idx pos g.next_id,
    Step.create_node_gui g.next_id], [Step.remove_node g.next_id,
    Step.remove_node_gui (node_to_gui_name g.next_id)]⟩
  let u1 : UndoRedo :=
    ⟨s._undo_redo.actions.take s._undo_redo.current_action ++ [a],
      s._undo_redo.current_action + 1, none⟩
  have hcreate : ({ g with next_id := g.next_id + 1 } : VoxelGeneratorGraph).create_node idx
      pos g.next_id = g3 := by
    have hfind2 : ({ g with next_id := g.next_id + 1 } : VoxelGeneratorGraph).find_node
        g.next_id = none := hfind
    simp only [VoxelGeneratorGraph.create_node, hty, hfind2, Option.isSome_none,
      Bool.false_eq_true, if_false]
  have hfind3 : g3.find_node g.next_id = some newnode := by
    have h0 : g.nodes.find? (fun m => decide (m.id = g.next_id)) = none := hfind
    simp only [VoxelGeneratorGraph.find_node, g3, List.find?_append, h0]
    simp [newnode]
  obtain ⟨v, hv, -, e1, e2, -, -, -⟩ := create_node_gui_spec
    { s with _graph := some g3, _undo_redo := u1 } g3 g.next_id newnode ty rfl hfind3 hty
    (by simp [newnode]) (by simp [newnode]) (by
      intro d hd
      left
      rw [List.eq_of_mem_replicate hd]
      rfl) (by
      cases hget : s._graph_edit.get_node (node_to_gui_name g.next_id) with
      | none => simp [GraphEdit.has_node, hget]
      | some w => exact absurd (get_node_mem _ _ _ hget).2 (hnames w (get_node_mem _ _ _ hget).1))
  have hremove : g3.remove_node g.next_id
      = { nodes := g.nodes, connections := g.connections, next_id := g.next_id + 1 } := by
    simp only [VoxelGeneratorGraph.remove_node, g3, List.filter_append]
    have hkeep : g.nodes.filter (fun n => decide (n.id ≠ g.next_id)) = g.nodes := by
      rw [List.filter_eq_self]
      intro m hm
      simpa using hfr m hm
    rw [hkeep]
    simp [newnode]
  have hgui := remove_node_gui_appended
    { s with
      _graph := some (g3.remove_node g.next_id)
      _graph_edit := s._graph_edit.add_child v
      _undo_redo := u1 } v s._graph_edit rfl
    (fun w hw => e1 ▸ hnames w hw) (fun e he => e1 ▸ hno e he)
  refine ⟨{ s with
      _graph := some g3
      _graph_edit := s._graph_edit.add_child v
      _undo_redo := u1 }, a, v,
    { s with
      _graph := some (g3.remove_node g.next_id)
      _undo_redo := { u1 with current_action := s._undo_redo.current_action } },
    ?_, by simp [u1], rfl, rfl, hfr, hnames, ⟨g3, newnode, rfl, rfl, rfl, rfl, rfl⟩, rfl, e1, e2,
    ?_, ⟨_, rfl, by rw [hremove], by rw [hremove]⟩, rfl, hno⟩
  · simp only [VoxelGraphEditor._on_context_menu_index_pressed, hg,
      context_menu_item_metadata, hidx, if_true, VoxelGeneratorGraph.generate_node_id,
      UndoRedo.create_action, UndoRedo.add_do_method, UndoRedo.add_undo_method,
      Option.map_some', VoxelGraphEditor.commit_action, List.nil_append, List.append_nil,
      List.cons_append, run_ops, Step.run]
    simp only [pos, newnode, g3, a, u1] at hv hcreate ⊢
    rw [hcreate, hv]
  · have hlast : (s._undo_redo.actions.take s._undo_redo.current_action ++ [a])[
        s._undo_redo.current_action]? = some a := by
      have hlen : (s._undo_redo.actions.take s._undo_redo.current_action).length
          = s._undo_redo.current_action := List.length_take_of_le hstack
      rw [List.getElem?_append_right (by omega)]
      simp [hlen]
    simp only [pos, newnode, g3, a, u1] at hlast hgui ⊢
    simp only [VoxelGraphEditor.undo, hlast, run_ops, Step.run, Option.map_some']
    rw [e1] at hgui
    rw [hgui]

/-- C12, at the editor of the scenario (ids 1 and 2 in use, counter 3) with menu item 2
pressed. -/
theorem create_node_round_trip_witness :
    scenario_editor.Synchronized ∧ scenario_editor._graph = some scenario_graph ∧
    scenario_graph.FreshCounter ∧ scenario_editor._undo_redo.Consistent ∧
    2 < VoxelGraphNodeDB.get_singleton.get_type_count ∧
    ∃ s1 a v s2,
      scenario_editor._on_context_menu_index_pressed scenario_scroll 2 = some s1 ∧
      s1._undo_redo.actions.getLast? = some a ∧
      a.do_ops = [Step.create_node 2
          (get_graph_offset_from_mouse scenario_scroll scenario_editor._click_position) scenario_graph.next_id,
        Step.create_node_gui scenario_graph.next_id] ∧
      a.undo_ops = [Step.remove_node scenario_graph.next_id,
        Step.remove_node_gui (node_to_gui_name scenario_graph.next_id)] ∧
      (∀ n ∈ scenario_graph.nodes, n.id ≠ scenario_graph.next_id) ∧
      (∀ w ∈ scenario_editor._graph_edit.children, w.name ≠ node_to_gui_name scenario_graph.next_id) ∧
      (∃ g1 n, s1._graph = some g1 ∧ g1.nodes = scenario_graph.nodes ++ [n] ∧ n.id = scenario_graph.next_id ∧
        n.type_id = 2 ∧
        n.gui_position = get_graph_offset_from_mouse scenario_scroll scenario_editor._click_position) ∧
      s1._graph_edit.children = scenario_editor._graph_edit.children ++ [v] ∧
      v.name = node_to_gui_name scenario_graph.next_id ∧ v.node_id = scenario_graph.next_id ∧
      s1.undo = some s2 ∧
      (∃ g2, s2._graph = some g2 ∧ g2.nodes = scenario_graph.nodes ∧ g2.connections = scenario_graph.connections) ∧
      s2._graph_edit = scenario_editor._graph_edit ∧
      (∀ e ∈ s2._graph_edit.connections, e.from_node ≠ node_to_gui_name scenario_graph.next_id ∧
        e.to_node ≠ node_to_gui_name scenario_graph.next_id) :=
  ⟨by decide!, by decide!, by decide!, by decide!, by decide!,
    create_node_round_trip scenario_editor scenario_graph scenario_scroll 2 (by decide!)
      (by decide!) (by decide!) (by decide!) (by decide!)⟩

/-! ## Connect and disconnect gestures: the round trips and the destination widget -/

theorem can_connect_port_valid (g : VoxelGeneratorGraph) (a p d q : Nat)
    (h : g.can_connect a p d q = true) :
    (g.node_type d).map (fun dt => decide (q < dt.inputs.length)) = some true := by
  unfold VoxelGeneratorGraph.can_connect at h
  simp only [VoxelGeneratorGraph.node_type]
  cases hsn : g.find_node a with
  | none => simp [hsn] at h
  | some sn =>
    cases hdn : g.find_node d with
    | none => simp [hsn, hdn] at h
    | some dn =>
      cases hst : VoxelGraphNodeDB.get_singleton.get_type sn.type_id with
      | none => simp [hsn, hdn, hst] at h
      | some st =>
        cases hdt : VoxelGraphNodeDB.get_singleton.get_type dn.type_id with
        | none => simp [hsn, hdn, hst, hdt] at h
        | some dt =>
          simp only [hsn, hdn, hst, hdt, Bool.and_eq_true, decide_eq_true_eq] at h
          simp [hdt, h.1.2]

theorem input_widget_visible_set (ge : GraphEdit) (name : String) (i : Nat) (b : Bool)
    (v : VoxelGraphEditorNode) (hget : ge.get_node name = some v)
    (hi : i < v.input_controls.length) :
    ((ge.set_input_control_visible name i b).get_node name).bind
      (fun w => (w.input_controls[i]?).map Control.visible) = some b := by
  have hfind := find_update_named name (fun w => w.set_input_visible i b) (fun w => rfl)
    ge.children
  have hget2 : ge.children.find? (fun w => decide (w.name = name)) = some v := hget
  unfold GraphEdit.set_input_control_visible
  rw [hget]
  simp only [hi, if_true]
  simp only [GraphEdit.get_node, GraphEdit.update_node, hfind, hget2, Option.map_some',
    Option.some_bind]
  simp only [VoxelGraphEditorNode.set_input_visible, List.getElem?_modify_eq,
    List.getElem?_eq_getElem hi, Option.map_some']
  rfl

theorem input_widget_visible_children (s t : VoxelGraphEditor) (name : String) (i : Nat)
    (h : t._graph_edit.children = s._graph_edit.children) :
    t.input_widget_visible name i = s.input_widget_visible name i := by
  simp only [VoxelGraphEditor.input_widget_visible, GraphEdit.get_node, h]

theorem input_widget_visible_synchronized (s : VoxelGraphEditor) (g : VoxelGeneratorGraph)
    (hg : s._graph = some g) (hsync : s.Synchronized) (name : String) (i : Nat)
    (v : VoxelGraphEditorNode) (hget : s._graph_edit.get_node name = some v)
    (hport : (g.node_type v.node_id).map (fun dt => decide (i < dt.inputs.length))
      = some true) :
    i < v.input_controls.length ∧
    s.input_widget_visible name i = some (!g.is_input_connected v.node_id i) := by
  obtain ⟨-, -, hview, -, -, -, -, hvis⟩ := synchronized_unfold s g hg hsync
  obtain ⟨hvm, -⟩ := get_node_mem _ _ _ hget
  have hlen := (hview v hvm).2
  have hi : i < v.input_controls.length := by
    cases hty : g.node_type v.node_id with
    | none => simp [hty] at hport
    | some dt =>
      simp only [hty, Option.map_some', Option.some.injEq, decide_eq_true_eq] at hport hlen
      omega
  exact ⟨hi, by simp only [VoxelGraphEditor.input_widget_visible, hget, Option.some_bind,
    hvis v hvm i hi]⟩

/-- C5. From a synchronized state: an accepted connect gesture registers the forward list
[`add_connection`; `connect_node`; `set_input_control_visible(false)`] and the inverse list
[`remove_connection`; `disconnect_node`; `set_input_control_visible(true)`] on the same
endpoints; the forward list has run, the destination widget was visible before it and is
hidden after it, and the inverse list run afterwards restores the model and the view
exactly, the widget being visible again. A disconnect gesture on an existing visual edge
registers the opposite lists; the destination widget was hidden before the forward list and
is visible after it, and the inverse list run afterwards restores the model connections and
the visual edges up to their order (the re-added one is last), the view nodes exactly, the
widget being hidden again. -/
theorem connect_disconnect_round_trip (s : VoxelGraphEditor) (g : VoxelGeneratorGraph)
    (hsync : s.Synchronized) (hg : s._graph = some g) :
    (∀ (sv dv : VoxelGraphEditorNode) (from_node_name : String) (from_slot : Nat)
        (to_node_name : String) (to_slot : Nat),
      s._graph_edit.get_node from_node_name = some sv →
      s._graph_edit.get_node to_node_name = some dv →
      g.can_connect sv.node_id from_slot dv.node_id to_slot = true →
      ∃ s1 s2,
        s._on_graph_edit_connection_request from_node_name from_slot to_node_name to_slot
          = some s1 ∧
        s1._undo_redo.actions.getLast? = some (connect_action sv.node_id from_slot dv.node_id
          to_slot from_node_name to_node_name) ∧
        run_ops (connect_action sv.node_id from_slot dv.node_id to_slot from_node_name
            to_node_name).do_ops
          { s with _undo_redo := s1._undo_redo } = some s1 ∧
        s1._graph.map VoxelGeneratorGraph.get_connections
          = some (g.connections ++ [⟨⟨sv.node_id, from_slot⟩, ⟨dv.node_id, to_slot⟩⟩]) ∧
        s1._graph_edit.connections
          = s._graph_edit.connections ++ [⟨from_node_name, from_slot, to_node_name, to_slot⟩] ∧
        run_ops (connect_action sv.node_id from_slot dv.node_id to_slot from_node_name
            to_node_name).undo_ops s1
          = some s2 ∧
        s2._graph = s._graph ∧ s2._graph_edit = s._graph_edit ∧
        s.input_widget_visible to_node_name to_slot = some true ∧
        s1.input_widget_visible to_node_name to_slot = some false ∧
        s2.input_widget_visible to_node_name to_slot = some true) ∧
    (∀ (sv dv : VoxelGraphEditorNode) (from_node_name : String) (from_slot : Nat)
        (to_node_name : String) (to_slot : Nat),
      s._graph_edit.get_node from_node_name = some sv →
      s._graph_edit.get_node to_node_name = some dv →
      (⟨from_node_name, from_slot, to_node_name, to_slot⟩ : GraphEditConnection)
        ∈ s._graph_edit.connections →
      ∃ s1 s2 g2,
        s._on_graph_edit_disconnection_request from_node_name from_slot to_node_name to_slot
          = some s1 ∧
        s1._undo_redo.actions.getLast? = some (disconnect_action sv.node_id from_slot
          dv.node_id to_slot from_node_name to_node_name) ∧
        run_ops (disconnect_action sv.node_id from_slot dv.node_id to_slot from_node_name
            to_node_name).do_ops
          { s with _undo_redo := s1._undo_redo } = some s1 ∧
        (⟨⟨sv.node_id, from_slot⟩, ⟨dv.node_id, to_slot⟩⟩ : Connection) ∈ g.connections ∧
        s1._graph.map VoxelGeneratorGraph.get_connections
          = some (g.connections.erase ⟨⟨sv.node_id, from_slot⟩, ⟨dv.node_id, to_slot⟩⟩) ∧
        s1._graph_edit.connections
          = s._graph_edit.connections.erase ⟨from_node_name, from_slot, to_node_name, to_slot⟩ ∧
        run_ops (disconnect_action sv.node_id from_slot dv.node_id to_slot from_node_name
          to_node_name).undo_ops s1 = some s2 ∧
        s2._graph = some g2 ∧ g2.nodes = g.nodes ∧ g2.next_id = g.next_id ∧
        g2.connections.Perm g.connections ∧
        s2._graph_edit.connections.Perm s._graph_edit.connections ∧
        s2._graph_edit.children = s._graph_edit.children ∧
        s.input_widget_visible to_node_name to_slot = some false ∧
        s1.input_widget_visible to_node_name to_slot = some true ∧
        s2.input_widget_visible to_node_name to_slot = some false) := by
  have hwf := (synchronized_unfold s g hg hsync).1
  constructor
  · intro sv dv from_node_name from_slot to_node_name to_slot hs hd hcan
    obtain ⟨s1, s2, h1, h2, h3, h4, h5, h6, h7, h8⟩ :=
      connect_round_trip s g sv dv from_node_name from_slot to_node_name to_slot hsync hg hs
        hd hcan
    obtain ⟨hi, hw⟩ := input_widget_visible_synchronized s g hg hsync to_node_name to_slot dv
      hd (can_connect_port_valid _ _ _ _ _ hcan)
    rw [can_connect_not_connected _ _ _ _ _ hcan] at hw
    have hw1 : s1.input_widget_visible to_node_name to_slot = some false := by
      simp only [run_ops, Step.run, connect_action, hg, Option.map_some',
        VoxelGraphEditor.set_input_control_visible, Option.some.injEq] at h3
      rw [← h3]
      exact input_widget_visible_set _ to_node_name to_slot false dv (by
        simpa [GraphEdit.connect_node, GraphEdit.get_node, apply_ite] using hd) hi
    have hw2 : s2.input_widget_visible to_node_name to_slot = some true := by
      rw [input_widget_visible_children s s2 _ _ (by rw [h8])]
      exact hw
    exact ⟨s1, s2, h1, h2, h3, h4, h5, h6, h7, h8, hw, hw1, hw2⟩
  · intro sv dv from_node_name from_slot to_node_name to_slot hs hd hedge
    obtain ⟨s1, s2, g2, h1, h2, h3, h4, h5, h6, h7, h8, h9, h10, h11, h12, h13⟩ :=
      disconnect_round_trip s g sv dv from_node_name from_slot to_node_name to_slot hsync hg
        hs hd hedge
    obtain ⟨hi, hw⟩ := input_widget_visible_synchronized s g hg hsync to_node_name to_slot dv
      hd (hwf.2.2.1 _ h4).2
    have hcon := is_input_connected_of_mem g _ h4
    simp only at hcon
    rw [hcon] at hw
    have hw1 : s1.input_widget_visible to_node_name to_slot = some true := by
      simp only [run_ops, Step.run, disconnect_action, hg, Option.map_some',
        VoxelGraphEditor.set_input_control_visible, Option.some.injEq] at h3
      rw [← h3]
      exact input_widget_visible_set _ to_node_name to_slot true dv (by
        simpa [GraphEdit.disconnect_node, GraphEdit.get_node] using hd) hi
    have hw2 : s2.input_widget_visible to_node_name to_slot = some false := by
      rw [input_widget_visible_children s s2 _ _ h13]
      exact hw
    exact ⟨s1, s2, g2, h1, h2, h3, h4, h5, h6, h7, h8, h9, h10, h11, h12, h13, hw, hw1, hw2⟩

/-- C5, at the scenario: the connect gesture from output 0 of node 1 to input 0 of node 2 in
the editor without connection, and the disconnect gesture on that edge in the editor of the
scenario. -/
theorem connect_disconnect_round_trip_witness :
    unconnected_editor.Synchronized ∧ unconnected_editor._graph = some unconnected_graph ∧
    unconnected_editor._graph_edit.connections = [] ∧
    unconnected_graph.can_connect 1 0 2 0 = true ∧
    scenario_editor.Synchronized ∧ scenario_editor._graph = some scenario_graph ∧
    (⟨"1", 0, "2", 0⟩ : GraphEditConnection) ∈ scenario_editor._graph_edit.connections ∧
    (∃ s1 s2,
      unconnected_editor._on_graph_edit_connection_request "1" 0 "2" 0 = some s1 ∧
      s1._undo_redo.actions.getLast? = some (connect_action 1 0 2
        0 "1" "2") ∧
      run_ops (connect_action 1 0 2 0 "1" "2").do_ops
        { unconnected_editor with _undo_redo := s1._undo_redo } = some s1 ∧
      s1._graph.map VoxelGeneratorGraph.get_connections
        = some (unconnected_graph.connections ++ [⟨⟨1, 0⟩, ⟨2, 0⟩⟩]) ∧
      s1._graph_edit.connections
        = unconnected_editor._graph_edit.connections ++ [⟨"1", 0, "2", 0⟩] ∧
      run_ops (connect_action 1 0 2 0 "1" "2").undo_ops s1
        = some s2 ∧
      s2._graph = unconnected_editor._graph ∧ s2._graph_edit = unconnected_editor._graph_edit ∧
      unconnected_editor.input_widget_visible "2" 0 = some true ∧
      s1.input_widget_visible "2" 0 = some false ∧
      s2.input_widget_visible "2" 0 = some true) ∧
    (∃ s1 s2 g2,
      scenario_editor._on_graph_edit_disconnection_request "1" 0 "2" 0 = some s1 ∧
      s1._undo_redo.actions.getLast? = some (disconnect_action 1 0
        2 0 "1" "2") ∧
      run_ops (disconnect_action 1 0 2 0 "1" "2").do_ops
        { scenario_editor with _undo_redo := s1._undo_redo } = some s1 ∧
      (⟨⟨1, 0⟩, ⟨2, 0⟩⟩ : Connection) ∈ scenario_graph.connections ∧
      s1._graph.map VoxelGeneratorGraph.get_connections
        = some (scenario_graph.connections.erase ⟨⟨1, 0⟩, ⟨2, 0⟩⟩) ∧
      s1._graph_edit.connections
        = scenario_editor._graph_edit.connections.erase ⟨"1", 0, "2", 0⟩ ∧
      run_ops (disconnect_action 1 0 2 0 "1"
        "2").undo_ops s1 = some s2 ∧
      s2._graph = some g2 ∧ g2.nodes = scenario_graph.nodes ∧ g2.next_id = scenario_graph.next_id ∧
      g2.connections.Perm scenario_graph.connections ∧
      s2._graph_edit.connections.Perm scenario_editor._graph_edit.connections ∧
      s2._graph_edit.children = scenario_editor._graph_edit.children ∧
      scenario_editor.input_widget_visible "2" 0 = some false ∧
      s1.input_widget_visible "2" 0 = some true ∧
      s2.input_widget_visible "2" 0 = some false) :=
  ⟨by decide!, by decide!, by decide!, by decide!, by decide!, by decide!, by decide!,
    (connect_disconnect_round_trip unconnected_editor unconnected_graph (by decide!)
      (by decide!)).1
      (unconnected_editor._graph_edit.children.get ⟨0, by decide!⟩)
      (unconnected_editor._graph_edit.children.get ⟨1, by decide!⟩) "1" 0 "2" 0
      (by decide!) (by decide!) (by decide!),
    (connect_disconnect_round_trip scenario_editor scenario_graph (by decide!)
      (by decide!)).2
      (scenario_editor._graph_edit.children.get ⟨0, by decide!⟩)
      (scenario_editor._graph_edit.children.get ⟨1, by decide!⟩) "1" 0 "2" 0
      (by decide!) (by decide!) (by decide!)⟩

/-! ## Edits of a parameter or of a default input -/

theorem Range.set_value_value (c d : Control) (x : ℚ) (h1 : c.step = d.step)
    (h2 : c.min = d.min) (h3 : c.max = d.max) :
    (Range.set_value c x).1.value = (Range.set_value d x).1.value := by
  have key : ∀ (c : Control) (w : ℚ),
      (if c.value = w then (c, false) else ({ c with value := w }, true)).1.value = w := by
    intro c w
    by_cases h : c.value = w <;> simp [h]
  unfold Range.set_value
  simp only [key]
  rw [h1, h2, h3]

theorem Range.set_value_snap (c : Control) (x : ℚ) (hs : c.step = 1 / 1000)
    (hmin : c.min = -10000) (hmax : c.max = 10000) :
    (Range.set_value c x).1.value = spin_snap x :=
  Range.set_value_value c _ x hs hmin hmax

theorem spin_snap_holds (x : ℚ) (hx : spin_holds x) : spin_snap x = x := by
  obtain ⟨h1, h2, h3⟩ := hx
  have hpos : (0 : ℚ) < 1 / 1000 := by norm_num
  unfold spin_snap Range.set_value
  simp only [hpos, if_true, h1, gt_iff_lt, not_lt.mpr h3, if_false, not_lt.mpr h2]
  by_cases hv : (0 : ℚ) = x
  · simp [hv]
  · simp [hv]

theorem spin_snap_range (x : ℚ) : -10000 ≤ spin_snap x ∧ spin_snap x ≤ 10000 := by
  unfold spin_snap Range.set_value
  simp only
  split_ifs <;> constructor <;> norm_num at * <;> linarith

theorem to_float_of_range (y : ℚ) (h1 : -10000 ≤ y) (h2 : y ≤ 10000) :
    ∃ f, to_float y = some f := by
  have hb : ¬ (pow2 128 - pow2 103 ≤ if y < 0 then -y else y) := by
    have hbound : (10000 : ℚ) < pow2 128 - pow2 103 := by decide!
    split <;> linarith
  unfold to_float
  simp only [hb, if_false]
  split
  · exact ⟨_, rfl⟩
  · exact ⟨_, rfl⟩

theorem find_node_update_node (g : VoxelGeneratorGraph) (id : Nat) (f : Node → Node)
    (hf : ∀ m, (f m).id = m.id) (id2 : Nat) :
    (g.update_node id f).find_node id2
      = (g.find_node id2).map fun m => if m.id = id then f m else m := by
  simp only [VoxelGeneratorGraph.find_node, VoxelGeneratorGraph.update_node, List.find?_map]
  congr 2
  funext m
  simp only [Function.comp]
  split
  · rw [hf]
  · rfl

theorem emit_value_changed_suppressed (s : VoxelGraphEditor) (c : Control)
    (h : s._updating_param_gui = true) (h1 : -10000 ≤ c.value) (h2 : c.value ≤ 10000) :
    s.emit_value_changed c = some s := by
  unfold VoxelGraphEditor.emit_value_changed
  cases c.value_changed with
  | none => rfl
  | some b =>
    obtain ⟨b1, b2, b3⟩ := b
    obtain ⟨f, hf⟩ := to_float_of_range c.value h1 h2
    simp [VoxelGraphEditor._on_node_param_spinbox_value_changed_with, h, hf]

theorem edit_ready_unfold (s : VoxelGraphEditor) (id i : Nat) (is_input : Bool)
    (h : s.EditReady id i is_input) :
    s._updating_param_gui = false ∧
    (∃ g n, s._graph = some g ∧ g.find_node id = some n ∧
      if is_input then i < n.default_inputs.length
      else i < n.params.length ∧ ∃ ty prm,
        VoxelGraphNodeDB.get_singleton.get_type n.type_id = some ty ∧
        ty.params[i]? = some prm ∧ prm.type = VariantType.REAL) ∧
    ∃ c, s.widget id i is_input = some c ∧ c.cls = ControlClass.SpinBox ∧
      c.step = 1 / 1000 ∧ c.min = -10000 ∧ c.max = 10000 := by
  obtain ⟨h1, h2, h3⟩ := h
  refine ⟨h1, ?_, ?_⟩
  · cases hg : s._graph with
    | none => simp [hg] at h2
    | some g =>
      cases hn : g.find_node id with
      | none => simp [hg, hn] at h2
      | some n =>
        refine ⟨g, n, rfl, hn, ?_⟩
        simp only [hg, hn, Option.some_bind, Option.map_some', Option.some.injEq,
          decide_eq_true_eq] at h2
        cases is_input with
        | true => simpa using h2
        | false =>
          simp only [Bool.false_eq_true, if_false] at h2 ⊢
          refine ⟨h2.1, ?_⟩
          cases hty : VoxelGraphNodeDB.get_singleton.get_type n.type_id with
          | none => simp [hty] at h2
          | some ty =>
            cases hprm : ty.params[i]? with
            | none => simp [hty, hprm] at h2
            | some prm =>
              refine ⟨ty, prm, rfl, hprm, ?_⟩
              simpa [hty, hprm] using h2.2
  · cases hw : s.widget id i is_input with
    | none => simp [hw] at h3
    | some c =>
      simp only [hw, Option.map_some', Option.some.injEq, decide_eq_true_eq] at h3
      exact ⟨c, rfl, h3⟩

theorem edit_ready_intro (s : VoxelGraphEditor) (id i : Nat) (is_input : Bool)
    (h1 : s._updating_param_gui = false)
    (h2 : ∃ g n, s._graph = some g ∧ g.find_node id = some n ∧
      if is_input then i < n.default_inputs.length
      else i < n.params.length ∧ ∃ ty prm,
        VoxelGraphNodeDB.get_singleton.get_type n.type_id = some ty ∧
        ty.params[i]? = some prm ∧ prm.type = VariantType.REAL)
    (h3 : ∃ c, s.widget id i is_input = some c ∧ c.cls = ControlClass.SpinBox ∧
      c.step = 1 / 1000 ∧ c.min = -10000 ∧ c.max = 10000) :
    s.EditReady id i is_input := by
  obtain ⟨g, n, hg, hn, hslot⟩ := h2
  obtain ⟨c, hw, hc⟩ := h3
  refine ⟨h1, ?_, ?_⟩
  · simp only [hg, hn, Option.some_bind, Option.map_some', Option.some.injEq,
      decide_eq_true_eq]
    cases is_input with
    | true => simpa using hslot
    | false =>
      simp only [Bool.false_eq_true, if_false] at hslot ⊢
      obtain ⟨hi, ty, prm, hty, hprm, hreal⟩ := hslot
      exact ⟨hi, by simp [hty, hprm, hreal]⟩
  · simp only [hw, Option.map_some', Option.some.injEq, decide_eq_true_eq]
    exact hc

theorem set_param_and_refresh (t : VoxelGraphEditor) (id i : Nat) (x : ℚ)
    (hready : t.EditReady id i false) :
    ∃ t2, run_ops [Step.set_node_param id i (Variant.REAL x),
        Step.update_node_param_gui id i false] t = some t2 ∧
      t2.EditReady id i false ∧ t2.model_value id i false = some (Variant.REAL x) ∧
      (t2.widget id i false).map Control.value = some (spin_snap x) ∧
      t2._undo_redo = t._undo_redo := by
  obtain ⟨hflag, ⟨g, n, hg, hn, hslot⟩, c, hw, hcls, hst, hmin, hmax⟩ :=
    edit_ready_unfold _ _ _ _ hready
  simp only [Bool.false_eq_true, if_false] at hslot
  obtain ⟨hi, ty, prm, hty, hprm, hreal⟩ := hslot
  simp only [VoxelGraphEditor.widget, Bool.false_eq_true, if_false] at hw
  cases hget : t._graph_edit.get_node (node_to_gui_name id) with
  | none => simp [hget] at hw
  | some w =>
  simp only [hget, Option.some_bind] at hw
  have hnid : n.id = id := (find_node_some g id n hn).2
  have hset : g.set_node_param id i (Variant.REAL x)
      = some (g.update_node id fun n => { n with params := n.params.set i (Variant.REAL x) }) := by
    simp [VoxelGeneratorGraph.set_node_param, hn, hty, hprm, hi, hreal, Variant.get_type]
  have hn2 : (g.update_node id fun n =>
      { n with params := n.params.set i (Variant.REAL x) }).find_node id
      = some { n with params := n.params.set i (Variant.REAL x) } := by
    have h := find_node_update_node g id
      (fun n => { n with params := n.params.set i (Variant.REAL x) }) (fun m => rfl) id
    rw [h, hn]
    simp [hnid]
  have hval : (n.params.set i (Variant.REAL x))[i]? = some (Variant.REAL x) := by
    simp [hi]
  have hfields := Range.set_value_fields c x
  have hvalue := Range.set_value_snap c x hst hmin hmax
  have hilen : i < w.param_controls.length := (List.getElem?_eq_some.mp hw).1
  have hwidget : (({ t with
      _graph := some (g.update_node id fun n =>
        { n with params := n.params.set i (Variant.REAL x) })
      _graph_edit := t._graph_edit.update_node (node_to_gui_name id) fun v =>
        { v with param_controls := v.param_controls.set i (Range.set_value c x).1 }
      _updating_param_gui := false } : VoxelGraphEditor).widget id i false)
      = some (Range.set_value c x).1 := by
    have hfind := find_update_named (node_to_gui_name id)
      (fun v => { v with param_controls := v.param_controls.set i (Range.set_value c x).1 })
      (fun v => rfl) t._graph_edit.children
    have hget2 : t._graph_edit.children.find?
        (fun v => decide (v.name = node_to_gui_name id)) = some w := hget
    simp only [VoxelGraphEditor.widget, GraphEdit.get_node, GraphEdit.update_node, hfind,
      hget2, Option.map_some', Option.some_bind, Bool.false_eq_true, if_false]
    simp [hilen]
  refine ⟨{ t with
    _graph := some (g.update_node id fun n =>
      { n with params := n.params.set i (Variant.REAL x) })
    _graph_edit := t._graph_edit.update_node (node_to_gui_name id) fun v =>
      { v with param_controls := v.param_controls.set i (Range.set_value c x).1 }
    _updating_param_gui := false }, ?_, ?_, ?_, ?_, rfl⟩
  · simp only [run_ops, Step.run, hg, reduceCtorEq, if_false, hset, Option.map_some',
      VoxelGraphEditor.update_node_param_gui, hget,
      VoxelGeneratorGraph.get_node_type_id, hn2, hty, hprm,
      VoxelGeneratorGraph.get_node_param, hval, hw, hreal, hcls, ne_eq, not_true_eq_false,
      Bool.false_eq_true, Variant.to_real]
    cases hem : (Range.set_value c x).2 with
    | false => simp
    | true =>
      simp only [if_true]
      rw [emit_value_changed_suppressed _ _ rfl (hvalue ▸ (spin_snap_range x).1)
        (hvalue ▸ (spin_snap_range x).2)]
  · refine edit_ready_intro _ _ _ _ rfl ⟨_, _, rfl, hn2, ?_⟩ ⟨_, hwidget, hfields.1.trans hcls,
      hfields.2.2.1.trans hst, hfields.2.2.2.1.trans hmin, hfields.2.2.2.2.1.trans hmax⟩
    simp only [Bool.false_eq_true, if_false, List.length_set]
    exact ⟨hi, ty, prm, hty, hprm, hreal⟩
  · simp only [VoxelGraphEditor.model_value, Option.some_bind, Bool.false_eq_true, if_false,
      VoxelGeneratorGraph.get_node_param, hn2, hval]
  · rw [hwidget, Option.map_some', hvalue]

theorem set_input_and_refresh (t : VoxelGraphEditor) (id i : Nat) (x : ℚ)
    (hready : t.EditReady id i true) :
    ∃ t2, run_ops [Step.set_node_default_input id i (Variant.REAL x),
        Step.update_node_param_gui id i true] t = some t2 ∧
      t2.EditReady id i true ∧ t2.model_value id i true = some (Variant.REAL x) ∧
      (t2.widget id i true).map Control.value = some (spin_snap x) ∧
      t2._undo_redo = t._undo_redo := by
  obtain ⟨hflag, ⟨g, n, hg, hn, hslot⟩, c, hw, hcls, hst, hmin, hmax⟩ :=
    edit_ready_unfold _ _ _ _ hready
  simp only [if_true] at hslot
  simp only [VoxelGraphEditor.widget, if_true] at hw
  cases hget : t._graph_edit.get_node (node_to_gui_name id) with
  | none => simp [hget] at hw
  | some w =>
  simp only [hget, Option.some_bind] at hw
  have hnid : n.id = id := (find_node_some g id n hn).2
  have hset : g.set_node_default_input id i (Variant.REAL x)
      = some (g.update_node id fun n =>
        { n with default_inputs := n.default_inputs.set i (Variant.REAL x) }) := by
    simp [VoxelGeneratorGraph.set_node_default_input, hn, hslot, Variant.get_type]
  have hn2 : (g.update_node id fun n =>
      { n with default_inputs := n.default_inputs.set i (Variant.REAL x) }).find_node id
      = some { n with default_inputs := n.default_inputs.set i (Variant.REAL x) } := by
    have h := find_node_update_node g id
      (fun n => { n with default_inputs := n.default_inputs.set i (Variant.REAL x) })
      (fun m => rfl) id
    rw [h, hn]
    simp [hnid]
  have hval : (n.default_inputs.set i (Variant.REAL x))[i]? = some (Variant.REAL x) := by
    simp [hslot]
  have hfields := Range.set_value_fields c x
  have hvalue := Range.set_value_snap c x hst hmin hmax
  have hilen : i < w.input_controls.length := (List.getElem?_eq_some.mp hw).1
  have hwidget : (({ t with
      _graph := some (g.update_node id fun n =>
        { n with default_inputs := n.default_inputs.set i (Variant.REAL x) })
      _graph_edit := t._graph_edit.update_node (node_to_gui_name id) fun v =>
        { v with input_controls := v.input_controls.set i (Range.set_value c x).1 }
      _updating_param_gui := false } : VoxelGraphEditor).widget id i true)
      = some (Range.set_value c x).1 := by
    have hfind := find_update_named (node_to_gui_name id)
      (fun v => { v with input_controls := v.input_controls.set i (Range.set_value c x).1 })
      (fun v => rfl) t._graph_edit.children
    have hget2 : t._graph_edit.children.find?
        (fun v => decide (v.name = node_to_gui_name id)) = some w := hget
    simp only [VoxelGraphEditor.widget, GraphEdit.get_node, GraphEdit.update_node, hfind,
      hget2, Option.map_some', Option.some_bind, if_true]
    simp [hilen]
  refine ⟨{ t with
    _graph := some (g.update_node id fun n =>
      { n with default_inputs := n.default_inputs.set i (Variant.REAL x) })
    _graph_edit := t._graph_edit.update_node (node_to_gui_name id) fun v =>
      { v with input_controls := v.input_controls.set i (Range.set_value c x).1 }
    _updating_param_gui := false }, ?_, ?_, ?_, ?_, rfl⟩
  · simp only [run_ops, Step.run, hg, reduceCtorEq, if_false, hset, Option.map_some',
      VoxelGraphEditor.update_node_param_gui, hget, if_true,
      VoxelGeneratorGraph.get_node_default_input, hn2, hval, hw, hcls, ne_eq,
      not_true_eq_false, Bool.false_eq_true, Variant.to_real]
    cases hem : (Range.set_value c x).2 with
    | false => simp
    | true =>
      simp only [if_true]
      rw [emit_value_changed_suppressed _ _ rfl (hvalue ▸ (spin_snap_range x).1)
        (hvalue ▸ (spin_snap_range x).2)]
  · refine edit_ready_intro _ _ _ _ rfl ⟨_, _, rfl, hn2, ?_⟩ ⟨_, hwidget, hfields.1.trans hcls,
      hfields.2.2.1.trans hst, hfields.2.2.2.1.trans hmin, hfields.2.2.2.2.1.trans hmax⟩
    simp only [if_true, List.length_set]
    exact hslot
  · simp only [VoxelGraphEditor.model_value, Option.some_bind, if_true,
      VoxelGeneratorGraph.get_node_default_input, hn2, hval]
  · rw [hwidget, Option.map_some', hvalue]

theorem set_and_refresh (t : VoxelGraphEditor) (id i : Nat) (is_input : Bool) (x : ℚ)
    (hready : t.EditReady id i is_input) :
    ∃ t2, run_ops [set_step id i (Variant.REAL x) is_input,
        Step.update_node_param_gui id i is_input] t = some t2 ∧
      t2.EditReady id i is_input ∧ t2.model_value id i is_input = some (Variant.REAL x) ∧
      (t2.widget id i is_input).map Control.value = some (spin_snap x) ∧
      t2._undo_redo = t._undo_redo := by
  cases is_input with
  | false => exact set_param_and_refresh t id i x hready
  | true => exact set_input_and_refresh t id i x hready

theorem edit_ready_congr (s t : VoxelGraphEditor) (id i : Nat) (is_input : Bool)
    (h1 : t._graph = s._graph) (h2 : t._graph_edit = s._graph_edit)
    (h3 : t._updating_param_gui = s._updating_param_gui)
    (h : s.EditReady id i is_input) : t.EditReady id i is_input := by
  unfold VoxelGraphEditor.EditReady VoxelGraphEditor.widget at *
  rw [h1, h2, h3]
  exact h

theorem edit_handler_commits (s : VoxelGraphEditor) (id i : Nat) (is_input : Bool)
    (p : Variant) (v f : ℚ) (hflag : s._updating_param_gui = false)
    (hprev : s.model_value id i is_input = some p) (hf : to_float v = some f)
    (commit : VoxelGraphEditor → Option VoxelGraphEditor) :
    VoxelGraphEditor._on_node_param_spinbox_value_changed_with commit s v id i is_input
      = commit { s with _undo_redo :=
          ⟨s._undo_redo.actions.take s._undo_redo.current_action, s._undo_redo.current_action,
            some ⟨if is_input then "Set Node Default Input" else "Set Node Param",
              [set_step id i (Variant.REAL f) is_input,
                Step.update_node_param_gui id i is_input],
              [if is_input then Step.set_node_default_input id i p
                else if p = Variant.NIL then Step.set_node_param_null id i
                else Step.set_node_param id i p,
                Step.update_node_param_gui id i is_input]⟩⟩ } := by
  cases hg : s._graph with
  | none => simp [VoxelGraphEditor.model_value, hg] at hprev
  | some g =>
    cases is_input with
    | false =>
      simp only [VoxelGraphEditor.model_value, hg, Option.some_bind, Bool.false_eq_true,
        if_false] at hprev
      by_cases hnil : p = Variant.NIL
      · subst hnil
        simp only [VoxelGraphEditor._on_node_param_spinbox_value_changed_with, hf, hflag, hg,
          hprev, Bool.false_eq_true, if_false, if_true, Variant.get_type,
          UndoRedo.create_action, UndoRedo.add_do_method, UndoRedo.add_undo_method,
          Option.map_some', List.nil_append, List.cons_append, set_step]
      · have hty : ¬ (p.get_type = VariantType.NIL) := by
          cases p <;> simp_all [Variant.get_type]
        simp only [VoxelGraphEditor._on_node_param_spinbox_value_changed_with, hf, hflag, hg,
          hprev, Bool.false_eq_true, if_false, hty, hnil,
          UndoRedo.create_action, UndoRedo.add_do_method, UndoRedo.add_undo_method,
          Option.map_some', List.nil_append, List.cons_append, set_step]
    | true =>
      simp only [VoxelGraphEditor.model_value, hg, Option.some_bind, if_true] at hprev
      simp only [VoxelGraphEditor._on_node_param_spinbox_value_changed_with, hf, hflag, hg,
        hprev, Bool.false_eq_true, if_false, if_true,
        UndoRedo.create_action, UndoRedo.add_do_method, UndoRedo.add_undo_method,
        Option.map_some', List.nil_append, List.cons_append, set_step]

/-- C11 (amended). For an edit of a parameter or of a default input to the value v, on a
slot that holds the number p and whose widget is the spinner of `create_param_control`,
made while the suppression flag is clear: with f the `float` that v is narrowed to, the
transaction is [model set f; refresh widget] with inverse [model set p; refresh widget];
after the commit the model holds f and the widget `spin_snap f` (the nearest multiple of the
step 0.001 within [-10000, 10000]), after undo the model holds exactly p and the widget
`spin_snap p`, after redo again f and `spin_snap f`; for a value that is a multiple of the
step within the range the widget holds the value itself. Undo and redo leave the list of
committed actions as it is and open no action, and the flag is clear after each. -/
theorem edit_undo_redo (s : VoxelGraphEditor) (id i : Nat) (is_input : Bool) (p v f : ℚ)
    (hready : s.EditReady id i is_input) (hstack : s._undo_redo.Consistent)
    (hprev : s.model_value id i is_input = some (Variant.REAL p))
    (hf : to_float v = some f) :
    ∃ s1 s2 s3 a,
      s._on_node_param_spinbox_value_changed v id i is_input = some s1 ∧
      s1._undo_redo.actions = s._undo_redo.actions.take s._undo_redo.current_action ++ [a] ∧
      a.do_ops = [set_step id i (Variant.REAL f) is_input,
        Step.update_node_param_gui id i is_input] ∧
      a.undo_ops = [set_step id i (Variant.REAL p) is_input,
        Step.update_node_param_gui id i is_input] ∧
      s1.model_value id i is_input = some (Variant.REAL f) ∧
      (s1.widget id i is_input).map Control.value = some (spin_snap f) ∧
      s1.undo = some s2 ∧
      s2.model_value id i is_input = some (Variant.REAL p) ∧
      (s2.widget id i is_input).map Control.value = some (spin_snap p) ∧
      s2.redo = some s3 ∧
      s3.model_value id i is_input = some (Variant.REAL f) ∧
      (s3.widget id i is_input).map Control.value = some (spin_snap f) ∧
      (spin_holds f → spin_snap f = f) ∧ (spin_holds p → spin_snap p = p) ∧
      s2._undo_redo.actions = s1._undo_redo.actions ∧
      s3._undo_redo.actions = s1._undo_redo.actions ∧
      s1._undo_redo.pending = none ∧ s2._undo_redo.pending = none ∧
      s3._undo_redo.pending = none ∧
      s1._updating_param_gui = false ∧ s2._updating_param_gui = false ∧
      s3._updating_param_gui = false := by
  let a : Action := ⟨if is_input then "Set Node Default Input" else "Set Node Param",
    [set_step id i (Variant.REAL f) is_input, Step.update_node_param_gui id i is_input],
    [set_step id i (Variant.REAL p) is_input, Step.update_node_param_gui id i is_input]⟩
  have hlast : (s._undo_redo.actions.take s._undo_redo.current_action ++ [a])[
      s._undo_redo.current_action]? = some a := by
    have hlen : (s._undo_redo.actions.take s._undo_redo.current_action).length
        = s._undo_redo.current_action := List.length_take_of_le hstack
    rw [List.getElem?_append_right (by omega)]
    simp [hlen]
  obtain ⟨t1, hrun1, hready1, hm1, hw1, hu1⟩ := set_and_refresh
    { s with _undo_redo :=
      ⟨s._undo_redo.actions.take s._undo_redo.current_action ++ [a],
        s._undo_redo.current_action + 1, none⟩ } id i is_input f
    (edit_ready_congr s _ id i is_input rfl rfl rfl hready)
  obtain ⟨t2, hrun2, hready2, hm2, hw2, hu2⟩ := set_and_refresh t1 id i is_input p hready1
  obtain ⟨t3, hrun3, hready3, hm3, hw3, hu3⟩ := set_and_refresh
    { t2 with _undo_redo :=
      ⟨s._undo_redo.actions.take s._undo_redo.current_action ++ [a],
        s._undo_redo.current_action + 1, none⟩ } id i is_input f
    (edit_ready_congr t2 _ id i is_input rfl rfl rfl hready2)
  simp only at hu1 hu3
  refine ⟨t1, { t2 with _undo_redo :=
      { t2._undo_redo with current_action := s._undo_redo.current_action } }, t3, a,
    ?_, by rw [hu1], rfl, rfl, hm1, hw1, ?_, hm2, hw2, ?_, hm3, hw3, spin_snap_holds f,
    spin_snap_holds p, ?_, ?_, ?_, ?_, ?_, hready1.1, hready2.1, hready3.1⟩
  · have hstep : (if is_input then Step.set_node_default_input id i (Variant.REAL p)
        else if Variant.REAL p = Variant.NIL then Step.set_node_param_null id i
        else Step.set_node_param id i (Variant.REAL p))
        = set_step id i (Variant.REAL p) is_input := by
      cases is_input <;> simp [set_step]
    rw [VoxelGraphEditor._on_node_param_spinbox_value_changed,
      edit_handler_commits s id i is_input (Variant.REAL p) v f hready.1 hprev hf, hstep]
    simp only [VoxelGraphEditor.commit_action]
    exact hrun1
  · simp only [VoxelGraphEditor.undo, hu1, hlast, a, hrun2, Option.map_some']
  · rw [hu1] at hu2
    simp only [VoxelGraphEditor.redo, hu2, hlast]
    exact hrun3
  · rw [hu2]
  · rw [hu3, hu1]
  · rw [hu1]
  · rw [hu2, hu1]
  · rw [hu3]

/-- C11 (amended), at the witness of the claim: the value of the Constant node 1 of the
scenario is edited from 0 to 5 (5 is a `float`, and 0 and 5 are values the spinner
holds). -/
theorem edit_undo_redo_witness :
    scenario_editor.EditReady 1 0 false ∧ scenario_editor._undo_redo.Consistent ∧
    scenario_editor.model_value 1 0 false = some (Variant.REAL 0) ∧
    to_float 5 = some 5 ∧ spin_snap 0 = 0 ∧ spin_snap 5 = 5 ∧
    ∃ s1 s2 s3 a,
      scenario_editor._on_node_param_spinbox_value_changed 5 1 0 false = some s1 ∧
      s1._undo_redo.actions = scenario_editor._undo_redo.actions.take
        scenario_editor._undo_redo.current_action ++ [a] ∧
      a.do_ops = [set_step 1 0 (Variant.REAL 5) false,
        Step.update_node_param_gui 1 0 false] ∧
      a.undo_ops = [set_step 1 0 (Variant.REAL 0) false,
        Step.update_node_param_gui 1 0 false] ∧
      s1.model_value 1 0 false = some (Variant.REAL 5) ∧
      (s1.widget 1 0 false).map Control.value = some (spin_snap 5) ∧
      s1.undo = some s2 ∧
      s2.model_value 1 0 false = some (Variant.REAL 0) ∧
      (s2.widget 1 0 false).map Control.value = some (spin_snap 0) ∧
      s2.redo = some s3 ∧
      s3.model_value 1 0 false = some (Variant.REAL 5) ∧
      (s3.widget 1 0 false).map Control.value = some (spin_snap 5) ∧
      (spin_holds 5 → spin_snap 5 = 5) ∧ (spin_holds 0 → spin_snap 0 = 0) ∧
      s2._undo_redo.actions = s1._undo_redo.actions ∧
      s3._undo_redo.actions = s1._undo_redo.actions ∧
      s1._undo_redo.pending = none ∧ s2._undo_redo.pending = none ∧
      s3._undo_redo.pending = none ∧
      s1._updating_param_gui = false ∧ s2._updating_param_gui = false ∧
      s3._updating_param_gui = false :=
  ⟨by decide!, by decide!, by decide!, by decide!, by decide!, by decide!,
    edit_undo_redo scenario_editor 1 0 false 0 5 5 (by decide!) (by decide!) (by decide!)
      (by decide!)⟩

/-- C11 as stated fails for a value that is not a `float`. The user sets the spinner of
the Constant node 1 of the scenario to 0.1: the handler takes it as `float value`, the model
holds 13421773/134217728 (0.100000001490116...) after the commit while the widget holds
0.1. Then the user sets the spinner to 5 and undoes: the model holds the previous value
13421773/134217728 again, and the widget holds 0.1. -/
theorem edit_value_narrowed_to_float :
    to_float (1 / 10) = some (13421773 / 134217728) ∧
    ((scenario_editor._on_node_param_spinbox_value_changed (1 / 10) 1 0 false).map fun s1 =>
      (s1._undo_redo.actions.map Action.do_ops, s1.model_value 1 0 false,
        (s1.widget 1 0 false).map Control.value))
      = some ([[Step.set_node_param 1 0 (Variant.REAL (13421773 / 134217728)),
          Step.update_node_param_gui 1 0 false]],
        some (Variant.REAL (13421773 / 134217728)), some (1 / 10)) ∧
    scenario_editor._on_node_param_spinbox_value_changed (1 / 10) 1 0 false
      = some tenth_editor ∧
    (((tenth_editor._on_node_param_spinbox_value_changed 5 1 0 false).bind fun s1 =>
      s1.undo).map fun s2 =>
        (s2.model_value 1 0 false, (s2.widget 1 0 false).map Control.value))
      = some (some (Variant.REAL (13421773 / 134217728)), some (1 / 10)) := by
  decide!

/-! ## The inverse step of an edit -/

end VoxelGraph
